import Mathlib

/-!
The from-netdev packet pipeline of bpf_netdev.c

A shallow embedding of `bpf/bpf_netdev.c`.  Every function of the file is a
Lean function over an explicit `World` (the `__sk_buff`, the connection
tracker store, and the list of calls made into the `lib/` helpers).  The
helpers of `lib/*.h`, the constants of the headers and the build-time
configuration are not part of the file and are parameters of the model.
-/

set_option linter.unusedVariables false

namespace Netdev

/-! ## Data types -/

/-- The `union v6addr` of lib/common.h, as its four 32-bit words. -/
structure v6addr where
  p1 : Nat := 0
  p2 : Nat := 0
  p3 : Nat := 0
  p4 : Nat := 0
deriving DecidableEq, Repr, Inhabited

/-- The fields of `struct iphdr` that the file reads. -/
structure iphdr where
  ihl : Nat := 0
  protocol : Nat := 0
  saddr : Nat := 0
  daddr : Nat := 0
deriving DecidableEq, Repr, Inhabited

/-- The fields of `struct ipv6hdr` that the file reads; `word0` is the first
32-bit word of the header (version, traffic class, flow label) as loaded by
`*(__u32 *) ip6`. -/
structure ipv6hdr where
  word0 : Nat := 0
  nexthdr : Nat := 0
  saddr : v6addr := {}
  daddr : v6addr := {}
deriving DecidableEq, Repr, Inhabited

/-- The `struct __sk_buff` fields used by the file.  `ip4` and `ip6` are the
bytes at `data + ETH_HLEN` read through `struct iphdr *` and
`struct ipv6hdr *`. -/
structure SkBuff where
  data : Nat := 0
  data_end : Nat := 0
  protocol : Nat := 0
  mark : Nat := 0
  tc_index : Nat := 0
  cb : Fin 5 → Nat := fun _ => 0
  ingress_ifindex : Nat := 0
  ip4 : iphdr := {}
  ip6 : ipv6hdr := {}

/-- The `struct ipv4_ct_tuple` of lib/common.h. -/
structure ipv4_ct_tuple where
  daddr : Nat := 0
  saddr : Nat := 0
  dport : Nat := 0
  sport : Nat := 0
  nexthdr : Nat := 0
  flags : Nat := 0
deriving DecidableEq, Repr, Inhabited

/-- The `struct ipv6_ct_tuple` of lib/common.h. -/
structure ipv6_ct_tuple where
  daddr : v6addr := {}
  saddr : v6addr := {}
  dport : Nat := 0
  sport : Nat := 0
  nexthdr : Nat := 0
  flags : Nat := 0
deriving DecidableEq, Repr, Inhabited

/-- Modelled from the spec: `struct ct_state` is declared in lib/common.h,
which is not part of the file.  The connection state "carries a reverse-NAT
index (0 = none), a loopback flag, the original destination port, and the
source's security identity recorded at creation time". -/
structure ct_state where
  rev_nat_index : Nat := 0
  loopback : Nat := 0
  orig_dport : Nat := 0
  src_sec_id : Nat := 0
deriving DecidableEq, Repr, Inhabited

/-- The `struct csum_offset` of lib/csum.h. -/
structure csum_offset where
  offset : Nat := 0
  flags : Nat := 0
deriving DecidableEq, Repr, Inhabited

/-- The `struct lb4_key` of lib/common.h. -/
structure lb4_key where
  address : Nat := 0
  dport : Nat := 0
  slave : Nat := 0
deriving DecidableEq, Repr, Inhabited

/-- The `struct lb6_key` of lib/common.h. -/
structure lb6_key where
  address : v6addr := {}
  dport : Nat := 0
  slave : Nat := 0
deriving DecidableEq, Repr, Inhabited

/-- The `struct lb4_service` of lib/common.h. -/
structure lb4_service where
  target : Nat := 0
  port : Nat := 0
  count : Nat := 0
  rev_nat_index : Nat := 0
  weight : Nat := 0
deriving DecidableEq, Repr, Inhabited

/-- The `struct lb6_service` of lib/common.h. -/
structure lb6_service where
  target : v6addr := {}
  port : Nat := 0
  count : Nat := 0
  rev_nat_index : Nat := 0
  weight : Nat := 0
deriving DecidableEq, Repr, Inhabited

/-- The `struct endpoint_info` of lib/common.h: the flags word, and the rest
of the entry kept as one number. -/
structure endpoint_info where
  flags : Nat := 0
  rest : Nat := 0
deriving DecidableEq, Repr, Inhabited

/-- The `struct endpoint_key` of lib/common.h.  The C type overlays `ip4` and
`ip6` in a union; the two members are kept apart here and the one that is not
assigned stays at the zero of `key = {}`. -/
structure endpoint_key where
  ip4 : Nat := 0
  ip6 : v6addr := {}
  family : Nat := 0
deriving DecidableEq, Repr, Inhabited

/-- The debug points named in the file (`DBG_*` of lib/dbg.h). -/
inductive Dbg where
  | DBG_CAPTURE_FROM_LB
  | DBG_CAPTURE_NAT
  | DBG_CAPTURE_FROM_NETDEV
  | DBG_CAPTURE_FROM_NAT
  | DBG_CAPTURE_DELIVERY
  | DBG_NETDEV_IN_CLUSTER
  | DBG_NETDEV_ENCAP4
deriving DecidableEq, Repr

/-- One call from the file into a helper of `lib/` or of the kernel: the
arguments that identify the call, followed by what the call returned. -/
inductive Event where
  | cilium_trace_capture (point : Dbg) (arg : Int)
  | cilium_trace (point : Dbg) (arg1 arg2 : Nat)
  | ct_lookup4 (tuple : ipv4_ct_tuple) (dir : Nat) (ret : Int) (state : ct_state)
  | ct_lookup6 (tuple : ipv6_ct_tuple) (dir : Nat) (ret : Int) (state : ct_state)
  | ct_create4 (tuple : ipv4_ct_tuple) (dir : Nat) (state : ct_state) (ret : Int)
  | ct_create6 (tuple : ipv6_ct_tuple) (dir : Nat) (state : ct_state) (ret : Int)
  | lb4_rev_nat (index : Nat) (tuple : ipv4_ct_tuple) (ret : Int)
  | lb6_rev_nat (index : Nat) (tuple : ipv6_ct_tuple) (ret : Int)
  | extract_l4_port (nexthdr : Nat) (l4_off : Int) (ret : Int) (port : Nat)
  | lb4_lookup_service (key : lb4_key) (svc : Option lb4_service)
  | lb6_lookup_service (key : lb6_key) (svc : Option lb6_service)
  | lb4_select_slave (key : lb4_key) (count weight : Nat) (slave : Nat)
  | lb6_select_slave (key : lb6_key) (count weight : Nat) (slave : Nat)
  | lb4_lookup_slave (key : lb4_key) (slave : Nat) (svc : Option lb4_service)
  | lb6_lookup_slave (key : lb6_key) (slave : Nat) (svc : Option lb6_service)
  | lb4_xlate (new_dst : Nat) (svc : lb4_service) (ret : Int)
  | lb6_xlate (new_dst : v6addr) (svc : lb6_service) (ret : Int)
  | skb_change_type (type : Nat) (ret : Int)
  | encode_nat_metadata (identity revnat : Nat)
  | icmp6_handle (ret : Int)
  | reverse_proxy (ret : Int)
  | reverse_proxy6 (ret : Int)
  | lookup_ip4_endpoint (ip4 : iphdr) (ep : Option endpoint_info)
  | lookup_ip6_endpoint (ip6 : ipv6hdr) (ep : Option endpoint_info)
  | ipv4_local_delivery (secctx : Nat) (ep : endpoint_info) (ret : Int)
  | ipv6_local_delivery (secctx : Nat) (ep : endpoint_info) (ret : Int)
  | encap_and_redirect (key : endpoint_key) (secctx : Nat) (ret : Int)
  | policy_can_access (src_label : Nat) (addr : List Nat) (verdict : Int)
  | ep_tail_call (index : Nat) (taken : Bool)
  | send_drop_notify (src dst dst_id : Nat) (ifindex : Int) (exitcode : Int) (ret : Int)
  | send_drop_notify_error (error : Int) (exitcode : Int) (ret : Int)
  | redirect (ifindex : Int) (flags : Nat) (ret : Int)
deriving DecidableEq, Repr

/-- The constants and macros that the file takes from its headers
(`bpf/api.h`, `lib/common.h`, `lib/conntrack.h`, `lib/drop.h`, the kernel
UAPI).  None of them is defined in the file, so each is a parameter. -/
structure Consts where
  ETH_HLEN : Nat
  sizeof_iphdr : Nat
  sizeof_ipv6hdr : Nat
  TC_ACT_OK : Int
  TC_ACT_SHOT : Int
  IS_ERR : Int → Bool
  DROP_INVALID : Int
  DROP_POLICY : Int
  DROP_CT_CANT_CREATE : Int
  DROP_UNKNOWN_L3 : Int
  DROP_UNKNOWN_L4 : Int
  DROP_MISSED_TAIL_CALL : Int
  DROP_WRITE_ERROR : Int
  CT_NEW : Int
  CT_ESTABLISHED : Int
  CT_REPLY : Int
  CT_RELATED : Int
  CT_EGRESS : Nat
  CT_INGRESS : Nat
  REV_NAT_F_TUPLE_SADDR : Nat
  IPPROTO_ICMPV6 : Nat
  IPV6_FLOWLABEL_MASK : Nat
  bpf_ntohl : Nat → Nat
  htons_ETH_P_IP : Nat
  htons_ETH_P_IPV6 : Nat
  ENDPOINT_F_HOST : Nat
  ENDPOINT_KEY_IPV4 : Nat
  ENDPOINT_KEY_IPV6 : Nat
  MD_ID_MASK : Nat
  MD_F_REVNAT : Nat
  WORLD_ID : Nat
  CILIUM_CALL_IPV4 : Nat
  CILIUM_CALL_IPV6 : Nat
  CILIUM_CALL_LB_IP4 : Nat
  CILIUM_CALL_LB_IP6 : Nat
  CB_SRC_LABEL : Fin 5
  CB_IFINDEX : Fin 5

/-- The build-time configuration of `node_config.h` and `netdev_config.h`:
which feature macros are defined, and the values of the configured ones. -/
structure Config where
  FROM_NAT : Bool
  FROM_HOST : Bool
  FIXED_SRC_SECCTX : Option Nat
  LB_IP4 : Bool
  LB_IP6 : Bool
  LB_L4 : Bool
  HANDLE_NS : Bool
  ENABLE_IPV4 : Bool
  ENCAP_IFINDEX : Option Nat
  ROUTER_IP : v6addr
  IPV4_CLUSTER_MASK : Nat
  IPV4_CLUSTER_RANGE : Nat
  IPV4_MASK : Nat
  SECLABEL : Nat

/-- The helpers of `lib/*.h` and of the kernel that the file calls.  `σ` is
the connection tracker store (`CT_MAP4`, `CT_MAP6`).  Following the
contracts the file requires of its collaborators, a lookup reads the store
and only `ct_create4` / `ct_create6` return a new one; the helpers that
rewrite the packet return the new `__sk_buff`; the hooks that end the
processing of the packet (delivery, encapsulation, redirect, notification)
return the disposition or error that the file returns in turn;
`ep_tail_call` tells whether the tail call was taken. -/
structure Env (σ : Type) where
  ct_extract_tuple4 : ipv4_ct_tuple → iphdr → Nat → Nat → Int × ipv4_ct_tuple
  ct_extract_tuple6 : SkBuff → ipv6_ct_tuple → ipv6hdr → Nat → Nat → Int × ipv6_ct_tuple
  csum_l4_offset_and_flags : Nat → csum_offset → csum_offset
  ct_lookup4 : σ → ipv4_ct_tuple → SkBuff → Int → Nat → ct_state → Int × ipv4_ct_tuple × ct_state
  ct_lookup6 : σ → ipv6_ct_tuple → SkBuff → Int → Nat → ct_state → Int × ipv6_ct_tuple × ct_state
  ct_create4 : σ → ipv4_ct_tuple → SkBuff → Nat → ct_state → Bool → Int × σ
  ct_create6 : σ → ipv6_ct_tuple → SkBuff → Nat → ct_state → Bool → Int × σ
  lb4_rev_nat : SkBuff → Nat → Int → csum_offset → Nat → ipv4_ct_tuple → Nat → Nat →
    Int × SkBuff × ipv4_ct_tuple
  lb6_rev_nat : SkBuff → Int → csum_offset → Nat → ipv6_ct_tuple → Nat →
    Int × SkBuff × ipv6_ct_tuple
  extract_l4_port : SkBuff → Nat → Int → Nat → Int × Nat
  lb4_lookup_service : SkBuff → lb4_key → Option lb4_service
  lb6_lookup_service : SkBuff → lb6_key → Option lb6_service
  lb4_select_slave : SkBuff → lb4_key → Nat → Nat → Nat
  lb6_select_slave : SkBuff → lb6_key → Nat → Nat → Nat
  lb4_lookup_slave : SkBuff → lb4_key → Nat → Option lb4_service × lb4_key
  lb6_lookup_slave : SkBuff → lb6_key → Nat → Option lb6_service × lb6_key
  lb4_xlate : SkBuff → Nat → Nat → Nat → Int → csum_offset → lb4_key → lb4_service →
    Int × SkBuff
  lb6_xlate : SkBuff → v6addr → Nat → Nat → Int → csum_offset → lb6_key → lb6_service →
    Int × SkBuff
  skb_change_type : SkBuff → Nat → Int × SkBuff
  ipv4_hdrlen : iphdr → Int
  ipv6_hdrlen : SkBuff → Nat → Nat → Int × Nat
  icmp6_handle : SkBuff → Nat → ipv6hdr → Int × SkBuff
  reverse_proxy : SkBuff → Int → iphdr → ipv4_ct_tuple → Int × SkBuff × ipv4_ct_tuple
  reverse_proxy6 : SkBuff → Int → ipv6hdr → Nat → Int × SkBuff
  lookup_ip4_endpoint : iphdr → Option endpoint_info
  lookup_ip6_endpoint : ipv6hdr → Option endpoint_info
  ipv4_local_delivery : SkBuff → Nat → Int → Nat → iphdr → endpoint_info → Int
  ipv6_local_delivery : SkBuff → Nat → Int → Nat → ipv6hdr → Nat → endpoint_info → Int
  encap_and_redirect : SkBuff → endpoint_key → Nat → Int
  policy_can_access : SkBuff → Nat → Nat → List Nat → Int
  ep_tail_call : σ → SkBuff → Nat → Bool
  bpf_clear_cb : SkBuff → SkBuff
  send_drop_notify : SkBuff → Nat → Nat → Nat → Int → Int → Int
  send_drop_notify_error : SkBuff → Int → Int → Int
  redirect : Int → Nat → Int

/-- The state a stage runs in: the packet, the connection tracker store, and
the calls made so far, oldest first. -/
structure World (σ : Type) where
  skb : SkBuff
  ct : σ
  calls : List Event

/-- The world in which a stage starts on a packet: no call made yet. -/
def World.start {σ : Type} (skb : SkBuff) (ct : σ) : World σ :=
  { skb := skb, ct := ct, calls := [] }

/-- Record one more call. -/
def World.emit {σ : Type} (w : World σ) (e : Event) : World σ :=
  { w with calls := w.calls ++ [e] }

/-- Conversion of a `__u32` to `int`. -/
def toInt32 (n : Nat) : Int :=
  if n % 2 ^ 32 < 2 ^ 31 then ((n % 2 ^ 32 : Nat) : Int) else ((n % 2 ^ 32 : Nat) : Int) - 2 ^ 32

/-! ## Computations -/

/-- A computation of the file that ends with a value of `α`. -/
structure Run (α : Type) where
  run : α

/-- Sequencing of computations. -/
@[irreducible] def Run.bind' {α β : Type} (x : Run α) (k : α → Run β) : Run β :=
  k x.run

instance : Monad Run where
  pure := fun a => { run := a }
  bind := Run.bind'

/-- The value returned by a helper: `call v` ends with `v`.  It marks the
points where the file hands control to a helper of `lib/`. -/
def call {α : Type} (v : α) : Run α :=
  { run := v }

/-! ## The functions of the file -/

/-- `#define ACTION_UNKNOWN_ICMP6_NS TC_ACT_OK` -/
def ACTION_UNKNOWN_ICMP6_NS (K : Consts) : Int := K.TC_ACT_OK

/-- The `FALLBACK_SECCTX` macro: `FIXED_SRC_SECCTX` when defined, else `WORLD_ID`. -/
def FALLBACK_SECCTX (K : Consts) (C : Config) : Nat :=
  match C.FIXED_SRC_SECCTX with
  | some v => v
  | none => K.WORLD_ID

/-- `#define CB_REVNAT 0` -/
def CB_REVNAT : Fin 5 := 0

/-- Modelled from the spec: `decode_nat_metadata` is a helper of lib/nat.h,
which is not part of the file.  "Identity and reverse-NAT index are both
decoded from a single bit-packed scratch word (high 16 bits = reverse-NAT
index, low 16 bits = identity)"; the index is stored into a `__u16`. -/
def decode_nat_metadata (skb : SkBuff) : Nat × Nat :=
  (skb.mark &&& 0xFFFF, (skb.mark >>> 16) % 2 ^ 16)

/-- Modelled from the spec: `encode_nat_metadata` is a helper of lib/nat.h,
which is not part of the file.  It is the inverse packing of
`decode_nat_metadata`: the `__u16` index in the high 16 bits of the mark
field, the identity in the low 16 bits. -/
def encode_nat_metadata (skb : SkBuff) (identity revnat : Nat) : SkBuff :=
  { skb with mark := ((revnat % 2 ^ 16) <<< 16) ||| (identity &&& 0xFFFF) }

/-- The function `derive_identity_and_revnat`.  `revnat = none` is the `NULL`
pointer, `some v` a pointer to a `__u32` holding `v`; the result is the value
stored through `secctx`, the cell behind `revnat`, and the packet. -/
def derive_identity_and_revnat (K : Consts) (C : Config) (skb : SkBuff) (revnat : Option Nat) :
    Nat × Option Nat × SkBuff :=
  if C.FROM_NAT then
    let d := decode_nat_metadata skb
    let secctx := d.1
    let t := d.2
    let revnat := revnat.map (fun _ => t)
    (secctx, revnat, { skb with mark := 0 })
  else if C.FROM_HOST then
    let r : Nat × SkBuff :=
      if skb.tc_index ≠ 0 then (skb.tc_index, { skb with tc_index := 0 })
      else (FALLBACK_SECCTX K C, skb)
    let secctx := r.1
    let skb := r.2
    let revnat := revnat.map (fun _ => skb.cb CB_REVNAT)
    (secctx, revnat, { skb with mark := 0 })
  else
    let secctx := FALLBACK_SECCTX K C
    let revnat := revnat.map (fun _ => skb.cb CB_REVNAT)
    (secctx, revnat, skb)

/-- Modelled from the spec: `ipv6_match_prefix_64` is a helper of lib/ipv6.h,
which is not part of the file: the address "shares the node's own /64
prefix", that is, the first two 32-bit words agree. -/
def ipv6_match_prefix_64 (addr pfx : v6addr) : Bool :=
  addr.p1 == pfx.p1 && addr.p2 == pfx.p2

/-- Modelled from the spec: `ipv6_match_prefix_96` is a helper of lib/ipv6.h,
which is not part of the file: "a fixed-length prefix match", here on the
first three 32-bit words. -/
def ipv6_match_prefix_96 (addr pfx : v6addr) : Bool :=
  addr.p1 == pfx.p1 && addr.p2 == pfx.p2 && addr.p3 == pfx.p3

/-- The function `derive_ip6_identity_and_revnat`; `ip6` is the header of the
packet. -/
def derive_ip6_identity_and_revnat (K : Consts) (C : Config) (skb : SkBuff) (node_ip : v6addr) :
    Nat × SkBuff :=
  let d := derive_identity_and_revnat K C skb none
  let secctx := d.1
  let skb := d.2.2
  if C.FIXED_SRC_SECCTX.isNone then
    if ipv6_match_prefix_64 skb.ip6.saddr node_ip then
      let tmp := skb.ip6.word0
      (K.bpf_ntohl (tmp &&& K.IPV6_FLOWLABEL_MASK), skb)
    else (secctx, skb)
  else (secctx, skb)

/-- How a function that may tail-call ends: it returns a value, or the tail
call is taken and the function never returns. -/
inductive Exit where
  | returned (v : Int)
  | tail_called
deriving DecidableEq, Repr

/-- The function `svc_lookup6` (under `LB_IP6`).  The result is the return
value, the cell behind `to_stack`, and the world. -/
def svc_lookup6 {σ : Type} (K : Consts) (C : Config) (E : Env σ) (w : World σ) (secctx : Nat)
    (to_stack : Bool) : Int × Bool × World σ := Run.run do
  let mut w := w
  let mut to_stack := to_stack
  let mut csum_off : csum_offset := {}
  let mut tuple : ipv6_ct_tuple := {}
  let mut key : lb6_key := {}
  key := { key with address := w.skb.ip6.daddr }
  csum_off ← call (E.csum_l4_offset_and_flags tuple.nexthdr csum_off)
  if ¬ C.FROM_HOST ∧ ¬ C.FROM_NAT then
    let ct_st : ct_state := {}
    let (l4_off, tuple1) ← call (E.ct_extract_tuple6 w.skb tuple w.skb.ip6 K.ETH_HLEN K.CT_EGRESS)
    tuple := tuple1
    let (ret, tuple2, ct_st2) ← call (E.ct_lookup6 w.ct tuple w.skb l4_off K.CT_EGRESS ct_st)
    w := w.emit (Event.ct_lookup6 tuple K.CT_EGRESS ret ct_st2)
    tuple := tuple2
    if ret = K.CT_REPLY ∧ ct_st2.rev_nat_index ≠ 0 then
      let (ret2, skb2, tuple3) ← call (E.lb6_rev_nat w.skb l4_off csum_off
        ct_st2.rev_nat_index tuple 0)
      w := { w.emit (Event.lb6_rev_nat ct_st2.rev_nat_index tuple ret2) with skb := skb2 }
      return (ret2, to_stack, w)
  let (l4_off, tuple4) ← call (E.ct_extract_tuple6 w.skb tuple w.skb.ip6 K.ETH_HLEN K.CT_INGRESS)
  tuple := tuple4
  if C.LB_L4 then
    let (ret, dport) ← call (E.extract_l4_port w.skb tuple.nexthdr l4_off key.dport)
    w := w.emit (Event.extract_l4_port tuple.nexthdr l4_off ret dport)
    key := { key with dport := dport }
    if K.IS_ERR ret then
      if ret = K.DROP_UNKNOWN_L4 then
        return (K.TC_ACT_OK, to_stack, w)
      else
        return (ret, to_stack, w)
  let s ← call (E.lb6_lookup_service w.skb key)
  w := w.emit (Event.lb6_lookup_service key s)
  let some svc := s | return (K.TC_ACT_OK, to_stack, w)
  w := w.emit (Event.cilium_trace_capture Dbg.DBG_CAPTURE_FROM_LB w.skb.ingress_ifindex)
  let sel ← call (E.lb6_select_slave w.skb key svc.count svc.weight)
  let slave := sel % 2 ^ 16
  w := w.emit (Event.lb6_select_slave key svc.count svc.weight slave)
  let (s2, key2) ← call (E.lb6_lookup_slave w.skb key slave)
  w := w.emit (Event.lb6_lookup_slave key slave s2)
  key := key2
  let some svc := s2 | return (K.TC_ACT_OK, to_stack, w)
  let mut new_dst : v6addr := svc.target
  if svc.rev_nat_index ≠ 0 then
    new_dst := { new_dst with p4 := new_dst.p4 ||| svc.rev_nat_index }
  let (ret, skb3) ← call (E.lb6_xlate w.skb new_dst tuple.nexthdr K.ETH_HLEN l4_off csum_off
    key svc)
  w := { w.emit (Event.lb6_xlate new_dst svc ret) with skb := skb3 }
  if K.IS_ERR ret then
    return (ret, to_stack, w)
  to_stack := true
  let (ret4, skb4) ← call (E.skb_change_type w.skb 0)
  w := { w.emit (Event.skb_change_type 0 ret4) with skb := skb4 }
  if ret4 < 0 then
    return (K.DROP_WRITE_ERROR, to_stack, w)
  w := { w.emit (Event.encode_nat_metadata secctx svc.rev_nat_index) with
         skb := encode_nat_metadata w.skb secctx svc.rev_nat_index }
  w := w.emit (Event.cilium_trace_capture Dbg.DBG_CAPTURE_NAT 0)
  return (K.TC_ACT_OK, to_stack, w)

/-- The function `handle_ipv6`. -/
def handle_ipv6 {σ : Type} (K : Consts) (C : Config) (E : Env σ) (w : World σ) :
    Int × World σ := Run.run do
  let mut w := w
  let mut node_ip : v6addr := {}
  if w.skb.data + K.ETH_HLEN + K.sizeof_ipv6hdr > w.skb.data_end then
    return (K.DROP_INVALID, w)
  let mut nexthdr := w.skb.ip6.nexthdr
  let (hdrlen, nexthdr1) ← call (E.ipv6_hdrlen w.skb K.ETH_HLEN nexthdr)
  nexthdr := nexthdr1
  let l4_off : Int := K.ETH_HLEN + hdrlen
  if C.HANDLE_NS then
    if nexthdr = K.IPPROTO_ICMPV6 then
      let (ret, skb1) ← call (E.icmp6_handle w.skb K.ETH_HLEN w.skb.ip6)
      w := { w.emit (Event.icmp6_handle ret) with skb := skb1 }
      if K.IS_ERR ret then
        return (ret, w)
  node_ip := C.ROUTER_IP
  let d := derive_ip6_identity_and_revnat K C w.skb node_ip
  let secctx := d.1
  w := { w with skb := d.2 }
  if ipv6_match_prefix_96 w.skb.ip6.daddr node_ip then
    w := w.emit (Event.cilium_trace_capture Dbg.DBG_CAPTURE_FROM_NETDEV w.skb.ingress_ifindex)
    if C.FROM_HOST then
      let (ret, skb2) ← call (E.reverse_proxy6 w.skb l4_off w.skb.ip6 w.skb.ip6.nexthdr)
      w := { w.emit (Event.reverse_proxy6 ret) with skb := skb2 }
      if K.IS_ERR ret then
        return (ret, w)
      if w.skb.data + K.sizeof_ipv6hdr + K.ETH_HLEN > w.skb.data_end then
        return (K.DROP_INVALID, w)
    let e ← call (E.lookup_ip6_endpoint w.skb.ip6)
    w := w.emit (Event.lookup_ip6_endpoint w.skb.ip6 e)
    match e with
    | some ep =>
      if ep.flags &&& K.ENDPOINT_F_HOST ≠ 0 then
        return (K.TC_ACT_OK, w)
      let r ← call (E.ipv6_local_delivery w.skb K.ETH_HLEN l4_off secctx w.skb.ip6 nexthdr ep)
      w := w.emit (Event.ipv6_local_delivery secctx ep r)
      return (r, w)
    | none =>
      if C.ENCAP_IFINDEX.isSome then
        let mut key : endpoint_key := {}
        let dst := w.skb.ip6.daddr
        key := { key with ip6 := { key.ip6 with p1 := dst.p1 } }
        key := { key with ip6 := { key.ip6 with p2 := dst.p2 } }
        key := { key with ip6 := { key.ip6 with p3 := dst.p3 } }
        key := { key with ip6 := { key.ip6 with p4 := 0 } }
        key := { key with family := K.ENDPOINT_KEY_IPV6 }
        let r ← call (E.encap_and_redirect w.skb key secctx)
        w := w.emit (Event.encap_and_redirect key secctx r)
        return (r, w)
  w := w.emit (Event.cilium_trace_capture Dbg.DBG_CAPTURE_DELIVERY 0)
  return (K.TC_ACT_OK, w)

/-- The function `handle_lb_ip6` (under `LB_IP6`). -/
def handle_lb_ip6 {σ : Type} (K : Consts) (C : Config) (E : Env σ) (w : World σ) :
    Exit × World σ := Run.run do
  let mut w := w
  let mut node_ip : v6addr := {}
  let mut to_stack := false
  if w.skb.data + K.ETH_HLEN + K.sizeof_ipv6hdr > w.skb.data_end then
    return (Exit.returned K.DROP_INVALID, w)
  let mut nexthdr := w.skb.ip6.nexthdr
  let (hdrlen, nexthdr1) ← call (E.ipv6_hdrlen w.skb K.ETH_HLEN nexthdr)
  nexthdr := nexthdr1
  let l4_off : Int := K.ETH_HLEN + hdrlen
  node_ip := C.ROUTER_IP
  let d := derive_ip6_identity_and_revnat K C w.skb node_ip
  let secctx := d.1
  w := { w with skb := d.2 }
  let (ret, to_stack1, w1) ← call (svc_lookup6 K C E w secctx to_stack)
  to_stack := to_stack1
  w := w1
  if K.IS_ERR ret then
    return (Exit.returned ret, w)
  if to_stack then
    return (Exit.returned K.TC_ACT_OK, w)
  let taken ← call (E.ep_tail_call w.ct w.skb K.CILIUM_CALL_IPV6)
  w := w.emit (Event.ep_tail_call K.CILIUM_CALL_IPV6 taken)
  if taken then
    return (Exit.tail_called, w)
  return (Exit.returned K.DROP_MISSED_TAIL_CALL, w)

/-- The tail-call entry `tail_handle_lb_ip6` (under `LB_IP6`). -/
def tail_handle_lb_ip6 {σ : Type} (K : Consts) (C : Config) (E : Env σ) (w : World σ) :
    Exit × World σ := Run.run do
  let (x, w) ← call (handle_lb_ip6 K C E w)
  match x with
  | Exit.tail_called => return (Exit.tail_called, w)
  | Exit.returned ret =>
    if K.IS_ERR ret then
      let n ← call (E.send_drop_notify_error w.skb ret K.TC_ACT_OK)
      return (Exit.returned n, w.emit (Event.send_drop_notify_error ret K.TC_ACT_OK n))
    return (Exit.returned ret, w)

/-- The tail-call entry `tail_handle_ipv6`. -/
def tail_handle_ipv6 {σ : Type} (K : Consts) (C : Config) (E : Env σ) (w : World σ) :
    Int × World σ := Run.run do
  let (ret, w) ← call (handle_ipv6 K C E w)
  if K.IS_ERR ret then
    let n ← call (E.send_drop_notify_error w.skb ret K.TC_ACT_OK)
    return (n, w.emit (Event.send_drop_notify_error ret K.TC_ACT_OK n))
  return (ret, w)

/-- The function `svc_lookup4` (under `LB_IP4`).  The result is the return
value, the cell behind `to_stack`, and the world. -/
def svc_lookup4 {σ : Type} (K : Consts) (C : Config) (E : Env σ) (w : World σ) (secctx : Nat)
    (to_stack : Bool) : Int × Bool × World σ := Run.run do
  let mut w := w
  let mut to_stack := to_stack
  let mut tuple : ipv4_ct_tuple := {}
  let mut key : lb4_key := {}
  let mut csum_off : csum_offset := {}
  key := { key with address := w.skb.ip4.daddr }
  csum_off ← call (E.csum_l4_offset_and_flags tuple.nexthdr csum_off)
  if ¬ C.FROM_HOST ∧ ¬ C.FROM_NAT then
    let ct_st : ct_state := {}
    let (l4_off, tuple1) ← call (E.ct_extract_tuple4 tuple w.skb.ip4 K.ETH_HLEN K.CT_EGRESS)
    tuple := tuple1
    let (ret, tuple2, ct_st2) ← call (E.ct_lookup4 w.ct tuple w.skb l4_off K.CT_EGRESS ct_st)
    w := w.emit (Event.ct_lookup4 tuple K.CT_EGRESS ret ct_st2)
    tuple := tuple2
    if ret = K.CT_REPLY ∧ ct_st2.rev_nat_index ≠ 0 then
      let (ret2, skb2, tuple3) ← call (E.lb4_rev_nat w.skb K.ETH_HLEN l4_off csum_off
        ct_st2.loopback tuple ct_st2.rev_nat_index K.REV_NAT_F_TUPLE_SADDR)
      w := { w.emit (Event.lb4_rev_nat ct_st2.rev_nat_index tuple ret2) with skb := skb2 }
      return (ret2, to_stack, w)
  let (l4_off, tuple4) ← call (E.ct_extract_tuple4 tuple w.skb.ip4 K.ETH_HLEN K.CT_INGRESS)
  tuple := tuple4
  if C.LB_L4 then
    let (ret, dport) ← call (E.extract_l4_port w.skb tuple.nexthdr l4_off key.dport)
    w := w.emit (Event.extract_l4_port tuple.nexthdr l4_off ret dport)
    key := { key with dport := dport }
    if K.IS_ERR ret then
      return (K.TC_ACT_OK, to_stack, w)
  let s ← call (E.lb4_lookup_service w.skb key)
  w := w.emit (Event.lb4_lookup_service key s)
  let some svc := s | return (K.TC_ACT_OK, to_stack, w)
  w := w.emit (Event.cilium_trace_capture Dbg.DBG_CAPTURE_FROM_LB w.skb.ingress_ifindex)
  let sel ← call (E.lb4_select_slave w.skb key svc.count svc.weight)
  let slave := sel % 2 ^ 16
  w := w.emit (Event.lb4_select_slave key svc.count svc.weight slave)
  let (s2, key2) ← call (E.lb4_lookup_slave w.skb key slave)
  w := w.emit (Event.lb4_lookup_slave key slave s2)
  key := key2
  let some svc := s2 | return (K.TC_ACT_OK, to_stack, w)
  let new_dst := svc.target
  let (ret, skb3) ← call (E.lb4_xlate w.skb new_dst tuple.nexthdr K.ETH_HLEN l4_off csum_off
    key svc)
  w := { w.emit (Event.lb4_xlate new_dst svc ret) with skb := skb3 }
  if K.IS_ERR ret then
    return (ret, to_stack, w)
  to_stack := true
  let (ret4, skb4) ← call (E.skb_change_type w.skb 0)
  w := { w.emit (Event.skb_change_type 0 ret4) with skb := skb4 }
  if ret4 < 0 then
    return (K.DROP_WRITE_ERROR, to_stack, w)
  w := { w.emit (Event.encode_nat_metadata secctx svc.rev_nat_index) with
         skb := encode_nat_metadata w.skb secctx svc.rev_nat_index }
  w := w.emit (Event.cilium_trace_capture Dbg.DBG_CAPTURE_NAT 0)
  return (K.TC_ACT_OK, to_stack, w)

/-- The function `handle_lb_ip4` (under `LB_IP4`). -/
def handle_lb_ip4 {σ : Type} (K : Consts) (C : Config) (E : Env σ) (w : World σ) :
    Exit × World σ := Run.run do
  let mut w := w
  let mut to_stack := false
  if w.skb.data + K.sizeof_iphdr + K.ETH_HLEN > w.skb.data_end then
    return (Exit.returned K.DROP_INVALID, w)
  let d := derive_identity_and_revnat K C w.skb none
  let secctx := d.1
  w := { w with skb := d.2.2 }
  let (ret, to_stack1, w1) ← call (svc_lookup4 K C E w secctx to_stack)
  to_stack := to_stack1
  w := w1
  if K.IS_ERR ret then
    return (Exit.returned ret, w)
  if to_stack then
    return (Exit.returned K.TC_ACT_OK, w)
  let taken ← call (E.ep_tail_call w.ct w.skb K.CILIUM_CALL_IPV4)
  w := w.emit (Event.ep_tail_call K.CILIUM_CALL_IPV4 taken)
  if taken then
    return (Exit.tail_called, w)
  return (Exit.returned K.DROP_MISSED_TAIL_CALL, w)

/-- The function `handle_ipv4` (under `ENABLE_IPV4`, so that the inner
`#ifdef ENABLE_IPV4` is always taken).  The local `revnat` is passed to the
identity derivation by address and always written there. -/
def handle_ipv4 {σ : Type} (K : Consts) (C : Config) (E : Env σ) (w : World σ) :
    Int × World σ := Run.run do
  let mut w := w
  if w.skb.data + K.sizeof_iphdr + K.ETH_HLEN > w.skb.data_end then
    return (K.DROP_INVALID, w)
  let d := derive_identity_and_revnat K C w.skb (some 0)
  let mut secctx := d.1
  let revnat := d.2.1.getD 0
  w := { w with skb := d.2.2 }
  if w.skb.ip4.daddr &&& C.IPV4_CLUSTER_MASK = C.IPV4_CLUSTER_RANGE then
    let mut tuple : ipv4_ct_tuple := {}
    w := w.emit (Event.cilium_trace_capture Dbg.DBG_CAPTURE_FROM_NETDEV w.skb.ingress_ifindex)
    let hdrlen ← call (E.ipv4_hdrlen w.skb.ip4)
    let l4_off : Int := K.ETH_HLEN + hdrlen
    tuple := { tuple with nexthdr := w.skb.ip4.protocol }
    w := w.emit (Event.cilium_trace Dbg.DBG_NETDEV_IN_CLUSTER secctx 0)
    if C.FROM_HOST then
      let (ret, skb1, tuple1) ← call (E.reverse_proxy w.skb l4_off w.skb.ip4 tuple)
      w := { w.emit (Event.reverse_proxy ret) with skb := skb1 }
      tuple := tuple1
      if K.IS_ERR ret then
        return (ret, w)
      if w.skb.data + K.sizeof_iphdr + K.ETH_HLEN > w.skb.data_end then
        return (K.DROP_INVALID, w)
    let e ← call (E.lookup_ip4_endpoint w.skb.ip4)
    w := w.emit (Event.lookup_ip4_endpoint w.skb.ip4 e)
    match e with
    | some ep =>
      if ep.flags &&& K.ENDPOINT_F_HOST ≠ 0 then
        return (K.TC_ACT_OK, w)
      let r ← call (E.ipv4_local_delivery w.skb K.ETH_HLEN l4_off secctx w.skb.ip4 ep)
      w := w.emit (Event.ipv4_local_delivery secctx ep r)
      return (r, w)
    | none =>
      if C.ENCAP_IFINDEX.isSome then
        let mut key : endpoint_key := {}
        key := { key with ip4 := w.skb.ip4.daddr &&& C.IPV4_MASK }
        key := { key with family := K.ENDPOINT_KEY_IPV4 }
        if revnat ≠ 0 then
          secctx := (revnat &&& K.MD_ID_MASK) ||| K.MD_F_REVNAT
        w := w.emit (Event.cilium_trace Dbg.DBG_NETDEV_ENCAP4 key.ip4 secctx)
        let r ← call (E.encap_and_redirect w.skb key secctx)
        w := w.emit (Event.encap_and_redirect key secctx r)
        return (r, w)
  else
    let mut tuple : ipv4_ct_tuple := {}
    let mut csum_off : csum_offset := {}
    let ct_st : ct_state := {}
    let (l4_off, tuple1) ← call (E.ct_extract_tuple4 tuple w.skb.ip4 K.ETH_HLEN K.CT_EGRESS)
    tuple := tuple1
    csum_off ← call (E.csum_l4_offset_and_flags tuple.nexthdr csum_off)
    let (ret, tuple2, ct_st2) ← call (E.ct_lookup4 w.ct tuple w.skb l4_off K.CT_EGRESS ct_st)
    w := w.emit (Event.ct_lookup4 tuple K.CT_EGRESS ret ct_st2)
    tuple := tuple2
    if ret = K.CT_REPLY ∧ ct_st2.rev_nat_index ≠ 0 then
      let (ret2, skb2, tuple3) ← call (E.lb4_rev_nat w.skb K.ETH_HLEN l4_off csum_off
        ct_st2.loopback tuple ct_st2.rev_nat_index K.REV_NAT_F_TUPLE_SADDR)
      w := { w.emit (Event.lb4_rev_nat ct_st2.rev_nat_index tuple ret2) with skb := skb2 }
  w := w.emit (Event.cilium_trace_capture Dbg.DBG_CAPTURE_DELIVERY 0)
  return (K.TC_ACT_OK, w)

/-- The tail-call entry `tail_handle_lb_ip4` (under `LB_IP4`). -/
def tail_handle_lb_ip4 {σ : Type} (K : Consts) (C : Config) (E : Env σ) (w : World σ) :
    Exit × World σ := Run.run do
  let (x, w) ← call (handle_lb_ip4 K C E w)
  match x with
  | Exit.tail_called => return (Exit.tail_called, w)
  | Exit.returned ret =>
    if K.IS_ERR ret then
      let n ← call (E.send_drop_notify_error w.skb ret K.TC_ACT_OK)
      return (Exit.returned n, w.emit (Event.send_drop_notify_error ret K.TC_ACT_OK n))
    return (Exit.returned ret, w)

/-- The tail-call entry `tail_handle_ipv4`. -/
def tail_handle_ipv4 {σ : Type} (K : Consts) (C : Config) (E : Env σ) (w : World σ) :
    Int × World σ := Run.run do
  let (ret, w) ← call (handle_ipv4 K C E w)
  if K.IS_ERR ret then
    let n ← call (E.send_drop_notify_error w.skb ret K.TC_ACT_OK)
    return (n, w.emit (Event.send_drop_notify_error ret K.TC_ACT_OK n))
  return (ret, w)

/-- The entry point `from_netdev`. -/
def from_netdev {σ : Type} (K : Consts) (C : Config) (E : Env σ) (w : World σ) :
    Exit × World σ := Run.run do
  let mut w := w
  let skb0 ← call (E.bpf_clear_cb w.skb)
  w := { w with skb := skb0 }
  if C.FROM_HOST then
    w := w.emit (Event.cilium_trace_capture Dbg.DBG_CAPTURE_FROM_NETDEV w.skb.ingress_ifindex)
  else if C.FROM_NAT then
    w := w.emit (Event.cilium_trace_capture Dbg.DBG_CAPTURE_FROM_NAT w.skb.tc_index)
  if w.skb.protocol = K.htons_ETH_P_IPV6 then
    if C.LB_IP6 ∧ ¬ C.FROM_NAT then
      let taken ← call (E.ep_tail_call w.ct w.skb K.CILIUM_CALL_LB_IP6)
      w := w.emit (Event.ep_tail_call K.CILIUM_CALL_LB_IP6 taken)
      if taken then
        return (Exit.tail_called, w)
    else
      let taken ← call (E.ep_tail_call w.ct w.skb K.CILIUM_CALL_IPV6)
      w := w.emit (Event.ep_tail_call K.CILIUM_CALL_IPV6 taken)
      if taken then
        return (Exit.tail_called, w)
  else if w.skb.protocol = K.htons_ETH_P_IP then
    if C.LB_IP4 ∧ ¬ C.FROM_NAT then
      let taken ← call (E.ep_tail_call w.ct w.skb K.CILIUM_CALL_LB_IP4)
      w := w.emit (Event.ep_tail_call K.CILIUM_CALL_LB_IP4 taken)
      if taken then
        return (Exit.tail_called, w)
    else if C.ENABLE_IPV4 then
      let taken ← call (E.ep_tail_call w.ct w.skb K.CILIUM_CALL_IPV4)
      w := w.emit (Event.ep_tail_call K.CILIUM_CALL_IPV4 taken)
      if taken then
        return (Exit.tail_called, w)
  else
    return (Exit.returned K.TC_ACT_OK, w)
  let n ← call (E.send_drop_notify_error w.skb K.DROP_MISSED_TAIL_CALL K.TC_ACT_OK)
  w := w.emit (Event.send_drop_notify_error K.DROP_MISSED_TAIL_CALL K.TC_ACT_OK n)
  return (Exit.returned n, w)

/-- The function `ipv6_policy` (under `POLICY_MAP`). -/
def ipv6_policy {σ : Type} (K : Consts) (E : Env σ) (w : World σ) (ifindex : Int)
    (src_label : Nat) : Int × World σ := Run.run do
  let mut w := w
  let mut csum_off : csum_offset := {}
  let mut tuple : ipv6_ct_tuple := {}
  let mut ct_st : ct_state := {}
  let mut ct_st_new : ct_state := {}
  if w.skb.data + K.sizeof_ipv6hdr + K.ETH_HLEN > w.skb.data_end then
    return (K.DROP_INVALID, w)
  let (l4_off, tuple1) ← call (E.ct_extract_tuple6 w.skb tuple w.skb.ip6 K.ETH_HLEN K.CT_EGRESS)
  tuple := tuple1
  csum_off ← call (E.csum_l4_offset_and_flags tuple.nexthdr csum_off)
  let (ret, tuple2, ct_st2) ← call (E.ct_lookup6 w.ct tuple w.skb l4_off K.CT_EGRESS ct_st)
  w := w.emit (Event.ct_lookup6 tuple K.CT_EGRESS ret ct_st2)
  tuple := tuple2
  ct_st := ct_st2
  if ret < 0 ∧ ret ≠ K.DROP_CT_CANT_CREATE then
    return (ret, w)
  if ct_st.rev_nat_index ≠ 0 then
    let (ret2, skb2, tuple3) ← call (E.lb6_rev_nat w.skb l4_off csum_off ct_st.rev_nat_index
      tuple 0)
    w := { w.emit (Event.lb6_rev_nat ct_st.rev_nat_index tuple ret2) with skb := skb2 }
    tuple := tuple3
    if K.IS_ERR ret2 then
      return (ret2, w)
  let verdict ← call (E.policy_can_access w.skb src_label 16
    [tuple.saddr.p1, tuple.saddr.p2, tuple.saddr.p3, tuple.saddr.p4])
  w := w.emit (Event.policy_can_access src_label
    [tuple.saddr.p1, tuple.saddr.p2, tuple.saddr.p3, tuple.saddr.p4] verdict)
  if ret = K.CT_NEW then
    if verdict ≠ K.TC_ACT_OK then
      return (K.DROP_POLICY, w)
    ct_st_new := { ct_st_new with orig_dport := tuple.dport }
    ct_st_new := { ct_st_new with src_sec_id := src_label }
    let (ret3, ct3) ← call (E.ct_create6 w.ct tuple w.skb K.CT_EGRESS ct_st_new false)
    w := { w.emit (Event.ct_create6 tuple K.CT_EGRESS ct_st_new ret3) with ct := ct3 }
  if verdict ≠ K.TC_ACT_OK ∧ ¬ (ret = K.CT_REPLY ∨ ret = K.CT_RELATED) then
    return (K.DROP_POLICY, w)
  return (0, w)

/-- The function `ipv4_policy` (under `POLICY_MAP`). -/
def ipv4_policy {σ : Type} (K : Consts) (E : Env σ) (w : World σ) (ifindex : Int)
    (src_label : Nat) : Int × World σ := Run.run do
  let mut w := w
  let mut csum_off : csum_offset := {}
  let mut tuple : ipv4_ct_tuple := {}
  let mut ct_st : ct_state := {}
  let mut ct_st_new : ct_state := {}
  if w.skb.data + K.sizeof_iphdr + K.ETH_HLEN > w.skb.data_end then
    return (K.DROP_INVALID, w)
  let (l4_off, tuple1) ← call (E.ct_extract_tuple4 tuple w.skb.ip4 K.ETH_HLEN K.CT_EGRESS)
  tuple := tuple1
  csum_off ← call (E.csum_l4_offset_and_flags tuple.nexthdr csum_off)
  let (ret, tuple2, ct_st2) ← call (E.ct_lookup4 w.ct tuple w.skb l4_off K.CT_EGRESS ct_st)
  w := w.emit (Event.ct_lookup4 tuple K.CT_EGRESS ret ct_st2)
  tuple := tuple2
  ct_st := ct_st2
  if ret < 0 ∧ ret ≠ K.DROP_CT_CANT_CREATE then
    return (ret, w)
  if ret = K.CT_REPLY ∧ ct_st.rev_nat_index ≠ 0 then
    let (ret2, skb2, tuple3) ← call (E.lb4_rev_nat w.skb K.ETH_HLEN l4_off csum_off
      ct_st.loopback tuple ct_st.rev_nat_index K.REV_NAT_F_TUPLE_SADDR)
    w := { w.emit (Event.lb4_rev_nat ct_st.rev_nat_index tuple ret2) with skb := skb2 }
    tuple := tuple3
    if K.IS_ERR ret2 then
      return (ret2, w)
  let verdict ← call (E.policy_can_access w.skb src_label 4 [tuple.saddr])
  w := w.emit (Event.policy_can_access src_label [tuple.saddr] verdict)
  if ret = K.CT_NEW then
    if verdict ≠ K.TC_ACT_OK then
      return (K.DROP_POLICY, w)
    ct_st_new := { ct_st_new with orig_dport := tuple.dport }
    ct_st_new := { ct_st_new with src_sec_id := src_label }
    let (ret3, ct3) ← call (E.ct_create4 w.ct tuple w.skb K.CT_EGRESS ct_st_new false)
    w := { w.emit (Event.ct_create4 tuple K.CT_EGRESS ct_st_new ret3) with ct := ct3 }
  if verdict ≠ K.TC_ACT_OK ∧ ¬ (ret = K.CT_REPLY ∨ ret = K.CT_RELATED) then
    return (K.DROP_POLICY, w)
  return (0, w)

/-- The tail-call entry `handle_policy` (under `POLICY_MAP`). -/
def handle_policy {σ : Type} (K : Consts) (C : Config) (E : Env σ) (w : World σ) :
    Int × World σ := Run.run do
  let mut w := w
  let src_label := w.skb.cb K.CB_SRC_LABEL
  let ifindex : Int := toInt32 (w.skb.cb K.CB_IFINDEX)
  let mut ret : Int := 0
  if w.skb.protocol = K.htons_ETH_P_IPV6 then
    let (ret1, w1) ← call (ipv6_policy K E w ifindex src_label)
    ret := ret1
    w := w1
  else if w.skb.protocol = K.htons_ETH_P_IP then
    let (ret1, w1) ← call (ipv4_policy K E w ifindex src_label)
    ret := ret1
    w := w1
  else
    ret := K.DROP_UNKNOWN_L3
  if K.IS_ERR ret then
    if ret = K.DROP_POLICY then
      let n ← call (E.send_drop_notify w.skb src_label C.SECLABEL 0 ifindex K.TC_ACT_SHOT)
      w := w.emit (Event.send_drop_notify src_label C.SECLABEL 0 ifindex K.TC_ACT_SHOT n)
      return (n, w)
    else
      let n ← call (E.send_drop_notify_error w.skb ret K.TC_ACT_SHOT)
      w := w.emit (Event.send_drop_notify_error ret K.TC_ACT_SHOT n)
      return (n, w)
  w := w.emit (Event.cilium_trace_capture Dbg.DBG_CAPTURE_DELIVERY ifindex)
  if ifindex = 0 then
    return (K.TC_ACT_OK, w)
  else
    let n ← call (E.redirect ifindex 0)
    w := w.emit (Event.redirect ifindex 0 n)
    return (n, w)

/-! ## Observations on the calls of a run -/

/-- The two protocol families of the file. -/
inductive Family where
  | ipv4
  | ipv6
deriving DecidableEq, Repr

/-- The direction, classification and state of a connection tracker lookup
(`ct_lookup4` or `ct_lookup6`). -/
def Event.ct_lookup_result : Event → Option (Nat × Int × ct_state)
  | Event.ct_lookup4 _ dir ret st => some (dir, ret, st)
  | Event.ct_lookup6 _ dir ret st => some (dir, ret, st)
  | _ => none

/-- The index passed to a reverse translation (`lb4_rev_nat` or
`lb6_rev_nat`) and the value it returned. -/
def Event.rev_nat_result : Event → Option (Nat × Int)
  | Event.lb4_rev_nat index _ ret => some (index, ret)
  | Event.lb6_rev_nat index _ ret => some (index, ret)
  | _ => none

/-- The verdict of a `policy_can_access` call. -/
def Event.policy_verdict : Event → Option Int
  | Event.policy_can_access _ _ verdict => some verdict
  | _ => none

/-- The destination port of the tuple, the direction and the new state
passed to a `ct_create4` or `ct_create6` call. -/
def Event.ct_create_call : Event → Option (Nat × Nat × ct_state)
  | Event.ct_create4 tuple dir st _ => some (tuple.dport, dir, st)
  | Event.ct_create6 tuple dir st _ => some (tuple.dport, dir, st)
  | _ => none

/-- Whether a call belongs to the forward path of the load balancer: L4 port
extraction, service lookup, backend selection and lookup, destination
rewrite, packet type change, metadata encoding. -/
def Event.lb_forward_step : Event → Bool
  | Event.extract_l4_port _ _ _ _ => true
  | Event.lb4_lookup_service _ _ => true
  | Event.lb6_lookup_service _ _ => true
  | Event.lb4_select_slave _ _ _ _ => true
  | Event.lb6_select_slave _ _ _ _ => true
  | Event.lb4_lookup_slave _ _ _ => true
  | Event.lb6_lookup_slave _ _ _ => true
  | Event.lb4_xlate _ _ _ => true
  | Event.lb6_xlate _ _ _ => true
  | Event.skb_change_type _ _ => true
  | Event.encode_nat_metadata _ _ => true
  | _ => false

/-- The value returned by an `extract_l4_port` call. -/
def Event.port_extraction : Event → Option Int
  | Event.extract_l4_port _ _ ret _ => some ret
  | _ => none

/-- Whether a call is a service lookup (`lb4_lookup_service` or
`lb6_lookup_service`). -/
def Event.service_lookup : Event → Bool
  | Event.lb4_lookup_service _ _ => true
  | Event.lb6_lookup_service _ _ => true
  | _ => false

/-- The result of an endpoint lookup (`lookup_ip4_endpoint` or
`lookup_ip6_endpoint`). -/
def Event.endpoint_lookup : Event → Option (Option endpoint_info)
  | Event.lookup_ip4_endpoint _ ep => some ep
  | Event.lookup_ip6_endpoint _ ep => some ep
  | _ => none

/-- The identity and endpoint passed to a local delivery
(`ipv4_local_delivery` or `ipv6_local_delivery`). -/
def Event.local_delivery : Event → Option (Nat × endpoint_info)
  | Event.ipv4_local_delivery secctx ep _ => some (secctx, ep)
  | Event.ipv6_local_delivery secctx ep _ => some (secctx, ep)
  | _ => none

/-- The key and identity passed to `encap_and_redirect` and the value it
returned. -/
def Event.encap : Event → Option (endpoint_key × Nat × Int)
  | Event.encap_and_redirect key secctx ret => some (key, secctx, ret)
  | _ => none

/-- For an endpoint lookup that found nothing, the encapsulation key of the
destination that was looked up: family IPv4 with `daddr & IPV4_MASK`, or
family IPv6 with the destination address whose last 32-bit word is set to 0. -/
def Event.endpoint_miss_key (K : Consts) (C : Config) : Event → Option endpoint_key
  | Event.lookup_ip4_endpoint ip4 none =>
    some { ip4 := ip4.daddr &&& C.IPV4_MASK, ip6 := {}, family := K.ENDPOINT_KEY_IPV4 }
  | Event.lookup_ip6_endpoint ip6 none =>
    some { ip4 := 0, ip6 := { p1 := ip6.daddr.p1, p2 := ip6.daddr.p2, p3 := ip6.daddr.p3, p4 := 0 },
           family := K.ENDPOINT_KEY_IPV6 }
  | _ => none

/-- The index of the stage a tail call was made to, and whether the call was
taken. -/
def Event.tail_call : Event → Option (Nat × Bool)
  | Event.ep_tail_call index taken => some (index, taken)
  | _ => none

/-- The exit code handed to a drop notification (`send_drop_notify` or
`send_drop_notify_error`) and the value the hook returned. -/
def Event.drop_exit : Event → Option (Int × Int)
  | Event.send_drop_notify _ _ _ _ exitcode ret => some (exitcode, ret)
  | Event.send_drop_notify_error _ exitcode ret => some (exitcode, ret)
  | _ => none

/-- The error reason and exit code handed to `send_drop_notify_error` and the
value it returned. -/
def Event.error_notice : Event → Option (Int × Int × Int)
  | Event.send_drop_notify_error error exitcode ret => some (error, exitcode, ret)
  | _ => none

/-- The source identity, local identity and interface handed to the policy
notification `send_drop_notify`. -/
def Event.policy_notice : Event → Option (Nat × Nat × Int)
  | Event.send_drop_notify src dst _ ifindex _ _ => some (src, dst, ifindex)
  | _ => none

/-- The interface and flags passed to `redirect` and the value it returned. -/
def Event.redirect_call : Event → Option (Int × Nat × Int)
  | Event.redirect ifindex flags ret => some (ifindex, flags, ret)
  | _ => none

/-- Whether a call is a service lookup or a backend lookup that found no
entry. -/
def Event.lb_miss : Event → Bool
  | Event.lb4_lookup_service _ none => true
  | Event.lb6_lookup_service _ none => true
  | Event.lb4_lookup_slave _ _ none => true
  | Event.lb6_lookup_slave _ _ none => true
  | _ => false

/-- Whether a call rewrites the packet on the forward path of the load
balancer: destination rewrite, packet type change, metadata encoding. -/
def Event.lb_rewrite_step : Event → Bool
  | Event.lb4_xlate _ _ _ => true
  | Event.lb6_xlate _ _ _ => true
  | Event.skb_change_type _ _ => true
  | Event.encode_nat_metadata _ _ => true
  | _ => false

/-- The backend entry found by `lb4_lookup_slave`. -/
def Event.backend4 : Event → Option lb4_service
  | Event.lb4_lookup_slave _ _ (some b) => some b
  | _ => none

/-- The backend entry found by `lb6_lookup_slave`. -/
def Event.backend6 : Event → Option lb6_service
  | Event.lb6_lookup_slave _ _ (some b) => some b
  | _ => none

/-- The new destination and backend passed to `lb4_xlate` and the value it
returned. -/
def Event.xlate4 : Event → Option (Nat × lb4_service × Int)
  | Event.lb4_xlate new_dst svc ret => some (new_dst, svc, ret)
  | _ => none

/-- The new destination and backend passed to `lb6_xlate` and the value it
returned. -/
def Event.xlate6 : Event → Option (v6addr × lb6_service × Int)
  | Event.lb6_xlate new_dst svc ret => some (new_dst, svc, ret)
  | _ => none

/-- The type passed to `skb_change_type` and the value it returned. -/
def Event.type_change : Event → Option (Nat × Int)
  | Event.skb_change_type type ret => some (type, ret)
  | _ => none

/-- The identity and reverse-NAT index passed to `encode_nat_metadata`. -/
def Event.metadata : Event → Option (Nat × Nat)
  | Event.encode_nat_metadata identity revnat => some (identity, revnat)
  | _ => none

/-- The value returned by `icmp6_handle`. -/
def Event.icmp6_result : Event → Option Int
  | Event.icmp6_handle ret => some ret
  | _ => none

/-- The value returned by a `ct_create4` or `ct_create6` call. -/
def Event.ct_create_result : Event → Option Int
  | Event.ct_create4 _ _ _ ret => some ret
  | Event.ct_create6 _ _ _ ret => some ret
  | _ => none

/-- The stage index of the main protocol stage of a family:
`CILIUM_CALL_IPV4` or `CILIUM_CALL_IPV6`. -/
def main_stage_index (K : Consts) (f : Family) : Nat :=
  match f with
  | Family.ipv4 => K.CILIUM_CALL_IPV4
  | Family.ipv6 => K.CILIUM_CALL_IPV6

/-- The packet on which `handle_ipv6` derives the identity: the one
`icmp6_handle` left when it was called (under `HANDLE_NS`, for a next-header
`IPPROTO_ICMPV6` after `ipv6_hdrlen`), the packet received otherwise. -/
def icmp6_stage_packet {σ : Type} (K : Consts) (C : Config) (E : Env σ) (skb : SkBuff) :
    SkBuff :=
  if C.HANDLE_NS = true ∧ (E.ipv6_hdrlen skb K.ETH_HLEN skb.ip6.nexthdr).2 = K.IPPROTO_ICMPV6 then
    (E.icmp6_handle skb K.ETH_HLEN skb.ip6).2
  else skb

/-- The `reverse_proxy` call of `handle_ipv4` (made under `FROM_HOST` for a
destination in the cluster range), on the packet the identity derivation
left: its result, the packet and the tuple it leaves. -/
def reverse_proxy_call4 {σ : Type} (K : Consts) (C : Config) (E : Env σ) (skb : SkBuff) :
    Int × SkBuff × ipv4_ct_tuple :=
  E.reverse_proxy (derive_identity_and_revnat K C skb (some 0)).2.2
    (K.ETH_HLEN + E.ipv4_hdrlen (derive_identity_and_revnat K C skb (some 0)).2.2.ip4)
    (derive_identity_and_revnat K C skb (some 0)).2.2.ip4
    { nexthdr := (derive_identity_and_revnat K C skb (some 0)).2.2.ip4.protocol }

/-- The packet on which `handle_ipv4` looks up the local endpoint: the one
the identity derivation left, and under `FROM_HOST` what `reverse_proxy` made
of it. -/
def endpoint_stage_packet4 {σ : Type} (K : Consts) (C : Config) (E : Env σ) (skb : SkBuff) :
    SkBuff :=
  if C.FROM_HOST = true then (reverse_proxy_call4 K C E skb).2.1
  else (derive_identity_and_revnat K C skb (some 0)).2.2

/-- The `reverse_proxy6` call of `handle_ipv6` (made under `FROM_HOST` for a
destination under the router prefix), on the packet the identity derivation
left: its result and the packet it leaves. -/
def reverse_proxy_call6 {σ : Type} (K : Consts) (C : Config) (E : Env σ) (skb : SkBuff) :
    Int × SkBuff :=
  E.reverse_proxy6
    (derive_ip6_identity_and_revnat K C (icmp6_stage_packet K C E skb) C.ROUTER_IP).2
    (K.ETH_HLEN + (E.ipv6_hdrlen skb K.ETH_HLEN skb.ip6.nexthdr).1)
    (derive_ip6_identity_and_revnat K C (icmp6_stage_packet K C E skb) C.ROUTER_IP).2.ip6
    (derive_ip6_identity_and_revnat K C (icmp6_stage_packet K C E skb) C.ROUTER_IP).2.ip6.nexthdr

/-- The packet on which `handle_ipv6` looks up the local endpoint: the one
the identity derivation left, and under `FROM_HOST` what `reverse_proxy6`
made of it. -/
def endpoint_stage_packet6 {σ : Type} (K : Consts) (C : Config) (E : Env σ) (skb : SkBuff) :
    SkBuff :=
  if C.FROM_HOST = true then (reverse_proxy_call6 K C E skb).2
  else (derive_ip6_identity_and_revnat K C (icmp6_stage_packet K C E skb) C.ROUTER_IP).2

/-- The part of `handle_ipv6` that follows the `HANDLE_NS` block: identity
derivation, then local delivery, encapsulation or the stack.  `l4_off` and
`nexthdr` are the locals computed before the block. -/
def handle_ipv6_delivery {σ : Type} (K : Consts) (C : Config) (E : Env σ) (w : World σ)
    (l4_off : Int) (nexthdr : Nat) : Int × World σ := Run.run do
  let mut w := w
  let mut node_ip : v6addr := {}
  node_ip := C.ROUTER_IP
  let d := derive_ip6_identity_and_revnat K C w.skb node_ip
  let secctx := d.1
  w := { w with skb := d.2 }
  if ipv6_match_prefix_96 w.skb.ip6.daddr node_ip then
    w := w.emit (Event.cilium_trace_capture Dbg.DBG_CAPTURE_FROM_NETDEV w.skb.ingress_ifindex)
    if C.FROM_HOST then
      let (ret, skb2) ← call (E.reverse_proxy6 w.skb l4_off w.skb.ip6 w.skb.ip6.nexthdr)
      w := { w.emit (Event.reverse_proxy6 ret) with skb := skb2 }
      if K.IS_ERR ret then
        return (ret, w)
      if w.skb.data + K.sizeof_ipv6hdr + K.ETH_HLEN > w.skb.data_end then
        return (K.DROP_INVALID, w)
    let e ← call (E.lookup_ip6_endpoint w.skb.ip6)
    w := w.emit (Event.lookup_ip6_endpoint w.skb.ip6 e)
    match e with
    | some ep =>
      if ep.flags &&& K.ENDPOINT_F_HOST ≠ 0 then
        return (K.TC_ACT_OK, w)
      let r ← call (E.ipv6_local_delivery w.skb K.ETH_HLEN l4_off secctx w.skb.ip6 nexthdr ep)
      w := w.emit (Event.ipv6_local_delivery secctx ep r)
      return (r, w)
    | none =>
      if C.ENCAP_IFINDEX.isSome then
        let mut key : endpoint_key := {}
        let dst := w.skb.ip6.daddr
        key := { key with ip6 := { key.ip6 with p1 := dst.p1 } }
        key := { key with ip6 := { key.ip6 with p2 := dst.p2 } }
        key := { key with ip6 := { key.ip6 with p3 := dst.p3 } }
        key := { key with ip6 := { key.ip6 with p4 := 0 } }
        key := { key with family := K.ENDPOINT_KEY_IPV6 }
        let r ← call (E.encap_and_redirect w.skb key secctx)
        w := w.emit (Event.encap_and_redirect key secctx r)
        return (r, w)
  w := w.emit (Event.cilium_trace_capture Dbg.DBG_CAPTURE_DELIVERY 0)
  return (K.TC_ACT_OK, w)

/-- The egress tracker lookup that `svc_lookup4` makes in a from-wire build:
`ct_extract_tuple4` on the empty tuple, then `ct_lookup4` with an empty
state. -/
def svc_lookup4_ct {σ : Type} (K : Consts) (E : Env σ) (skb : SkBuff) (ct : σ) :
    Int × ipv4_ct_tuple × ct_state :=
  E.ct_lookup4 ct (E.ct_extract_tuple4 {} skb.ip4 K.ETH_HLEN K.CT_EGRESS).2 skb
    (E.ct_extract_tuple4 {} skb.ip4 K.ETH_HLEN K.CT_EGRESS).1 K.CT_EGRESS {}

/-- The L4 offset and tuple that `svc_lookup4` extracts in the ingress
direction for the service lookup; in a from-wire build the tuple passed in is
the one the tracker lookup left. -/
def svc_lookup4_tuple {σ : Type} (K : Consts) (C : Config) (E : Env σ) (skb : SkBuff) (ct : σ) :
    Int × ipv4_ct_tuple :=
  E.ct_extract_tuple4
    (if ¬ C.FROM_HOST ∧ ¬ C.FROM_NAT then (svc_lookup4_ct K E skb ct).2.1 else {})
    skb.ip4 K.ETH_HLEN K.CT_INGRESS

/-- The port extraction of `svc_lookup4` (made under `LB_L4`). -/
def svc_lookup4_port {σ : Type} (K : Consts) (C : Config) (E : Env σ) (skb : SkBuff) (ct : σ) :
    Int × Nat :=
  E.extract_l4_port skb (svc_lookup4_tuple K C E skb ct).2.nexthdr
    (svc_lookup4_tuple K C E skb ct).1 0

/-- The key of the service lookup of `svc_lookup4`: the destination address
and, under `LB_L4`, the extracted port. -/
def svc_lookup4_key {σ : Type} (K : Consts) (C : Config) (E : Env σ) (skb : SkBuff) (ct : σ) :
    lb4_key :=
  { address := skb.ip4.daddr
    dport := if C.LB_L4 then (svc_lookup4_port K C E skb ct).2 else 0 }

/-- The packet reaches both lookups of `svc_lookup4` and both find an entry,
the backend being `b`: in a from-wire build the egress tracker lookup is not
a reply with a reverse-NAT index, under `LB_L4` the port extraction does not
fail, the service table has an entry for the key, and the backend table has
the entry `b` for the key and the slave selected. -/
def lb4_lookups_succeed {σ : Type} (K : Consts) (C : Config) (E : Env σ) (skb : SkBuff)
    (ct : σ) (b : lb4_service) : Prop :=
  (C.FROM_HOST = false ∧ C.FROM_NAT = false →
    ¬ ((svc_lookup4_ct K E skb ct).1 = K.CT_REPLY ∧
      (svc_lookup4_ct K E skb ct).2.2.rev_nat_index ≠ 0)) ∧
  (C.LB_L4 = true → K.IS_ERR (svc_lookup4_port K C E skb ct).1 = false) ∧
  ∃ svc, E.lb4_lookup_service skb (svc_lookup4_key K C E skb ct) = some svc ∧
    (E.lb4_lookup_slave skb (svc_lookup4_key K C E skb ct)
      (E.lb4_select_slave skb (svc_lookup4_key K C E skb ct) svc.count svc.weight % 2 ^ 16)).1 =
      some b

/-- The egress tracker lookup that `svc_lookup6` makes in a from-wire build. -/
def svc_lookup6_ct {σ : Type} (K : Consts) (E : Env σ) (skb : SkBuff) (ct : σ) :
    Int × ipv6_ct_tuple × ct_state :=
  E.ct_lookup6 ct (E.ct_extract_tuple6 skb {} skb.ip6 K.ETH_HLEN K.CT_EGRESS).2 skb
    (E.ct_extract_tuple6 skb {} skb.ip6 K.ETH_HLEN K.CT_EGRESS).1 K.CT_EGRESS {}

/-- The L4 offset and tuple that `svc_lookup6` extracts in the ingress
direction for the service lookup. -/
def svc_lookup6_tuple {σ : Type} (K : Consts) (C : Config) (E : Env σ) (skb : SkBuff) (ct : σ) :
    Int × ipv6_ct_tuple :=
  E.ct_extract_tuple6 skb
    (if ¬ C.FROM_HOST ∧ ¬ C.FROM_NAT then (svc_lookup6_ct K E skb ct).2.1 else {})
    skb.ip6 K.ETH_HLEN K.CT_INGRESS

/-- The port extraction of `svc_lookup6` (made under `LB_L4`). -/
def svc_lookup6_port {σ : Type} (K : Consts) (C : Config) (E : Env σ) (skb : SkBuff) (ct : σ) :
    Int × Nat :=
  E.extract_l4_port skb (svc_lookup6_tuple K C E skb ct).2.nexthdr
    (svc_lookup6_tuple K C E skb ct).1 0

/-- The key of the service lookup of `svc_lookup6`. -/
def svc_lookup6_key {σ : Type} (K : Consts) (C : Config) (E : Env σ) (skb : SkBuff) (ct : σ) :
    lb6_key :=
  { address := skb.ip6.daddr
    dport := if C.LB_L4 then (svc_lookup6_port K C E skb ct).2 else 0 }

/-- The packet reaches both lookups of `svc_lookup6` and both find an entry,
the backend being `b`; the conditions are those of `lb4_lookups_succeed`. -/
def lb6_lookups_succeed {σ : Type} (K : Consts) (C : Config) (E : Env σ) (skb : SkBuff)
    (ct : σ) (b : lb6_service) : Prop :=
  (C.FROM_HOST = false ∧ C.FROM_NAT = false →
    ¬ ((svc_lookup6_ct K E skb ct).1 = K.CT_REPLY ∧
      (svc_lookup6_ct K E skb ct).2.2.rev_nat_index ≠ 0)) ∧
  (C.LB_L4 = true → K.IS_ERR (svc_lookup6_port K C E skb ct).1 = false) ∧
  ∃ svc, E.lb6_lookup_service skb (svc_lookup6_key K C E skb ct) = some svc ∧
    (E.lb6_lookup_slave skb (svc_lookup6_key K C E skb ct)
      (E.lb6_select_slave skb (svc_lookup6_key K C E skb ct) svc.count svc.weight % 2 ^ 16)).1 =
      some b

/-- The verdict rule in the words of the specification: a new flow needs an
allow verdict; for the other flows a deny is fatal unless the classification
is `CT_REPLY` or `CT_RELATED`. -/
def verdict_result_spec (K : Consts) (c verdict : Int) : Int :=
  if c = K.CT_NEW ∧ verdict ≠ K.TC_ACT_OK then K.DROP_POLICY
  else if verdict ≠ K.TC_ACT_OK ∧ c ≠ K.CT_REPLY ∧ c ≠ K.CT_RELATED then K.DROP_POLICY
  else 0

/-- The result of the policy stage in the words of the specification, as a
function of the classification `c` of the tracker lookup, the outcome `rev`
of the reverse translation (`none` when none is applied) and the verdict: a
fatal classification is returned, then a failed reverse translation, then the
verdict rule decides. -/
def policy_result_spec (K : Consts) (c : Int) (rev : Option Int) (verdict : Int) : Int :=
  if c < 0 ∧ c ≠ K.DROP_CT_CANT_CREATE then c
  else
    match rev with
    | some r => if K.IS_ERR r = true then r else verdict_result_spec K c verdict
    | none => verdict_result_spec K c verdict

/-- The per-protocol policy function: `ipv4_policy` or `ipv6_policy`. -/
def policy_fn {σ : Type} (f : Family) (K : Consts) (E : Env σ) (w : World σ) (ifindex : Int)
    (src_label : Nat) : Int × World σ :=
  match f with
  | Family.ipv4 => ipv4_policy K E w ifindex src_label
  | Family.ipv6 => ipv6_policy K E w ifindex src_label

/-- The per-protocol main handler: `handle_ipv4` or `handle_ipv6`. -/
def handle_fn {σ : Type} (f : Family) (K : Consts) (C : Config) (E : Env σ) (w : World σ) :
    Int × World σ :=
  match f with
  | Family.ipv4 => handle_ipv4 K C E w
  | Family.ipv6 => handle_ipv6 K C E w

/-- The per-protocol load-balancer handler: `handle_lb_ip4` or `handle_lb_ip6`. -/
def handle_lb_fn {σ : Type} (f : Family) (K : Consts) (C : Config) (E : Env σ) (w : World σ) :
    Exit × World σ :=
  match f with
  | Family.ipv4 => handle_lb_ip4 K C E w
  | Family.ipv6 => handle_lb_ip6 K C E w

/-- The per-protocol service lookup: `svc_lookup4` or `svc_lookup6`. -/
def svc_lookup_fn {σ : Type} (f : Family) (K : Consts) (C : Config) (E : Env σ) (w : World σ)
    (secctx : Nat) (to_stack : Bool) : Int × Bool × World σ :=
  match f with
  | Family.ipv4 => svc_lookup4 K C E w secctx to_stack
  | Family.ipv6 => svc_lookup6 K C E w secctx to_stack

/-- The size of the minimum L3 header of a family: `sizeof(struct iphdr)` or
`sizeof(struct ipv6hdr)`. -/
def l3_header_size (K : Consts) (f : Family) : Nat :=
  match f with
  | Family.ipv4 => K.sizeof_iphdr
  | Family.ipv6 => K.sizeof_ipv6hdr

/-- The stages of the pipeline that have an entry point in the file. -/
inductive Stage where
  | lb (f : Family)
  | main (f : Family)
  | policy
deriving DecidableEq, Repr

/-- The `switch (skb->protocol)` of `handle_policy`: the per-protocol policy
function that is run, with the identity and interface value read from `cb`,
or `DROP_UNKNOWN_L3`. -/
def handle_policy_switch {σ : Type} (K : Consts) (E : Env σ) (w : World σ) : Int × World σ :=
  if w.skb.protocol = K.htons_ETH_P_IPV6 then
    ipv6_policy K E w (toInt32 (w.skb.cb K.CB_IFINDEX)) (w.skb.cb K.CB_SRC_LABEL)
  else if w.skb.protocol = K.htons_ETH_P_IP then
    ipv4_policy K E w (toInt32 (w.skb.cb K.CB_IFINDEX)) (w.skb.cb K.CB_SRC_LABEL)
  else
    (K.DROP_UNKNOWN_L3, w)

/-- The body of a stage: `handle_lb_ip4` / `handle_lb_ip6`, `handle_ipv4` /
`handle_ipv6`, or the per-protocol policy function of `handle_policy`. -/
def stage_body {σ : Type} (s : Stage) (K : Consts) (C : Config) (E : Env σ) (w : World σ) :
    Exit × World σ :=
  match s with
  | Stage.lb f => handle_lb_fn f K C E w
  | Stage.main f => (Exit.returned (handle_fn f K C E w).1, (handle_fn f K C E w).2)
  | Stage.policy => (Exit.returned (handle_policy_switch K E w).1, (handle_policy_switch K E w).2)

/-- The entry point of a stage: `tail_handle_lb_ip4` / `tail_handle_lb_ip6`,
`tail_handle_ipv4` / `tail_handle_ipv6`, or `handle_policy`. -/
def stage_entry {σ : Type} (s : Stage) (K : Consts) (C : Config) (E : Env σ) (w : World σ) :
    Exit × World σ :=
  match s with
  | Stage.lb Family.ipv4 => tail_handle_lb_ip4 K C E w
  | Stage.lb Family.ipv6 => tail_handle_lb_ip6 K C E w
  | Stage.main Family.ipv4 =>
    (Exit.returned (tail_handle_ipv4 K C E w).1, (tail_handle_ipv4 K C E w).2)
  | Stage.main Family.ipv6 =>
    (Exit.returned (tail_handle_ipv6 K C E w).1, (tail_handle_ipv6 K C E w).2)
  | Stage.policy => (Exit.returned (handle_policy K C E w).1, (handle_policy K C E w).2)

/-- The disposition an entry point asks of the drop notification: drop in
the policy stage, pass to the stack in the other stages. -/
def stage_exit_code (K : Consts) (s : Stage) : Int :=
  match s with
  | Stage.policy => K.TC_ACT_SHOT
  | _ => K.TC_ACT_OK

/-- What an entry point does with an error reason `ret` of its body that left
the world `w1`, the stage having started in `w`: the policy stage reports
`DROP_POLICY` with `send_drop_notify` (source identity, `SECLABEL`,
interface), every other reason of every stage goes to
`send_drop_notify_error`; the hook is given the exit code of the stage and
its result is returned. -/
def stage_notified {σ : Type} (s : Stage) (K : Consts) (C : Config) (E : Env σ) (w : World σ)
    (ret : Int) (w1 : World σ) : Exit × World σ :=
  if s = Stage.policy ∧ ret = K.DROP_POLICY then
    (Exit.returned (E.send_drop_notify w1.skb (w.skb.cb K.CB_SRC_LABEL) C.SECLABEL 0
        (toInt32 (w.skb.cb K.CB_IFINDEX)) K.TC_ACT_SHOT),
      w1.emit (Event.send_drop_notify (w.skb.cb K.CB_SRC_LABEL) C.SECLABEL 0
        (toInt32 (w.skb.cb K.CB_IFINDEX)) K.TC_ACT_SHOT
        (E.send_drop_notify w1.skb (w.skb.cb K.CB_SRC_LABEL) C.SECLABEL 0
          (toInt32 (w.skb.cb K.CB_IFINDEX)) K.TC_ACT_SHOT)))
  else
    (Exit.returned (E.send_drop_notify_error w1.skb ret (stage_exit_code K s)),
      w1.emit (Event.send_drop_notify_error ret (stage_exit_code K s)
        (E.send_drop_notify_error w1.skb ret (stage_exit_code K s))))

/-! ## A sample instantiation

Concrete header constants, helpers and packets on which the functions can be
evaluated. -/

/-- Header constants with the values of the Linux UAPI and the numbering used
by the `lib/` headers: drop reasons are negative, `IS_ERR` holds of negative
values and of `TC_ACT_SHOT`. -/
def sampleConsts : Consts where
  ETH_HLEN := 14
  sizeof_iphdr := 20
  sizeof_ipv6hdr := 40
  TC_ACT_OK := 0
  TC_ACT_SHOT := 2
  IS_ERR := fun x => decide (x < 0) || decide (x = 2)
  DROP_INVALID := -134
  DROP_POLICY := -133
  DROP_CT_CANT_CREATE := -138
  DROP_UNKNOWN_L3 := -139
  DROP_UNKNOWN_L4 := -142
  DROP_MISSED_TAIL_CALL := -140
  DROP_WRITE_ERROR := -141
  CT_NEW := 0
  CT_ESTABLISHED := 1
  CT_REPLY := 2
  CT_RELATED := 3
  CT_EGRESS := 1
  CT_INGRESS := 0
  REV_NAT_F_TUPLE_SADDR := 1
  IPPROTO_ICMPV6 := 58
  IPV6_FLOWLABEL_MASK := 0x000FFFFF
  bpf_ntohl := fun x => x
  htons_ETH_P_IP := 0x0800
  htons_ETH_P_IPV6 := 0x86DD
  ENDPOINT_F_HOST := 1
  ENDPOINT_KEY_IPV4 := 1
  ENDPOINT_KEY_IPV6 := 2
  MD_ID_MASK := 0xFFFF
  MD_F_REVNAT := 0x10000
  WORLD_ID := 2
  CILIUM_CALL_IPV4 := 7
  CILIUM_CALL_IPV6 := 10
  CILIUM_CALL_LB_IP4 := 13
  CILIUM_CALL_LB_IP6 := 14
  CB_SRC_LABEL := 0
  CB_IFINDEX := 1

/-- A build for traffic from the wire: IPv4 enabled, both load balancers with
ports, neighbour discovery handled, encapsulation on interface 3. -/
def sampleConfig : Config where
  FROM_NAT := false
  FROM_HOST := false
  FIXED_SRC_SECCTX := none
  LB_IP4 := true
  LB_IP6 := true
  LB_L4 := true
  HANDLE_NS := true
  ENABLE_IPV4 := true
  ENCAP_IFINDEX := some 3
  ROUTER_IP := { p1 := 0xbeef0000, p2 := 0, p3 := 0x0a000001, p4 := 0 }
  IPV4_CLUSTER_MASK := 0xFFFF0000
  IPV4_CLUSTER_RANGE := 0x0A0F0000
  IPV4_MASK := 0xFFFFFF00
  SECLABEL := 260

/-- The sample connection tracker store: the tracked tuples, each with the
classification a lookup of it returns and its state. -/
abbrev SampleStore : Type := List (List Nat × Int × ct_state)

/-- The key of an IPv4 tuple in the sample store. -/
def key4 (t : ipv4_ct_tuple) : List Nat := [4, t.daddr, t.saddr, t.dport, t.sport, t.nexthdr]

/-- The key of an IPv6 tuple in the sample store. -/
def key6 (t : ipv6_ct_tuple) : List Nat :=
  [6, t.daddr.p1, t.daddr.p2, t.daddr.p3, t.daddr.p4, t.saddr.p1, t.saddr.p2, t.saddr.p3,
    t.saddr.p4, t.dport, t.sport, t.nexthdr]

/-- Lookup in the sample store: an absent tuple is `CT_NEW` (0) and leaves the
state as it was passed in. -/
def sampleLookup (store : SampleStore) (key : List Nat) (st : ct_state) : Int × ct_state :=
  match store.find? (fun e => e.1 == key) with
  | some e => e.2
  | none => (0, st)

/-- Sample helpers.  Tuples are read off the header with fixed ports 1234 and
80; the tracker is the sample store, a created entry being classified
`CT_ESTABLISHED` (1) from then on; the port of a TCP or UDP packet is read
when its four port bytes lie in the buffer and the read fails with -14
otherwise, ICMP has no port and any other protocol gives `DROP_UNKNOWN_L4`;
the policy allows source identity 2 only;
the rewriting helpers succeed and leave the packet alone; no service and no
endpoint is configured; the tail call is taken; the notification hooks return
the exit code they are given; `redirect` returns `TC_ACT_REDIRECT` (7). -/
def sampleEnv : Env SampleStore where
  ct_extract_tuple4 := fun t h l3 _ =>
    ((l3 : Int) + 20, { t with daddr := h.daddr, saddr := h.saddr, dport := 80, sport := 1234,
                               nexthdr := h.protocol })
  ct_extract_tuple6 := fun _ t h l3 _ =>
    ((l3 : Int) + 40, { t with daddr := h.daddr, saddr := h.saddr, dport := 80, sport := 1234,
                               nexthdr := h.nexthdr })
  csum_l4_offset_and_flags := fun _ c => c
  ct_lookup4 := fun store t _ _ _ st => ((sampleLookup store (key4 t) st).1, t,
    (sampleLookup store (key4 t) st).2)
  ct_lookup6 := fun store t _ _ _ st => ((sampleLookup store (key6 t) st).1, t,
    (sampleLookup store (key6 t) st).2)
  ct_create4 := fun store t _ _ st _ => (0, (key4 t, 1, st) :: store)
  ct_create6 := fun store t _ _ st _ => (0, (key6 t, 1, st) :: store)
  lb4_rev_nat := fun skb _ _ _ _ t _ _ => (0, skb, t)
  lb6_rev_nat := fun skb _ _ _ t _ => (0, skb, t)
  extract_l4_port := fun skb nexthdr l4_off port =>
    if nexthdr = 6 ∨ nexthdr = 17 then
      if (skb.data : Int) + l4_off + 4 ≤ skb.data_end then (0, 80) else (-14, port)
    else if nexthdr = 1 ∨ nexthdr = 58 then (0, port)
    else (-142, port)
  lb4_lookup_service := fun _ _ => none
  lb6_lookup_service := fun _ _ => none
  lb4_select_slave := fun _ _ _ _ => 1
  lb6_select_slave := fun _ _ _ _ => 1
  lb4_lookup_slave := fun _ k slave => (none, { k with slave := slave })
  lb6_lookup_slave := fun _ k slave => (none, { k with slave := slave })
  lb4_xlate := fun skb _ _ _ _ _ _ _ => (0, skb)
  lb6_xlate := fun skb _ _ _ _ _ _ _ => (0, skb)
  skb_change_type := fun skb _ => (0, skb)
  ipv4_hdrlen := fun h => (h.ihl : Int) * 4
  ipv6_hdrlen := fun _ _ nexthdr => (40, nexthdr)
  icmp6_handle := fun skb _ _ => (0, skb)
  reverse_proxy := fun skb _ _ t => (0, skb, t)
  reverse_proxy6 := fun skb _ _ _ => (0, skb)
  lookup_ip4_endpoint := fun _ => none
  lookup_ip6_endpoint := fun _ => none
  ipv4_local_delivery := fun _ _ _ _ _ _ => 0
  ipv6_local_delivery := fun _ _ _ _ _ _ _ => 0
  encap_and_redirect := fun _ _ _ => 7
  policy_can_access := fun _ src_label _ _ => if src_label = 2 then 0 else -133
  ep_tail_call := fun _ _ _ => true
  bpf_clear_cb := fun skb => { skb with cb := fun _ => 0 }
  send_drop_notify := fun _ _ _ _ _ exitcode => exitcode
  send_drop_notify_error := fun _ _ exitcode => exitcode
  redirect := fun _ _ => 7

/-- A 98-byte IPv4 TCP packet from 192.168.1.9 to 10.15.2.3. -/
def samplePacket4 : SkBuff where
  data := 1000
  data_end := 1098
  protocol := 0x0800
  ip4 := { ihl := 5, protocol := 6, saddr := 0xC0A80109, daddr := 0x0A0F0203 }

/-- A 98-byte IPv6 TCP packet to an address under the router prefix. -/
def samplePacket6 : SkBuff where
  data := 1000
  data_end := 1098
  protocol := 0x86DD
  ip6 := { word0 := 0x60000000, nexthdr := 6,
           saddr := { p1 := 0x20010db8, p2 := 1, p3 := 0, p4 := 9 },
           daddr := { p1 := 0xbeef0000, p2 := 0, p3 := 0x0a000001, p4 := 0x1234 } }

/-- The sample configuration built for traffic from the host. -/
def sampleConfigHost : Config :=
  { sampleConfig with FROM_HOST := true }

/-- A tracker store in which the egress tuple of the sample IPv4 packet is a
reply of a load-balanced connection with reverse-NAT index 5. -/
def replyStore : SampleStore :=
  [([4, 0x0A0F0203, 0xC0A80109, 80, 1234, 6], 2, { rev_nat_index := 5 })]

/-- The sample configuration without encapsulation. -/
def sampleConfigNoEncap : Config :=
  { sampleConfig with ENCAP_IFINDEX := none }

/-- An IPv4 TCP packet that ends with its IPv4 header: 34 bytes, no L4 header. -/
def headerOnlyPacket4 : SkBuff where
  data := 1000
  data_end := 1034
  protocol := 0x0800
  ip4 := { ihl := 5, protocol := 6, saddr := 0xC0A80109, daddr := 0x0A0F0203 }

/-- An IPv6 TCP packet that ends with its IPv6 header: 54 bytes, no L4 header. -/
def headerOnlyPacket6 : SkBuff where
  data := 1000
  data_end := 1054
  protocol := 0x86DD
  ip6 := { word0 := 0x60000000, nexthdr := 6,
           saddr := { p1 := 0x20010db8, p2 := 1, p3 := 0, p4 := 9 },
           daddr := { p1 := 0xbeef0000, p2 := 0, p3 := 0x0a000001, p4 := 0x1234 } }

/-- A 30-byte frame: too short for an Ethernet header and an IPv4 header. -/
def shortPacket4 : SkBuff where
  data := 1000
  data_end := 1030
  protocol := 0x0800

/-- The sample helpers with a reverse translation that fails with
`DROP_WRITE_ERROR` (-141). -/
def sampleEnvRevNatFails : Env SampleStore :=
  { sampleEnv with
    lb4_rev_nat := fun skb _ _ _ _ t _ _ => (-141, skb, t)
    lb6_rev_nat := fun skb _ _ _ t _ => (-141, skb, t) }

/-- The sample helpers with an ICMPv6 responder that answers every message
and returns `TC_ACT_REDIRECT` (7). -/
def sampleEnvIcmpAnswers : Env SampleStore :=
  { sampleEnv with icmp6_handle := fun skb _ _ => (7, skb) }

/-- The sample helpers with an ICMPv6 responder that fails with
`DROP_INVALID` (-134). -/
def sampleEnvIcmpFails : Env SampleStore :=
  { sampleEnv with icmp6_handle := fun skb _ _ => (-134, skb) }

/-- An ICMPv6 packet to an address outside the router prefix. -/
def icmpPacket6 : SkBuff where
  data := 1000
  data_end := 1098
  protocol := 0x86DD
  ip6 := { word0 := 0x60000000, nexthdr := 58,
           saddr := { p1 := 0x20010db8, p2 := 1, p3 := 0, p4 := 9 },
           daddr := { p1 := 0x20010db8, p2 := 2, p3 := 0, p4 := 1 } }

/-- The sample helpers with a service table in which every address is a
service with two backends, the selected backend having target 10.15.5.7
(IPv4) or beef::a00:1:0:40 (IPv6) and reverse-NAT index 3. -/
def sampleEnvService : Env SampleStore :=
  { sampleEnv with
    lb4_lookup_service := fun _ _ => some { count := 2 }
    lb6_lookup_service := fun _ _ => some { count := 2 }
    lb4_lookup_slave := fun _ k slave =>
      (some { target := 0x0A0F0507, port := 8080, rev_nat_index := 3 }, { k with slave := slave })
    lb6_lookup_slave := fun _ k slave =>
      (some { target := { p1 := 0xbeef0000, p2 := 0, p3 := 0x0a000001, p4 := 0x40 },
              port := 8080, rev_nat_index := 3 }, { k with slave := slave }) }

/-- The sample helpers with a stage table in which no tail call succeeds. -/
def sampleEnvNoTailCall : Env SampleStore :=
  { sampleEnv with ep_tail_call := fun _ _ _ => false }

/-- A 98-byte IPv4 TCP packet from 10.15.2.3 to 8.8.8.8, outside the cluster
range. -/
def outsidePacket4 : SkBuff where
  data := 1000
  data_end := 1098
  protocol := 0x0800
  ip4 := { ihl := 5, protocol := 6, saddr := 0x0A0F0203, daddr := 0x08080808 }

/-- A tracker store in which the egress tuple of `outsidePacket4` is a reply
of a load-balanced connection with reverse-NAT index 5. -/
def outsideReplyStore : SampleStore :=
  [([4, 0x08080808, 0x0A0F0203, 80, 1234, 6], 2, { rev_nat_index := 5 })]

/-- A 60-byte ARP frame. -/
def arpPacket : SkBuff where
  data := 1000
  data_end := 1060
  protocol := 0x0806
  mark := 7
  tc_index := 3

/-- The sample IPv4 packet as the policy stage receives it: source identity
2 in `cb[CB_SRC_LABEL]` and interface 5 in `cb[CB_IFINDEX]`. -/
def policyPacket4 : SkBuff :=
  { samplePacket4 with cb := fun i => if i = 0 then 2 else if i = 1 then 5 else 0 }

/-- The sample IPv4 packet as the policy stage receives it from the denied
source identity 9, with no interface recorded. -/
def deniedPacket4 : SkBuff :=
  { samplePacket4 with cb := fun i => if i = 0 then 9 else 0 }

/-- A tracker store in which the egress tuple of the sample IPv4 packet is an
established connection whose state carries reverse-NAT index 5. -/
def establishedStore4 : SampleStore :=
  [([4, 0x0A0F0203, 0xC0A80109, 80, 1234, 6], 1, { rev_nat_index := 5 })]

/-- A tracker store in which the egress tuple of the sample IPv6 packet is an
established connection whose state carries reverse-NAT index 5. -/
def establishedStore6 : SampleStore :=
  [([6, 0xbeef0000, 0, 0x0a000001, 0x1234, 0x20010db8, 1, 0, 9, 80, 1234, 6], 1,
    { rev_nat_index := 5 })]

/-- The sample helpers with a local endpoint table in which every address is
a workload endpoint (no flag set). -/
def sampleEnvLocalEndpoint : Env SampleStore :=
  { sampleEnv with
    lookup_ip4_endpoint := fun _ => some { flags := 0, rest := 7 }
    lookup_ip6_endpoint := fun _ => some { flags := 0, rest := 7 } }

/-- The sample IPv4 packet with reverse-NAT index 5 in `cb[CB_REVNAT]`. -/
def revnatPacket4 : SkBuff :=
  { samplePacket4 with cb := fun i => if i = 0 then 5 else 0 }

/-- A tracker store in which the egress tuple of the sample IPv6 packet is a
reply of a load-balanced connection with reverse-NAT index 5. -/
def replyStore6 : SampleStore :=
  [([6, 0xbeef0000, 0, 0x0a000001, 0x1234, 0x20010db8, 1, 0, 9, 80, 1234, 6], 2,
    { rev_nat_index := 5 })]

/-- An ICMPv6 packet to an address under the router prefix. -/
def icmpLocalPacket6 : SkBuff where
  data := 1000
  data_end := 1098
  protocol := 0x86DD
  ip6 := { word0 := 0x60000000, nexthdr := 58,
           saddr := { p1 := 0x20010db8, p2 := 1, p3 := 0, p4 := 9 },
           daddr := { p1 := 0xbeef0000, p2 := 0, p3 := 0x0a000001, p4 := 0x1234 } }

theorem Run.run_pure {α : Type} (v : α) : (pure v : Run α).run = v := rfl

theorem Run.pure_bind {α β : Type} (a : α) (k : α → Run β) : (pure a >>= k) = k a := by
  show Run.bind' _ _ = _
  unfold Run.bind'
  rfl

theorem Run.call_bind {α β : Type} (v : α) (k : α → Run β) : (call v >>= k) = k v := by
  show Run.bind' _ _ = _
  unfold Run.bind'
  rfl

theorem call_bind_inv {α β : Type} {v : α} {k : α → Run β} {r : β}
    (h : (call v >>= k).run = r) : ∃ x : α, (k x).run = r := by
  refine ⟨v, ?_⟩
  rw [← h]
  show _ = (Run.bind' _ _).run
  unfold Run.bind'
  rfl

theorem call_bind_eq {α β : Type} {v : α} {k : α → Run β} {r : β}
    (h : (call v >>= k).run = r) : ∃ x : α, v = x ∧ (k x).run = r := by
  refine ⟨v, rfl, ?_⟩
  rw [← h]
  show _ = (Run.bind' _ _).run
  unfold Run.bind'
  rfl

theorem ite_inv {β : Type} {c : Prop} [Decidable c] {a b : Run β} {r : β}
    (h : (if c then a else b).run = r) : (c ∧ a.run = r) ∨ (¬ c ∧ b.run = r) := by
  by_cases hc : c
  · exact Or.inl ⟨hc, by rw [if_pos hc] at h; exact h⟩
  · exact Or.inr ⟨hc, by rw [if_neg hc] at h; exact h⟩

/-! ## The policy stage -/

/-- The result of `ipv4_policy` once the policy has been queried. -/
theorem ipv4_policy_result {σ : Type} (K : Consts) (E : Env σ) (skb : SkBuff)
    (ct : σ) (ifindex : Int) (src_label : Nat) (c : Int) (st : ct_state)
    (hnew : K.CT_NEW ≠ K.CT_REPLY ∧ K.CT_NEW ≠ K.CT_RELATED)
    (hlook : (K.CT_EGRESS, c, st) ∈
      (ipv4_policy K E (World.start skb ct) ifindex src_label).2.calls.filterMap
        Event.ct_lookup_result)
    (hnf : ¬ (c < 0 ∧ c ≠ K.DROP_CT_CANT_CREATE))
    (hrev : ∀ x ∈ (ipv4_policy K E (World.start skb ct) ifindex src_label).2.calls.filterMap
        Event.rev_nat_result, K.IS_ERR x.2 = false) :
    ∃ verdict : Int,
      (ipv4_policy K E (World.start skb ct) ifindex src_label).2.calls.filterMap
        Event.policy_verdict = [verdict] ∧
      (ipv4_policy K E (World.start skb ct) ifindex src_label).1 =
        if verdict ≠ K.TC_ACT_OK ∧ c ≠ K.CT_REPLY ∧ c ≠ K.CT_RELATED then K.DROP_POLICY
        else 0 := by
  generalize hr : ipv4_policy K E (World.start skb ct) ifindex src_label = r at hlook hrev ⊢
  simp only [ipv4_policy, World.start, World.emit, Run.pure_bind] at hr
  repeat' first
    | (replace hr := call_bind_inv hr; obtain ⟨x, hr⟩ := hr; try dsimp only at hr)
    | (replace hr := ite_inv hr; rcases hr with ⟨h, hr⟩ | ⟨h, hr⟩)
  all_goals (simp only [Run.run_pure] at hr; subst hr)
  all_goals simp_all [Event.ct_lookup_result, Event.rev_nat_result, Event.policy_verdict]
  all_goals rw [if_neg (by tauto)]

/-- The result of `ipv6_policy` once the policy has been queried. -/
theorem ipv6_policy_result {σ : Type} (K : Consts) (E : Env σ) (skb : SkBuff)
    (ct : σ) (ifindex : Int) (src_label : Nat) (c : Int) (st : ct_state)
    (hnew : K.CT_NEW ≠ K.CT_REPLY ∧ K.CT_NEW ≠ K.CT_RELATED)
    (hlook : (K.CT_EGRESS, c, st) ∈
      (ipv6_policy K E (World.start skb ct) ifindex src_label).2.calls.filterMap
        Event.ct_lookup_result)
    (hnf : ¬ (c < 0 ∧ c ≠ K.DROP_CT_CANT_CREATE))
    (hrev : ∀ x ∈ (ipv6_policy K E (World.start skb ct) ifindex src_label).2.calls.filterMap
        Event.rev_nat_result, K.IS_ERR x.2 = false) :
    ∃ verdict : Int,
      (ipv6_policy K E (World.start skb ct) ifindex src_label).2.calls.filterMap
        Event.policy_verdict = [verdict] ∧
      (ipv6_policy K E (World.start skb ct) ifindex src_label).1 =
        if verdict ≠ K.TC_ACT_OK ∧ c ≠ K.CT_REPLY ∧ c ≠ K.CT_RELATED then K.DROP_POLICY
        else 0 := by
  generalize hr : ipv6_policy K E (World.start skb ct) ifindex src_label = r at hlook hrev ⊢
  simp only [ipv6_policy, World.start, World.emit, Run.pure_bind] at hr
  repeat' first
    | (replace hr := call_bind_inv hr; obtain ⟨x, hr⟩ := hr; try dsimp only at hr)
    | (replace hr := ite_inv hr; rcases hr with ⟨h, hr⟩ | ⟨h, hr⟩)
  all_goals (simp only [Run.run_pure] at hr; subst hr)
  all_goals simp_all [Event.ct_lookup_result, Event.rev_nat_result, Event.policy_verdict]
  all_goals rw [if_neg (by tauto)]

/-! ## The policy stage on a complete header -/

/-- With a complete header `ipv4_policy` makes one tracker lookup, in the
egress direction. -/
theorem ipv4_policy_lookup {σ : Type} (K : Consts) (E : Env σ) (skb : SkBuff) (ct : σ)
    (ifindex : Int) (src_label : Nat)
    (hvalid : ¬ skb.data + K.sizeof_iphdr + K.ETH_HLEN > skb.data_end) :
    ∃ c st, (ipv4_policy K E (World.start skb ct) ifindex src_label).2.calls.filterMap
      Event.ct_lookup_result = [(K.CT_EGRESS, c, st)] := by
  generalize hr : ipv4_policy K E (World.start skb ct) ifindex src_label = r
  simp only [ipv4_policy, World.start, World.emit, Run.pure_bind] at hr
  repeat' first
    | (replace hr := call_bind_inv hr; obtain ⟨x, hr⟩ := hr; try dsimp only at hr)
    | (replace hr := ite_inv hr; rcases hr with ⟨h, hr⟩ | ⟨h, hr⟩)
  all_goals (simp only [Run.run_pure] at hr; subst hr)
  all_goals simp_all [Event.ct_lookup_result]

/-- With a complete header `ipv6_policy` makes one tracker lookup, in the
egress direction. -/
theorem ipv6_policy_lookup {σ : Type} (K : Consts) (E : Env σ) (skb : SkBuff) (ct : σ)
    (ifindex : Int) (src_label : Nat)
    (hvalid : ¬ skb.data + K.sizeof_ipv6hdr + K.ETH_HLEN > skb.data_end) :
    ∃ c st, (ipv6_policy K E (World.start skb ct) ifindex src_label).2.calls.filterMap
      Event.ct_lookup_result = [(K.CT_EGRESS, c, st)] := by
  generalize hr : ipv6_policy K E (World.start skb ct) ifindex src_label = r
  simp only [ipv6_policy, World.start, World.emit, Run.pure_bind] at hr
  repeat' first
    | (replace hr := call_bind_inv hr; obtain ⟨x, hr⟩ := hr; try dsimp only at hr)
    | (replace hr := ite_inv hr; rcases hr with ⟨h, hr⟩ | ⟨h, hr⟩)
  all_goals (simp only [Run.run_pure] at hr; subst hr)
  all_goals simp_all [Event.ct_lookup_result]

/-- C1: in `ipv4_policy` and `ipv6_policy`, for a packet whose L3 header is in
bounds, the egress tracker lookup is made once; when the classification `c`
it returned is non-fatal and no reverse translation failed, the policy is
queried exactly once and the function returns `DROP_POLICY` exactly when the
verdict is not `TC_ACT_OK` and `c` is neither `CT_REPLY` nor `CT_RELATED`;
otherwise it returns 0.  In particular an established flow that is now denied
is dropped, and a reply or related packet passes whatever the verdict. -/
theorem policy_verdict_rule {σ : Type} (f : Family) (K : Consts) (E : Env σ) (skb : SkBuff)
    (ct : σ) (ifindex : Int) (src_label : Nat)
    (hdrop : K.DROP_POLICY ≠ 0)
    (hnew : K.CT_NEW ≠ K.CT_REPLY ∧ K.CT_NEW ≠ K.CT_RELATED)
    (hest : K.CT_ESTABLISHED ≠ K.CT_REPLY ∧ K.CT_ESTABLISHED ≠ K.CT_RELATED)
    (hvalid : skb.data + K.ETH_HLEN + l3_header_size K f ≤ skb.data_end) :
    ∃ c st, (policy_fn f K E (World.start skb ct) ifindex src_label).2.calls.filterMap
        Event.ct_lookup_result = [(K.CT_EGRESS, c, st)] ∧
      (¬ (c < 0 ∧ c ≠ K.DROP_CT_CANT_CREATE) →
        (∀ x ∈ (policy_fn f K E (World.start skb ct) ifindex src_label).2.calls.filterMap
          Event.rev_nat_result, K.IS_ERR x.2 = false) →
        ∃ verdict : Int,
          (policy_fn f K E (World.start skb ct) ifindex src_label).2.calls.filterMap
            Event.policy_verdict = [verdict] ∧
          ((policy_fn f K E (World.start skb ct) ifindex src_label).1 = K.DROP_POLICY ↔
            (verdict ≠ K.TC_ACT_OK ∧ c ≠ K.CT_REPLY ∧ c ≠ K.CT_RELATED)) ∧
          (¬ (verdict ≠ K.TC_ACT_OK ∧ c ≠ K.CT_REPLY ∧ c ≠ K.CT_RELATED) →
            (policy_fn f K E (World.start skb ct) ifindex src_label).1 = 0) ∧
          (c = K.CT_ESTABLISHED → verdict ≠ K.TC_ACT_OK →
            (policy_fn f K E (World.start skb ct) ifindex src_label).1 = K.DROP_POLICY) ∧
          (c = K.CT_REPLY ∨ c = K.CT_RELATED →
            (policy_fn f K E (World.start skb ct) ifindex src_label).1 = 0)) := by
  have hl : ∃ c st, (policy_fn f K E (World.start skb ct) ifindex src_label).2.calls.filterMap
      Event.ct_lookup_result = [(K.CT_EGRESS, c, st)] := by
    cases f
    · exact ipv4_policy_lookup K E skb ct ifindex src_label
        (by simp only [l3_header_size] at hvalid; omega)
    · exact ipv6_policy_lookup K E skb ct ifindex src_label
        (by simp only [l3_header_size] at hvalid; omega)
  obtain ⟨c, st, hl⟩ := hl
  refine ⟨c, st, hl, fun hnf hrev => ?_⟩
  have hlook : (K.CT_EGRESS, c, st) ∈
      (policy_fn f K E (World.start skb ct) ifindex src_label).2.calls.filterMap
        Event.ct_lookup_result := by
    rw [hl]
    exact List.mem_singleton_self _
  have key : ∃ verdict : Int,
      (policy_fn f K E (World.start skb ct) ifindex src_label).2.calls.filterMap
        Event.policy_verdict = [verdict] ∧
      (policy_fn f K E (World.start skb ct) ifindex src_label).1 =
        if verdict ≠ K.TC_ACT_OK ∧ c ≠ K.CT_REPLY ∧ c ≠ K.CT_RELATED then K.DROP_POLICY
        else 0 := by
    cases f
    · exact ipv4_policy_result K E skb ct ifindex src_label c st hnew hlook hnf hrev
    · exact ipv6_policy_result K E skb ct ifindex src_label c st hnew hlook hnf hrev
  obtain ⟨verdict, hv, hres⟩ := key
  refine ⟨verdict, hv, ?_⟩
  rw [hres]
  by_cases hd : verdict ≠ K.TC_ACT_OK ∧ c ≠ K.CT_REPLY ∧ c ≠ K.CT_RELATED
  · rw [if_pos hd]
    refine ⟨by simp [hd], fun h => absurd hd h, fun _ _ => rfl, ?_⟩
    rintro (h | h)
    · exact absurd h hd.2.1
    · exact absurd h hd.2.2
  · rw [if_neg hd]
    refine ⟨⟨fun h => absurd h.symm hdrop, fun h => absurd h hd⟩, fun _ => rfl, ?_, fun _ => rfl⟩
    intro hc hv'
    exact absurd ⟨hv', hc ▸ hest.1, hc ▸ hest.2⟩ hd

/-- C1 on the sample packets: a new IPv4 flow from the denied identity 9 is
looked up, queried and dropped; an established IPv6 flow from the denied
identity 9 is dropped as well. -/
theorem policy_verdict_rule_witness :
    (∃ c st, (policy_fn Family.ipv4 sampleConsts sampleEnv (World.start samplePacket4 []) 0
          9).2.calls.filterMap Event.ct_lookup_result = [(sampleConsts.CT_EGRESS, c, st)] ∧
        (¬ (c < 0 ∧ c ≠ sampleConsts.DROP_CT_CANT_CREATE) →
          (∀ x ∈ (policy_fn Family.ipv4 sampleConsts sampleEnv (World.start samplePacket4 []) 0
            9).2.calls.filterMap Event.rev_nat_result, sampleConsts.IS_ERR x.2 = false) →
          ∃ verdict : Int,
            (policy_fn Family.ipv4 sampleConsts sampleEnv (World.start samplePacket4 []) 0
              9).2.calls.filterMap Event.policy_verdict = [verdict] ∧
            ((policy_fn Family.ipv4 sampleConsts sampleEnv (World.start samplePacket4 []) 0
                9).1 = sampleConsts.DROP_POLICY ↔
              (verdict ≠ sampleConsts.TC_ACT_OK ∧ c ≠ sampleConsts.CT_REPLY ∧
                c ≠ sampleConsts.CT_RELATED)) ∧
            (¬ (verdict ≠ sampleConsts.TC_ACT_OK ∧ c ≠ sampleConsts.CT_REPLY ∧
                c ≠ sampleConsts.CT_RELATED) →
              (policy_fn Family.ipv4 sampleConsts sampleEnv (World.start samplePacket4 []) 0
                9).1 = 0) ∧
            (c = sampleConsts.CT_ESTABLISHED → verdict ≠ sampleConsts.TC_ACT_OK →
              (policy_fn Family.ipv4 sampleConsts sampleEnv (World.start samplePacket4 []) 0
                9).1 = sampleConsts.DROP_POLICY) ∧
            (c = sampleConsts.CT_REPLY ∨ c = sampleConsts.CT_RELATED →
              (policy_fn Family.ipv4 sampleConsts sampleEnv (World.start samplePacket4 []) 0
                9).1 = 0))) ∧
    (∃ c st, (policy_fn Family.ipv6 sampleConsts sampleEnv
          (World.start samplePacket6 establishedStore6) 0 9).2.calls.filterMap
          Event.ct_lookup_result = [(sampleConsts.CT_EGRESS, c, st)] ∧
        (¬ (c < 0 ∧ c ≠ sampleConsts.DROP_CT_CANT_CREATE) →
          (∀ x ∈ (policy_fn Family.ipv6 sampleConsts sampleEnv
            (World.start samplePacket6 establishedStore6) 0 9).2.calls.filterMap
            Event.rev_nat_result, sampleConsts.IS_ERR x.2 = false) →
          ∃ verdict : Int,
            (policy_fn Family.ipv6 sampleConsts sampleEnv
              (World.start samplePacket6 establishedStore6) 0 9).2.calls.filterMap
              Event.policy_verdict = [verdict] ∧
            ((policy_fn Family.ipv6 sampleConsts sampleEnv
                (World.start samplePacket6 establishedStore6) 0 9).1 =
                sampleConsts.DROP_POLICY ↔
              (verdict ≠ sampleConsts.TC_ACT_OK ∧ c ≠ sampleConsts.CT_REPLY ∧
                c ≠ sampleConsts.CT_RELATED)) ∧
            (¬ (verdict ≠ sampleConsts.TC_ACT_OK ∧ c ≠ sampleConsts.CT_REPLY ∧
                c ≠ sampleConsts.CT_RELATED) →
              (policy_fn Family.ipv6 sampleConsts sampleEnv
                (World.start samplePacket6 establishedStore6) 0 9).1 = 0) ∧
            (c = sampleConsts.CT_ESTABLISHED → verdict ≠ sampleConsts.TC_ACT_OK →
              (policy_fn Family.ipv6 sampleConsts sampleEnv
                (World.start samplePacket6 establishedStore6) 0 9).1 =
                sampleConsts.DROP_POLICY) ∧
            (c = sampleConsts.CT_REPLY ∨ c = sampleConsts.CT_RELATED →
              (policy_fn Family.ipv6 sampleConsts sampleEnv
                (World.start samplePacket6 establishedStore6) 0 9).1 = 0))) ∧
    (policy_fn Family.ipv4 sampleConsts sampleEnv (World.start samplePacket4 []) 0 9).1 =
      sampleConsts.DROP_POLICY ∧
    (policy_fn Family.ipv6 sampleConsts sampleEnv (World.start samplePacket6 establishedStore6)
      0 9).1 = sampleConsts.DROP_POLICY :=
  ⟨policy_verdict_rule Family.ipv4 sampleConsts sampleEnv samplePacket4 [] 0 9
      (by decide) (by decide) (by decide) (by decide),
   policy_verdict_rule Family.ipv6 sampleConsts sampleEnv samplePacket6 establishedStore6 0 9
      (by decide) (by decide) (by decide) (by decide),
   by with_unfolding_all decide, by with_unfolding_all decide⟩

/-- Connection state creation in `ipv4_policy`. -/
theorem ipv4_policy_create {σ : Type} (K : Consts) (E : Env σ) (skb : SkBuff) (ct : σ)
    (ifindex : Int) (src_label : Nat) :
    ((∃ st, (K.CT_EGRESS, K.CT_NEW, st) ∈
          (ipv4_policy K E (World.start skb ct) ifindex src_label).2.calls.filterMap
            Event.ct_lookup_result) ∧
        (ipv4_policy K E (World.start skb ct) ifindex src_label).2.calls.filterMap
          Event.policy_verdict = [K.TC_ACT_OK] →
      ∃ dport, (ipv4_policy K E (World.start skb ct) ifindex src_label).2.calls.filterMap
        Event.ct_create_call =
          [(dport, K.CT_EGRESS,
            { rev_nat_index := 0, loopback := 0, orig_dport := dport, src_sec_id := src_label })]) ∧
    (¬ ((∃ st, (K.CT_EGRESS, K.CT_NEW, st) ∈
          (ipv4_policy K E (World.start skb ct) ifindex src_label).2.calls.filterMap
            Event.ct_lookup_result) ∧
        (ipv4_policy K E (World.start skb ct) ifindex src_label).2.calls.filterMap
          Event.policy_verdict = [K.TC_ACT_OK]) →
      (ipv4_policy K E (World.start skb ct) ifindex src_label).2.calls.filterMap
        Event.ct_create_call = []) ∧
    ((∃ st, (K.CT_EGRESS, K.CT_NEW, st) ∈
          (ipv4_policy K E (World.start skb ct) ifindex src_label).2.calls.filterMap
            Event.ct_lookup_result) →
      ∀ v, (ipv4_policy K E (World.start skb ct) ifindex src_label).2.calls.filterMap
          Event.policy_verdict = [v] → v ≠ K.TC_ACT_OK →
        (ipv4_policy K E (World.start skb ct) ifindex src_label).1 = K.DROP_POLICY ∧
        (ipv4_policy K E (World.start skb ct) ifindex src_label).2.ct = ct) := by
  generalize hr : ipv4_policy K E (World.start skb ct) ifindex src_label = r
  simp only [ipv4_policy, World.start, World.emit, Run.pure_bind] at hr
  repeat' first
    | (replace hr := call_bind_inv hr; obtain ⟨x, hr⟩ := hr; try dsimp only at hr)
    | (replace hr := ite_inv hr; rcases hr with ⟨h, hr⟩ | ⟨h, hr⟩)
  all_goals (simp only [Run.run_pure] at hr; subst hr)
  all_goals simp_all [Event.ct_lookup_result, Event.policy_verdict, Event.ct_create_call]
  all_goals tauto

/-- Connection state creation in `ipv6_policy`. -/
theorem ipv6_policy_create {σ : Type} (K : Consts) (E : Env σ) (skb : SkBuff) (ct : σ)
    (ifindex : Int) (src_label : Nat) :
    ((∃ st, (K.CT_EGRESS, K.CT_NEW, st) ∈
          (ipv6_policy K E (World.start skb ct) ifindex src_label).2.calls.filterMap
            Event.ct_lookup_result) ∧
        (ipv6_policy K E (World.start skb ct) ifindex src_label).2.calls.filterMap
          Event.policy_verdict = [K.TC_ACT_OK] →
      ∃ dport, (ipv6_policy K E (World.start skb ct) ifindex src_label).2.calls.filterMap
        Event.ct_create_call =
          [(dport, K.CT_EGRESS,
            { rev_nat_index := 0, loopback := 0, orig_dport := dport, src_sec_id := src_label })]) ∧
    (¬ ((∃ st, (K.CT_EGRESS, K.CT_NEW, st) ∈
          (ipv6_policy K E (World.start skb ct) ifindex src_label).2.calls.filterMap
            Event.ct_lookup_result) ∧
        (ipv6_policy K E (World.start skb ct) ifindex src_label).2.calls.filterMap
          Event.policy_verdict = [K.TC_ACT_OK]) →
      (ipv6_policy K E (World.start skb ct) ifindex src_label).2.calls.filterMap
        Event.ct_create_call = []) ∧
    ((∃ st, (K.CT_EGRESS, K.CT_NEW, st) ∈
          (ipv6_policy K E (World.start skb ct) ifindex src_label).2.calls.filterMap
            Event.ct_lookup_result) →
      ∀ v, (ipv6_policy K E (World.start skb ct) ifindex src_label).2.calls.filterMap
          Event.policy_verdict = [v] → v ≠ K.TC_ACT_OK →
        (ipv6_policy K E (World.start skb ct) ifindex src_label).1 = K.DROP_POLICY ∧
        (ipv6_policy K E (World.start skb ct) ifindex src_label).2.ct = ct) := by
  generalize hr : ipv6_policy K E (World.start skb ct) ifindex src_label = r
  simp only [ipv6_policy, World.start, World.emit, Run.pure_bind] at hr
  repeat' first
    | (replace hr := call_bind_inv hr; obtain ⟨x, hr⟩ := hr; try dsimp only at hr)
    | (replace hr := ite_inv hr; rcases hr with ⟨h, hr⟩ | ⟨h, hr⟩)
  all_goals (simp only [Run.run_pure] at hr; subst hr)
  all_goals simp_all [Event.ct_lookup_result, Event.policy_verdict, Event.ct_create_call]
  all_goals tauto

/-- C2: in `ipv4_policy` and `ipv6_policy`, for a packet whose L3 header is in
bounds, the egress tracker lookup is made once.  When it classified the
packet `CT_NEW` and no reverse translation failed, the policy is queried
once: on `TC_ACT_OK`, `ct_create` is called once, in the egress direction,
with a state whose `orig_dport` is the destination port of the tuple passed
along, whose `src_sec_id` is the source identity and whose other fields are
zero, and the result is 0; on any other verdict the function returns
`DROP_POLICY`, calls no `ct_create` and leaves the tracker store as it was, so
that the same packet presented again on the store of the first run is
processed exactly as before: classified `CT_NEW`, denied and dropped.
`ct_create` is called in no other case: a call implies the classification
`CT_NEW` and the verdict `TC_ACT_OK`. -/
theorem policy_state_creation {σ : Type} (f : Family) (K : Consts) (E : Env σ) (skb : SkBuff)
    (ct : σ) (ifindex : Int) (src_label : Nat)
    (hnew : K.CT_NEW ≠ K.CT_REPLY ∧ K.CT_NEW ≠ K.CT_RELATED)
    (hnf : ¬ (K.CT_NEW < 0 ∧ K.CT_NEW ≠ K.DROP_CT_CANT_CREATE))
    (hvalid : skb.data + K.ETH_HLEN + l3_header_size K f ≤ skb.data_end) :
    ∃ c st, (policy_fn f K E (World.start skb ct) ifindex src_label).2.calls.filterMap
        Event.ct_lookup_result = [(K.CT_EGRESS, c, st)] ∧
      (c = K.CT_NEW →
        (∀ x ∈ (policy_fn f K E (World.start skb ct) ifindex src_label).2.calls.filterMap
          Event.rev_nat_result, K.IS_ERR x.2 = false) →
        ∃ verdict : Int,
          (policy_fn f K E (World.start skb ct) ifindex src_label).2.calls.filterMap
            Event.policy_verdict = [verdict] ∧
          (verdict = K.TC_ACT_OK →
            (∃ dport, (policy_fn f K E (World.start skb ct) ifindex src_label).2.calls.filterMap
              Event.ct_create_call =
                [(dport, K.CT_EGRESS,
                  { rev_nat_index := 0, loopback := 0, orig_dport := dport,
                    src_sec_id := src_label })]) ∧
            (policy_fn f K E (World.start skb ct) ifindex src_label).1 = 0) ∧
          (verdict ≠ K.TC_ACT_OK →
            (policy_fn f K E (World.start skb ct) ifindex src_label).1 = K.DROP_POLICY ∧
            (policy_fn f K E (World.start skb ct) ifindex src_label).2.calls.filterMap
              Event.ct_create_call = [] ∧
            (policy_fn f K E (World.start skb ct) ifindex src_label).2.ct = ct ∧
            policy_fn f K E
                (World.start skb (policy_fn f K E (World.start skb ct) ifindex src_label).2.ct)
                ifindex src_label =
              policy_fn f K E (World.start skb ct) ifindex src_label ∧
            (policy_fn f K E
                (World.start skb (policy_fn f K E (World.start skb ct) ifindex src_label).2.ct)
                ifindex src_label).2.calls.filterMap Event.ct_lookup_result =
              [(K.CT_EGRESS, K.CT_NEW, st)] ∧
            (policy_fn f K E
                (World.start skb (policy_fn f K E (World.start skb ct) ifindex src_label).2.ct)
                ifindex src_label).1 = K.DROP_POLICY)) ∧
      ((policy_fn f K E (World.start skb ct) ifindex src_label).2.calls.filterMap
          Event.ct_create_call ≠ [] →
        c = K.CT_NEW ∧
        (policy_fn f K E (World.start skb ct) ifindex src_label).2.calls.filterMap
          Event.policy_verdict = [K.TC_ACT_OK]) := by
  have hl : ∃ c st, (policy_fn f K E (World.start skb ct) ifindex src_label).2.calls.filterMap
      Event.ct_lookup_result = [(K.CT_EGRESS, c, st)] := by
    cases f
    · exact ipv4_policy_lookup K E skb ct ifindex src_label
        (by simp only [l3_header_size] at hvalid; omega)
    · exact ipv6_policy_lookup K E skb ct ifindex src_label
        (by simp only [l3_header_size] at hvalid; omega)
  obtain ⟨c, st, hl⟩ := hl
  have hmem : ∀ c' st', (K.CT_EGRESS, c', st') ∈
      (policy_fn f K E (World.start skb ct) ifindex src_label).2.calls.filterMap
        Event.ct_lookup_result ↔ c' = c ∧ st' = st := by
    intro c' st'
    rw [hl]
    simp
  have hcreate :
      ((∃ st, (K.CT_EGRESS, K.CT_NEW, st) ∈
            (policy_fn f K E (World.start skb ct) ifindex src_label).2.calls.filterMap
              Event.ct_lookup_result) ∧
          (policy_fn f K E (World.start skb ct) ifindex src_label).2.calls.filterMap
            Event.policy_verdict = [K.TC_ACT_OK] →
        ∃ dport, (policy_fn f K E (World.start skb ct) ifindex src_label).2.calls.filterMap
          Event.ct_create_call =
            [(dport, K.CT_EGRESS,
              { rev_nat_index := 0, loopback := 0, orig_dport := dport,
                src_sec_id := src_label })]) ∧
      (¬ ((∃ st, (K.CT_EGRESS, K.CT_NEW, st) ∈
            (policy_fn f K E (World.start skb ct) ifindex src_label).2.calls.filterMap
              Event.ct_lookup_result) ∧
          (policy_fn f K E (World.start skb ct) ifindex src_label).2.calls.filterMap
            Event.policy_verdict = [K.TC_ACT_OK]) →
        (policy_fn f K E (World.start skb ct) ifindex src_label).2.calls.filterMap
          Event.ct_create_call = []) ∧
      ((∃ st, (K.CT_EGRESS, K.CT_NEW, st) ∈
            (policy_fn f K E (World.start skb ct) ifindex src_label).2.calls.filterMap
              Event.ct_lookup_result) →
        ∀ v, (policy_fn f K E (World.start skb ct) ifindex src_label).2.calls.filterMap
            Event.policy_verdict = [v] → v ≠ K.TC_ACT_OK →
          (policy_fn f K E (World.start skb ct) ifindex src_label).1 = K.DROP_POLICY ∧
          (policy_fn f K E (World.start skb ct) ifindex src_label).2.ct = ct) := by
    cases f
    · exact ipv4_policy_create K E skb ct ifindex src_label
    · exact ipv6_policy_create K E skb ct ifindex src_label
  obtain ⟨hA, hB, hC⟩ := hcreate
  refine ⟨c, st, hl, fun hc hrev => ?_, fun hne => ?_⟩
  · subst hc
    have hlook : (K.CT_EGRESS, K.CT_NEW, st) ∈
        (policy_fn f K E (World.start skb ct) ifindex src_label).2.calls.filterMap
          Event.ct_lookup_result := (hmem _ _).2 ⟨rfl, rfl⟩
    have key : ∃ verdict : Int,
        (policy_fn f K E (World.start skb ct) ifindex src_label).2.calls.filterMap
          Event.policy_verdict = [verdict] ∧
        (policy_fn f K E (World.start skb ct) ifindex src_label).1 =
          if verdict ≠ K.TC_ACT_OK ∧ K.CT_NEW ≠ K.CT_REPLY ∧ K.CT_NEW ≠ K.CT_RELATED then
            K.DROP_POLICY
          else 0 := by
      cases f
      · exact ipv4_policy_result K E skb ct ifindex src_label _ st hnew hlook hnf hrev
      · exact ipv6_policy_result K E skb ct ifindex src_label _ st hnew hlook hnf hrev
    obtain ⟨verdict, hv, hres⟩ := key
    refine ⟨verdict, hv, fun hok => ?_, fun hdeny => ?_⟩
    · refine ⟨hA ⟨⟨st, hlook⟩, by rw [hv, hok]⟩, ?_⟩
      rw [hres, if_neg (by simp [hok])]
    · obtain ⟨hret, hct⟩ := hC ⟨st, hlook⟩ verdict hv hdeny
      have hnone : (policy_fn f K E (World.start skb ct) ifindex src_label).2.calls.filterMap
          Event.ct_create_call = [] := by
        apply hB
        rintro ⟨-, h⟩
        rw [hv] at h
        exact hdeny (List.cons.inj h).1
      rw [hct]
      exact ⟨hret, hnone, rfl, rfl, hl, hret⟩
  · by_contra hcon
    apply hne
    apply hB
    rintro ⟨⟨st', hst'⟩, hv⟩
    exact hcon ⟨((hmem _ _).1 hst').1.symm, hv⟩

/-- C2 on the sample packets and an empty tracker: the IPv4 flow of the
denied identity 9 is dropped, nothing is created and the retry is dropped
again; the IPv6 flow of the allowed identity 2 creates one state for
destination port 80. -/
theorem policy_state_creation_witness :
    ((policy_fn Family.ipv4 sampleConsts sampleEnv (World.start samplePacket4 []) 0 9).1 =
        sampleConsts.DROP_POLICY ∧
      (policy_fn Family.ipv4 sampleConsts sampleEnv (World.start samplePacket4 []) 0
        9).2.calls.filterMap Event.ct_create_call = [] ∧
      (policy_fn Family.ipv4 sampleConsts sampleEnv (World.start samplePacket4 []) 0 9).2.ct =
        []) ∧
    (policy_fn Family.ipv6 sampleConsts sampleEnv (World.start samplePacket6 []) 0
        2).2.calls.filterMap Event.ct_create_call =
      [(80, sampleConsts.CT_EGRESS,
        { rev_nat_index := 0, loopback := 0, orig_dport := 80, src_sec_id := 2 })] ∧
    (∃ c st, (policy_fn Family.ipv6 sampleConsts sampleEnv (World.start samplePacket6 []) 0
        2).2.calls.filterMap Event.ct_lookup_result = [(sampleConsts.CT_EGRESS, c, st)]) ∧
    (∃ c st, (policy_fn Family.ipv4 sampleConsts sampleEnv (World.start samplePacket4 []) 0
        9).2.calls.filterMap Event.ct_lookup_result = [(sampleConsts.CT_EGRESS, c, st)]) :=
  ⟨by
      refine ⟨?_, ?_, ?_⟩ <;> with_unfolding_all decide,
   by with_unfolding_all decide,
   (policy_state_creation Family.ipv6 sampleConsts sampleEnv samplePacket6 [] 0 2 (by decide)
      (by decide) (by decide)).imp (fun _ h => h.imp (fun _ h' => h'.1)),
   (policy_state_creation Family.ipv4 sampleConsts sampleEnv samplePacket4 [] 0 9 (by decide)
      (by decide) (by decide)).imp (fun _ h => h.imp (fun _ h' => h'.1))⟩

/-! ## Truncated headers -/

/-- C3: when the buffer is shorter than the Ethernet header plus the minimum
L3 header of the family, the main handler, the load-balancer handler and the
policy function of that family return `DROP_INVALID` and leave the world as
it was: no helper is called, no lookup made, and neither the packet nor the
tracker store is written.  The result is the same whatever the scratch
fields `mark`, `tc_index` and `cb` hold. -/
theorem truncated_header_drop {σ : Type} (f : Family) (K : Consts) (C : Config) (E : Env σ)
    (w : World σ) (ifindex : Int) (src_label : Nat)
    (hshort : w.skb.data_end - w.skb.data < K.ETH_HLEN + l3_header_size K f) :
    handle_fn f K C E w = (K.DROP_INVALID, w) ∧
    handle_lb_fn f K C E w = (Exit.returned K.DROP_INVALID, w) ∧
    policy_fn f K E w ifindex src_label = (K.DROP_INVALID, w) ∧
    ∀ (mark tc_index : Nat) (cb : Fin 5 → Nat),
      (handle_fn f K C E
        { w with skb := { w.skb with mark := mark, tc_index := tc_index, cb := cb } }).1 =
          K.DROP_INVALID ∧
      (handle_lb_fn f K C E
        { w with skb := { w.skb with mark := mark, tc_index := tc_index, cb := cb } }).1 =
          Exit.returned K.DROP_INVALID ∧
      (policy_fn f K E
        { w with skb := { w.skb with mark := mark, tc_index := tc_index, cb := cb } }
        ifindex src_label).1 = K.DROP_INVALID := by
  cases f
  · have h1 : w.skb.data + K.sizeof_iphdr + K.ETH_HLEN > w.skb.data_end := by
      simp only [l3_header_size] at hshort
      omega
    refine ⟨?_, ?_, ?_, fun mark tc_index cb => ⟨?_, ?_, ?_⟩⟩
    · simp only [handle_fn, handle_ipv4, Id.run, pure, if_pos h1]
    · simp only [handle_lb_fn, handle_lb_ip4, Id.run, pure, if_pos h1]
    · simp only [policy_fn, ipv4_policy, Id.run, pure, if_pos h1]
    · simp only [handle_fn, handle_ipv4, Id.run, pure, if_pos h1]
    · simp only [handle_lb_fn, handle_lb_ip4, Id.run, pure, if_pos h1]
    · simp only [policy_fn, ipv4_policy, Id.run, pure, if_pos h1]
  · have h1 : w.skb.data + K.sizeof_ipv6hdr + K.ETH_HLEN > w.skb.data_end := by
      simp only [l3_header_size] at hshort
      omega
    have h2 : w.skb.data + K.ETH_HLEN + K.sizeof_ipv6hdr > w.skb.data_end := by omega
    refine ⟨?_, ?_, ?_, fun mark tc_index cb => ⟨?_, ?_, ?_⟩⟩
    · simp only [handle_fn, handle_ipv6, Id.run, pure, if_pos h2]
    · simp only [handle_lb_fn, handle_lb_ip6, Id.run, pure, if_pos h2]
    · simp only [policy_fn, ipv6_policy, Id.run, pure, if_pos h1]
    · simp only [handle_fn, handle_ipv6, Id.run, pure, if_pos h2]
    · simp only [handle_lb_fn, handle_lb_ip6, Id.run, pure, if_pos h2]
    · simp only [policy_fn, ipv6_policy, Id.run, pure, if_pos h1]

/-- C3 at a 30-byte IPv4 frame. -/
theorem truncated_header_drop_witness :
    handle_fn Family.ipv4 sampleConsts sampleConfig sampleEnv (World.start shortPacket4 []) =
      (sampleConsts.DROP_INVALID, World.start shortPacket4 []) ∧
    handle_lb_fn Family.ipv4 sampleConsts sampleConfig sampleEnv (World.start shortPacket4 []) =
      (Exit.returned sampleConsts.DROP_INVALID, World.start shortPacket4 []) ∧
    policy_fn Family.ipv4 sampleConsts sampleEnv (World.start shortPacket4 []) 0 9 =
      (sampleConsts.DROP_INVALID, World.start shortPacket4 []) :=
  ⟨(truncated_header_drop Family.ipv4 sampleConsts sampleConfig sampleEnv
      (World.start shortPacket4 []) 0 9 (by with_unfolding_all decide)).1,
   (truncated_header_drop Family.ipv4 sampleConsts sampleConfig sampleEnv
      (World.start shortPacket4 []) 0 9 (by with_unfolding_all decide)).2.1,
   (truncated_header_drop Family.ipv4 sampleConsts sampleConfig sampleEnv
      (World.start shortPacket4 []) 0 9 (by with_unfolding_all decide)).2.2.1⟩

/-! ## Error reasons at the entry points -/

/-- C4 (as amended): when the body of a stage returns a value `ret` with
`IS_ERR(ret)`, the entry point of the stage reports it through the drop
notification hook, once, and returns what the hook returns.  The disposition
it hands to the hook is `TC_ACT_SHOT` in `handle_policy` and `TC_ACT_OK` in
`tail_handle_lb_ip4`, `tail_handle_lb_ip6`, `tail_handle_ipv4` and
`tail_handle_ipv6`. -/
theorem fatal_reason_notified {σ : Type} (s : Stage) (K : Consts) (C : Config) (E : Env σ)
    (w : World σ) (ret : Int) (w1 : World σ)
    (hbody : stage_body s K C E w = (Exit.returned ret, w1))
    (herr : K.IS_ERR ret = true) :
    stage_entry s K C E w = stage_notified s K C E w ret w1 := by
  rcases s with f | f | _
  · cases f
    · simp only [stage_body, handle_lb_fn] at hbody
      simp [stage_entry, tail_handle_lb_ip4, Run.call_bind, Run.run_pure, hbody, herr,
        stage_notified, stage_exit_code]
    · simp only [stage_body, handle_lb_fn] at hbody
      simp [stage_entry, tail_handle_lb_ip6, Run.call_bind, Run.run_pure, hbody, herr,
        stage_notified, stage_exit_code]
  · cases f
    · simp only [stage_body, handle_fn, Prod.mk.injEq, Exit.returned.injEq] at hbody
      obtain ⟨h1, h2⟩ := hbody
      simp [stage_entry, tail_handle_ipv4, Run.call_bind, Run.run_pure, h1, h2, herr,
        stage_notified, stage_exit_code]
    · simp only [stage_body, handle_fn, Prod.mk.injEq, Exit.returned.injEq] at hbody
      obtain ⟨h1, h2⟩ := hbody
      simp [stage_entry, tail_handle_ipv6, Run.call_bind, Run.run_pure, h1, h2, herr,
        stage_notified, stage_exit_code]
  · simp only [stage_body, Prod.mk.injEq, Exit.returned.injEq] at hbody
    obtain ⟨h1, h2⟩ := hbody
    simp only [handle_policy_switch] at h1 h2
    simp only [stage_entry, handle_policy, Run.call_bind, Run.pure_bind, stage_notified,
      stage_exit_code, World.emit, true_and]
    split_ifs at h1 h2 ⊢ <;> simp_all [Run.run_pure]

/-- C4 as stated fails: `handle_ipv4` returns the fatal reason `DROP_INVALID`
on a 30-byte frame, and `tail_handle_ipv4` reports it with the disposition
`TC_ACT_OK` and returns `TC_ACT_OK`, not `TC_ACT_SHOT`. -/
theorem fatal_reason_disposition_counterexample :
    stage_body (Stage.main Family.ipv4) sampleConsts sampleConfig sampleEnv
        (World.start shortPacket4 []) =
      (Exit.returned sampleConsts.DROP_INVALID, World.start shortPacket4 []) ∧
    sampleConsts.IS_ERR sampleConsts.DROP_INVALID = true ∧
    (tail_handle_ipv4 sampleConsts sampleConfig sampleEnv (World.start shortPacket4 [])).2.calls =
      [Event.send_drop_notify_error sampleConsts.DROP_INVALID sampleConsts.TC_ACT_OK
        sampleConsts.TC_ACT_OK] ∧
    (tail_handle_ipv4 sampleConsts sampleConfig sampleEnv (World.start shortPacket4 [])).1 =
      sampleConsts.TC_ACT_OK ∧
    (tail_handle_ipv4 sampleConsts sampleConfig sampleEnv (World.start shortPacket4 [])).1 ≠
      sampleConsts.TC_ACT_SHOT := by
  refine ⟨by with_unfolding_all rfl, ?_, ?_, ?_, ?_⟩ <;> with_unfolding_all decide

/-- C4 (as amended) at the 30-byte frame in the IPv4 main stage. -/
theorem fatal_reason_notified_witness :
    stage_entry (Stage.main Family.ipv4) sampleConsts sampleConfig sampleEnv
        (World.start shortPacket4 []) =
      stage_notified (Stage.main Family.ipv4) sampleConsts sampleConfig sampleEnv
        (World.start shortPacket4 []) sampleConsts.DROP_INVALID (World.start shortPacket4 []) :=
  fatal_reason_notified (Stage.main Family.ipv4) sampleConsts sampleConfig sampleEnv
    (World.start shortPacket4 []) sampleConsts.DROP_INVALID (World.start shortPacket4 [])
    (by with_unfolding_all rfl) (by decide)

/-! ## The load balancer -/

set_option maxHeartbeats 2000000 in
/-- The reverse path and the port extraction of `svc_lookup4`. -/
theorem svc_lookup4_paths {σ : Type} (K : Consts) (C : Config) (E : Env σ) (skb : SkBuff)
    (ct : σ) (secctx : Nat) (to_stack : Bool) :
    ((∀ st, (K.CT_EGRESS, K.CT_REPLY, st) ∈
        (svc_lookup4 K C E (World.start skb ct) secctx to_stack).2.2.calls.filterMap
          Event.ct_lookup_result → st.rev_nat_index ≠ 0 →
      ∃ ret, (svc_lookup4 K C E (World.start skb ct) secctx to_stack).2.2.calls.filterMap
          Event.rev_nat_result = [(st.rev_nat_index, ret)] ∧
        (svc_lookup4 K C E (World.start skb ct) secctx to_stack).1 = ret ∧
        (svc_lookup4 K C E (World.start skb ct) secctx to_stack).2.1 = to_stack ∧
        (svc_lookup4 K C E (World.start skb ct) secctx to_stack).2.2.calls.length = 2 ∧
        ∀ e ∈ (svc_lookup4 K C E (World.start skb ct) secctx to_stack).2.2.calls,
          e.lb_forward_step = false) ∧
    (C.FROM_HOST = true ∨ C.FROM_NAT = true →
      (svc_lookup4 K C E (World.start skb ct) secctx to_stack).2.2.calls.filterMap
        Event.ct_lookup_result = [] ∧
      (svc_lookup4 K C E (World.start skb ct) secctx to_stack).2.2.calls.filterMap
        Event.rev_nat_result = [])) ∧
    (∀ ret ∈ (svc_lookup4 K C E (World.start skb ct) secctx to_stack).2.2.calls.filterMap
        Event.port_extraction, K.IS_ERR ret = true →
      (svc_lookup4 K C E (World.start skb ct) secctx to_stack).1 = K.TC_ACT_OK ∧
      ∀ e ∈ (svc_lookup4 K C E (World.start skb ct) secctx to_stack).2.2.calls,
        e.service_lookup = false) := by
  generalize hr : svc_lookup4 K C E (World.start skb ct) secctx to_stack = r
  simp only [svc_lookup4, World.start, World.emit, Run.pure_bind] at hr
  repeat' first
    | (replace hr := call_bind_inv hr; obtain ⟨x, hr⟩ := hr; try dsimp only at hr)
    | (replace hr := ite_inv hr; rcases hr with ⟨h, hr⟩ | ⟨h, hr⟩)
    | split at hr
  all_goals (simp only [Run.run_pure] at hr; subst hr)
  all_goals simp_all [Event.ct_lookup_result, Event.rev_nat_result, Event.lb_forward_step,
    Event.port_extraction, Event.service_lookup]

set_option maxHeartbeats 2000000 in
/-- The reverse path and the port extraction of `svc_lookup6`. -/
theorem svc_lookup6_paths {σ : Type} (K : Consts) (C : Config) (E : Env σ) (skb : SkBuff)
    (ct : σ) (secctx : Nat) (to_stack : Bool) :
    ((∀ st, (K.CT_EGRESS, K.CT_REPLY, st) ∈
        (svc_lookup6 K C E (World.start skb ct) secctx to_stack).2.2.calls.filterMap
          Event.ct_lookup_result → st.rev_nat_index ≠ 0 →
      ∃ ret, (svc_lookup6 K C E (World.start skb ct) secctx to_stack).2.2.calls.filterMap
          Event.rev_nat_result = [(st.rev_nat_index, ret)] ∧
        (svc_lookup6 K C E (World.start skb ct) secctx to_stack).1 = ret ∧
        (svc_lookup6 K C E (World.start skb ct) secctx to_stack).2.1 = to_stack ∧
        (svc_lookup6 K C E (World.start skb ct) secctx to_stack).2.2.calls.length = 2 ∧
        ∀ e ∈ (svc_lookup6 K C E (World.start skb ct) secctx to_stack).2.2.calls,
          e.lb_forward_step = false) ∧
    (C.FROM_HOST = true ∨ C.FROM_NAT = true →
      (svc_lookup6 K C E (World.start skb ct) secctx to_stack).2.2.calls.filterMap
        Event.ct_lookup_result = [] ∧
      (svc_lookup6 K C E (World.start skb ct) secctx to_stack).2.2.calls.filterMap
        Event.rev_nat_result = [])) ∧
    (∀ ret ∈ (svc_lookup6 K C E (World.start skb ct) secctx to_stack).2.2.calls.filterMap
        Event.port_extraction, K.IS_ERR ret = true →
      (ret = K.DROP_UNKNOWN_L4 →
        (svc_lookup6 K C E (World.start skb ct) secctx to_stack).1 = K.TC_ACT_OK ∧
        ∀ e ∈ (svc_lookup6 K C E (World.start skb ct) secctx to_stack).2.2.calls,
          e.service_lookup = false) ∧
      (ret ≠ K.DROP_UNKNOWN_L4 →
        (svc_lookup6 K C E (World.start skb ct) secctx to_stack).1 = ret)) := by
  generalize hr : svc_lookup6 K C E (World.start skb ct) secctx to_stack = r
  simp only [svc_lookup6, World.start, World.emit, Run.pure_bind] at hr
  repeat' first
    | (replace hr := call_bind_inv hr; obtain ⟨x, hr⟩ := hr; try dsimp only at hr)
    | (replace hr := ite_inv hr; rcases hr with ⟨h, hr⟩ | ⟨h, hr⟩)
    | split at hr
  all_goals (simp only [Run.run_pure] at hr; subst hr)
  all_goals simp_all [Event.ct_lookup_result, Event.rev_nat_result, Event.lb_forward_step,
    Event.port_extraction, Event.service_lookup]

set_option maxHeartbeats 2000000 in
/-- The tracker lookup of `svc_lookup4` in a from-wire build, and what follows it. -/
theorem svc_lookup4_reach {σ : Type} (K : Consts) (C : Config) (E : Env σ) (skb : SkBuff)
    (ct : σ) (secctx : Nat) (to_stack : Bool)
    (hw : C.FROM_HOST = false ∧ C.FROM_NAT = false) :
    ∃ c st, (svc_lookup4 K C E (World.start skb ct) secctx to_stack).2.2.calls.filterMap
        Event.ct_lookup_result = [(K.CT_EGRESS, c, st)] ∧
      (c = K.CT_REPLY ∧ st.rev_nat_index ≠ 0 →
        ∃ ret, (svc_lookup4 K C E (World.start skb ct) secctx to_stack).2.2.calls.filterMap
            Event.rev_nat_result = [(st.rev_nat_index, ret)] ∧
          (svc_lookup4 K C E (World.start skb ct) secctx to_stack).1 = ret ∧
          (svc_lookup4 K C E (World.start skb ct) secctx to_stack).2.1 = to_stack ∧
          (svc_lookup4 K C E (World.start skb ct) secctx to_stack).2.2.calls.length = 2 ∧
          ∀ e ∈ (svc_lookup4 K C E (World.start skb ct) secctx to_stack).2.2.calls,
            e.lb_forward_step = false) ∧
      (¬ (c = K.CT_REPLY ∧ st.rev_nat_index ≠ 0) →
        (svc_lookup4 K C E (World.start skb ct) secctx to_stack).2.2.calls.filterMap
          Event.rev_nat_result = []) := by
  generalize hr : svc_lookup4 K C E (World.start skb ct) secctx to_stack = r
  simp only [svc_lookup4, World.start, World.emit, Run.pure_bind] at hr
  repeat' first
    | (replace hr := call_bind_inv hr; obtain ⟨x, hr⟩ := hr; try dsimp only at hr)
    | (replace hr := ite_inv hr; rcases hr with ⟨h, hr⟩ | ⟨h, hr⟩)
    | split at hr
  all_goals (simp only [Run.run_pure] at hr; subst hr)
  all_goals simp_all [Event.ct_lookup_result, Event.rev_nat_result, Event.lb_forward_step]
  all_goals (refine ⟨_, _, ⟨rfl, rfl⟩, ?_⟩; simp_all)

set_option maxHeartbeats 2000000 in
/-- The tracker lookup of `svc_lookup6` in a from-wire build, and what follows it. -/
theorem svc_lookup6_reach {σ : Type} (K : Consts) (C : Config) (E : Env σ) (skb : SkBuff)
    (ct : σ) (secctx : Nat) (to_stack : Bool)
    (hw : C.FROM_HOST = false ∧ C.FROM_NAT = false) :
    ∃ c st, (svc_lookup6 K C E (World.start skb ct) secctx to_stack).2.2.calls.filterMap
        Event.ct_lookup_result = [(K.CT_EGRESS, c, st)] ∧
      (c = K.CT_REPLY ∧ st.rev_nat_index ≠ 0 →
        ∃ ret, (svc_lookup6 K C E (World.start skb ct) secctx to_stack).2.2.calls.filterMap
            Event.rev_nat_result = [(st.rev_nat_index, ret)] ∧
          (svc_lookup6 K C E (World.start skb ct) secctx to_stack).1 = ret ∧
          (svc_lookup6 K C E (World.start skb ct) secctx to_stack).2.1 = to_stack ∧
          (svc_lookup6 K C E (World.start skb ct) secctx to_stack).2.2.calls.length = 2 ∧
          ∀ e ∈ (svc_lookup6 K C E (World.start skb ct) secctx to_stack).2.2.calls,
            e.lb_forward_step = false) ∧
      (¬ (c = K.CT_REPLY ∧ st.rev_nat_index ≠ 0) →
        (svc_lookup6 K C E (World.start skb ct) secctx to_stack).2.2.calls.filterMap
          Event.rev_nat_result = []) := by
  generalize hr : svc_lookup6 K C E (World.start skb ct) secctx to_stack = r
  simp only [svc_lookup6, World.start, World.emit, Run.pure_bind] at hr
  repeat' first
    | (replace hr := call_bind_inv hr; obtain ⟨x, hr⟩ := hr; try dsimp only at hr)
    | (replace hr := ite_inv hr; rcases hr with ⟨h, hr⟩ | ⟨h, hr⟩)
    | split at hr
  all_goals (simp only [Run.run_pure] at hr; subst hr)
  all_goals simp_all [Event.ct_lookup_result, Event.rev_nat_result, Event.lb_forward_step]
  all_goals (refine ⟨_, _, ⟨rfl, rfl⟩, ?_⟩; simp_all)

/-- C5: in a from-wire build (neither `FROM_HOST` nor `FROM_NAT`),
`svc_lookup4` and `svc_lookup6` make the egress tracker lookup exactly once;
when it returned `CT_REPLY` with a non-zero `rev_nat_index`, the function
returns the result of `lb4_rev_nat` / `lb6_rev_nat` called with that index,
the lookup and the reverse translation are its only two calls (no port
extraction, service lookup, backend selection, rewrite or metadata encoding),
and `to_stack` is left as it was passed in; on any other lookup result the
reverse translation is not called.  In a from-host or from-translator build
the function makes no tracker lookup and no reverse translation. -/
theorem lb_reverse_path {σ : Type} (f : Family) (K : Consts) (C : Config) (E : Env σ)
    (skb : SkBuff) (ct : σ) (secctx : Nat) (to_stack : Bool) :
    (C.FROM_HOST = false ∧ C.FROM_NAT = false →
      ∃ c st, (svc_lookup_fn f K C E (World.start skb ct) secctx to_stack).2.2.calls.filterMap
          Event.ct_lookup_result = [(K.CT_EGRESS, c, st)] ∧
        (c = K.CT_REPLY ∧ st.rev_nat_index ≠ 0 →
          ∃ ret, (svc_lookup_fn f K C E (World.start skb ct) secctx
                to_stack).2.2.calls.filterMap Event.rev_nat_result =
              [(st.rev_nat_index, ret)] ∧
            (svc_lookup_fn f K C E (World.start skb ct) secctx to_stack).1 = ret ∧
            (svc_lookup_fn f K C E (World.start skb ct) secctx to_stack).2.1 = to_stack ∧
            (svc_lookup_fn f K C E (World.start skb ct) secctx to_stack).2.2.calls.length = 2 ∧
            ∀ e ∈ (svc_lookup_fn f K C E (World.start skb ct) secctx to_stack).2.2.calls,
              e.lb_forward_step = false) ∧
        (¬ (c = K.CT_REPLY ∧ st.rev_nat_index ≠ 0) →
          (svc_lookup_fn f K C E (World.start skb ct) secctx to_stack).2.2.calls.filterMap
            Event.rev_nat_result = [])) ∧
    (C.FROM_HOST = true ∨ C.FROM_NAT = true →
      (svc_lookup_fn f K C E (World.start skb ct) secctx to_stack).2.2.calls.filterMap
        Event.ct_lookup_result = [] ∧
      (svc_lookup_fn f K C E (World.start skb ct) secctx to_stack).2.2.calls.filterMap
        Event.rev_nat_result = []) := by
  cases f
  · exact ⟨svc_lookup4_reach K C E skb ct secctx to_stack,
      (svc_lookup4_paths K C E skb ct secctx to_stack).1.2⟩
  · exact ⟨svc_lookup6_reach K C E skb ct secctx to_stack,
      (svc_lookup6_paths K C E skb ct secctx to_stack).1.2⟩

/-- C5 at the sample packets: with a tracked reply carrying reverse-NAT index
5 the from-wire build looks the flow up, calls the reverse translation with
index 5 and returns its result, for IPv4 and for IPv6; the from-host build
looks nothing up. -/
theorem lb_reverse_path_witness :
    ((svc_lookup_fn Family.ipv4 sampleConsts sampleConfig sampleEnv
          (World.start samplePacket4 replyStore) 2 false).2.2.calls.filterMap
          Event.ct_lookup_result =
        [(sampleConsts.CT_EGRESS, sampleConsts.CT_REPLY, { rev_nat_index := 5 })] ∧
      (svc_lookup_fn Family.ipv4 sampleConsts sampleConfig sampleEnv
          (World.start samplePacket4 replyStore) 2 false).2.2.calls.filterMap
          Event.rev_nat_result = [(5, 0)] ∧
      (svc_lookup_fn Family.ipv4 sampleConsts sampleConfig sampleEnv
          (World.start samplePacket4 replyStore) 2 false).2.2.calls.length = 2) ∧
    ((svc_lookup_fn Family.ipv6 sampleConsts sampleConfig sampleEnv
          (World.start samplePacket6 replyStore6) 2 false).2.2.calls.filterMap
          Event.ct_lookup_result =
        [(sampleConsts.CT_EGRESS, sampleConsts.CT_REPLY, { rev_nat_index := 5 })] ∧
      (svc_lookup_fn Family.ipv6 sampleConsts sampleConfig sampleEnv
          (World.start samplePacket6 replyStore6) 2 false).2.2.calls.filterMap
          Event.rev_nat_result = [(5, 0)] ∧
      (svc_lookup_fn Family.ipv6 sampleConsts sampleConfig sampleEnv
          (World.start samplePacket6 replyStore6) 2 false).2.2.calls.length = 2) ∧
    (∃ c st, (svc_lookup_fn Family.ipv4 sampleConsts sampleConfig sampleEnv
          (World.start samplePacket4 replyStore) 2 false).2.2.calls.filterMap
          Event.ct_lookup_result = [(sampleConsts.CT_EGRESS, c, st)]) ∧
    (∃ c st, (svc_lookup_fn Family.ipv6 sampleConsts sampleConfig sampleEnv
          (World.start samplePacket6 replyStore6) 2 false).2.2.calls.filterMap
          Event.ct_lookup_result = [(sampleConsts.CT_EGRESS, c, st)]) ∧
    ((svc_lookup_fn Family.ipv4 sampleConsts sampleConfigHost sampleEnv
        (World.start samplePacket4 replyStore) 2 false).2.2.calls.filterMap
        Event.ct_lookup_result = [] ∧
      (svc_lookup_fn Family.ipv4 sampleConsts sampleConfigHost sampleEnv
        (World.start samplePacket4 replyStore) 2 false).2.2.calls.filterMap
        Event.rev_nat_result = []) :=
  ⟨by
      refine ⟨?_, ?_, ?_⟩ <;> with_unfolding_all decide,
   by
      refine ⟨?_, ?_, ?_⟩ <;> with_unfolding_all decide,
   ((lb_reverse_path Family.ipv4 sampleConsts sampleConfig sampleEnv samplePacket4 replyStore 2
      false).1 (by decide)).imp (fun _ h => h.imp (fun _ h' => h'.1)),
   ((lb_reverse_path Family.ipv6 sampleConsts sampleConfig sampleEnv samplePacket6 replyStore6 2
      false).1 (by decide)).imp (fun _ h => h.imp (fun _ h' => h'.1)),
   (lb_reverse_path Family.ipv4 sampleConsts sampleConfigHost sampleEnv samplePacket4 replyStore 2
      false).2 (by decide)⟩

/-- C6 fails in `svc_lookup4`: on an IPv4 TCP packet that ends with its IPv4
header, `extract_l4_port` fails with -14, an error other than
`DROP_UNKNOWN_L4`, yet `svc_lookup4` returns `TC_ACT_OK` and `handle_lb_ip4`
hands the packet to the main stage; `svc_lookup6` returns the error on the
IPv6 packet of the same shape. -/
theorem svc_lookup4_port_error_passes :
    (svc_lookup4 sampleConsts sampleConfig sampleEnv (World.start headerOnlyPacket4 []) 2
      false).2.2.calls.filterMap Event.port_extraction = [-14] ∧
    sampleConsts.IS_ERR (-14) = true ∧
    (-14 : Int) ≠ sampleConsts.DROP_UNKNOWN_L4 ∧
    (svc_lookup4 sampleConsts sampleConfig sampleEnv (World.start headerOnlyPacket4 []) 2
      false).1 = sampleConsts.TC_ACT_OK ∧
    (handle_lb_ip4 sampleConsts sampleConfig sampleEnv (World.start headerOnlyPacket4 [])).1 =
      Exit.tail_called ∧
    (svc_lookup6 sampleConsts sampleConfig sampleEnv (World.start headerOnlyPacket6 []) 2
      false).2.2.calls.filterMap Event.port_extraction = [-14] ∧
    (svc_lookup6 sampleConsts sampleConfig sampleEnv (World.start headerOnlyPacket6 []) 2
      false).1 = -14 := by
  refine ⟨?_, ?_, ?_, ?_, ?_, ?_, ?_⟩ <;> with_unfolding_all decide

/-- Every port extraction error is returned as `TC_ACT_OK` by `svc_lookup4`,
without a service lookup. -/
theorem svc_lookup4_port_error {σ : Type} (K : Consts) (C : Config) (E : Env σ) (skb : SkBuff)
    (ct : σ) (secctx : Nat) (to_stack : Bool) (ret : Int)
    (hret : ret ∈ (svc_lookup4 K C E (World.start skb ct) secctx to_stack).2.2.calls.filterMap
      Event.port_extraction)
    (herr : K.IS_ERR ret = true) :
    (svc_lookup4 K C E (World.start skb ct) secctx to_stack).1 = K.TC_ACT_OK ∧
    ∀ e ∈ (svc_lookup4 K C E (World.start skb ct) secctx to_stack).2.2.calls,
      e.service_lookup = false :=
  (svc_lookup4_paths K C E skb ct secctx to_stack).2 ret hret herr

/-- The rule of C6 holds in `svc_lookup6`: `DROP_UNKNOWN_L4` from the port
extraction gives `TC_ACT_OK` without a service lookup, any other error is
returned. -/
theorem svc_lookup6_port_error {σ : Type} (K : Consts) (C : Config) (E : Env σ) (skb : SkBuff)
    (ct : σ) (secctx : Nat) (to_stack : Bool) (ret : Int)
    (hret : ret ∈ (svc_lookup6 K C E (World.start skb ct) secctx to_stack).2.2.calls.filterMap
      Event.port_extraction)
    (herr : K.IS_ERR ret = true) :
    (ret = K.DROP_UNKNOWN_L4 →
      (svc_lookup6 K C E (World.start skb ct) secctx to_stack).1 = K.TC_ACT_OK ∧
      ∀ e ∈ (svc_lookup6 K C E (World.start skb ct) secctx to_stack).2.2.calls,
        e.service_lookup = false) ∧
    (ret ≠ K.DROP_UNKNOWN_L4 →
      (svc_lookup6 K C E (World.start skb ct) secctx to_stack).1 = ret) :=
  (svc_lookup6_paths K C E skb ct secctx to_stack).2 ret hret herr

/-! ## The main protocol stage -/

set_option maxHeartbeats 2000000 in
/-- The endpoint lookup of `handle_ipv4` and what follows it. -/
theorem handle_ipv4_endpoint {σ : Type} (K : Consts) (C : Config) (E : Env σ) (skb : SkBuff)
    (ct : σ) :
    (∀ ep, some ep ∈ (handle_ipv4 K C E (World.start skb ct)).2.calls.filterMap
        Event.endpoint_lookup → ep.flags &&& K.ENDPOINT_F_HOST ≠ 0 →
      (handle_ipv4 K C E (World.start skb ct)).1 = K.TC_ACT_OK ∧
      (handle_ipv4 K C E (World.start skb ct)).2.calls.filterMap Event.local_delivery = [] ∧
      (handle_ipv4 K C E (World.start skb ct)).2.calls.filterMap Event.encap = []) ∧
    (∀ key ∈ (handle_ipv4 K C E (World.start skb ct)).2.calls.filterMap
        (Event.endpoint_miss_key K C),
      (C.ENCAP_IFINDEX.isSome = true →
        ∃ secctx ret, (handle_ipv4 K C E (World.start skb ct)).2.calls.filterMap Event.encap =
            [(key, secctx, ret)] ∧
          (handle_ipv4 K C E (World.start skb ct)).1 = ret) ∧
      (C.ENCAP_IFINDEX = none →
        (handle_ipv4 K C E (World.start skb ct)).2.calls.filterMap Event.encap = [] ∧
        (handle_ipv4 K C E (World.start skb ct)).1 = K.TC_ACT_OK)) := by
  generalize hr : handle_ipv4 K C E (World.start skb ct) = r
  simp only [handle_ipv4, World.start, World.emit, Run.pure_bind] at hr
  repeat' first
    | (replace hr := call_bind_inv hr; obtain ⟨x, hr⟩ := hr; try dsimp only at hr)
    | (replace hr := ite_inv hr; rcases hr with ⟨h, hr⟩ | ⟨h, hr⟩)
    | split at hr
  all_goals (simp only [Run.run_pure] at hr; subst hr)
  all_goals simp_all [Event.endpoint_lookup, Event.local_delivery, Event.encap,
    Event.endpoint_miss_key]
  all_goals (intro hn; simp [hn] at *)

/-- C9: with `FROM_NAT`, for a 32-bit mark `m`, `derive_identity_and_revnat`
yields the identity `m mod 2^16` and, when the index is requested, the
reverse-NAT index `m div 2^16`; it clears the mark and leaves every other
field of the packet, `tc_index` and `cb` included, as it was.  A second
derivation on the resulting packet yields identity 0 and index 0. -/
theorem nat_identity_decoding (K : Consts) (C : Config) (skb : SkBuff) (revnat : Option Nat)
    (hnat : C.FROM_NAT = true) (hmark : skb.mark < 2 ^ 32) :
    derive_identity_and_revnat K C skb revnat =
      (skb.mark % 2 ^ 16, revnat.map (fun _ => skb.mark / 2 ^ 16), { skb with mark := 0 }) ∧
    (derive_identity_and_revnat K C skb revnat).2.2.mark = 0 ∧
    (derive_identity_and_revnat K C skb revnat).2.2.tc_index = skb.tc_index ∧
    (derive_identity_and_revnat K C skb revnat).2.2.cb = skb.cb ∧
    derive_identity_and_revnat K C (derive_identity_and_revnat K C skb revnat).2.2 revnat =
      (0, revnat.map (fun _ => 0), { skb with mark := 0 }) := by
  have h1 : skb.mark &&& 0xFFFF = skb.mark % 2 ^ 16 := Nat.and_pow_two_sub_one_eq_mod skb.mark 16
  have h2 : (skb.mark >>> 16) % 2 ^ 16 = skb.mark / 2 ^ 16 := by
    rw [Nat.shiftRight_eq_div_pow]
    exact Nat.mod_eq_of_lt (Nat.div_lt_of_lt_mul (by omega))
  have h3 : derive_identity_and_revnat K C skb revnat =
      (skb.mark % 2 ^ 16, revnat.map (fun _ => skb.mark / 2 ^ 16), { skb with mark := 0 }) := by
    simp only [derive_identity_and_revnat, hnat, if_true, decode_nat_metadata, h1, h2]
  refine ⟨h3, ?_, ?_, ?_, ?_⟩
  · rw [h3]
  · rw [h3]
  · rw [h3]
  · rw [h3]
    simp [derive_identity_and_revnat, hnat, decode_nat_metadata]

/-- C9 at the mark 0x00050007: identity 7, index 5, and nothing the second
time. -/
theorem nat_identity_decoding_witness :
    derive_identity_and_revnat sampleConsts { sampleConfig with FROM_NAT := true }
        { samplePacket4 with mark := 0x00050007 } (some 0) =
      (7, some 5, { samplePacket4 with mark := 0 }) ∧
    derive_identity_and_revnat sampleConsts { sampleConfig with FROM_NAT := true }
        (derive_identity_and_revnat sampleConsts { sampleConfig with FROM_NAT := true }
          { samplePacket4 with mark := 0x00050007 } (some 0)).2.2 (some 0) =
      (0, some 0, { samplePacket4 with mark := 0 }) :=
  ⟨(nat_identity_decoding sampleConsts { sampleConfig with FROM_NAT := true }
      { samplePacket4 with mark := 0x00050007 } (some 0) rfl (by decide)).1,
   (nat_identity_decoding sampleConsts { sampleConfig with FROM_NAT := true }
      { samplePacket4 with mark := 0x00050007 } (some 0) rfl (by decide)).2.2.2.2⟩

/-- C10: without `FROM_NAT`.  With `FROM_HOST`, a non-zero `tc_index` is the
identity and is then cleared, a zero `tc_index` gives the fallback identity
(`FIXED_SRC_SECCTX` if defined, else `WORLD_ID`) and stays zero; either way
the mark is cleared, `cb` is untouched and the index, when requested, is
`cb[0]`.  From the wire, the identity is the fallback, the index, when
requested, is `cb[0]`, and the packet is returned as it came. -/
theorem host_wire_identity (K : Consts) (C : Config) (skb : SkBuff) (revnat : Option Nat)
    (hnat : C.FROM_NAT = false) :
    (C.FROM_HOST = true →
      (skb.tc_index ≠ 0 →
        derive_identity_and_revnat K C skb revnat =
          (skb.tc_index, revnat.map (fun _ => skb.cb 0),
            { skb with tc_index := 0, mark := 0 })) ∧
      (skb.tc_index = 0 →
        derive_identity_and_revnat K C skb revnat =
          (C.FIXED_SRC_SECCTX.getD K.WORLD_ID, revnat.map (fun _ => skb.cb 0),
            { skb with mark := 0 }) ∧
        (derive_identity_and_revnat K C skb revnat).2.2.tc_index = 0) ∧
      (derive_identity_and_revnat K C skb revnat).2.2.mark = 0 ∧
      (derive_identity_and_revnat K C skb revnat).2.2.cb = skb.cb) ∧
    (C.FROM_HOST = false →
      derive_identity_and_revnat K C skb revnat =
        (C.FIXED_SRC_SECCTX.getD K.WORLD_ID, revnat.map (fun _ => skb.cb 0), skb)) := by
  have hfb : FALLBACK_SECCTX K C = C.FIXED_SRC_SECCTX.getD K.WORLD_ID := by
    unfold FALLBACK_SECCTX
    cases C.FIXED_SRC_SECCTX <;> rfl
  refine ⟨fun hhost => ⟨fun htc => ?_, fun htc => ⟨?_, ?_⟩, ?_, ?_⟩, fun hwire => ?_⟩
  · simp [derive_identity_and_revnat, hnat, hhost, htc, CB_REVNAT]
  · simp [derive_identity_and_revnat, hnat, hhost, htc, CB_REVNAT, hfb]
  · simp [derive_identity_and_revnat, hnat, hhost, htc]
  · by_cases htc : skb.tc_index = 0 <;> simp [derive_identity_and_revnat, hnat, hhost, htc]
  · by_cases htc : skb.tc_index = 0 <;> simp [derive_identity_and_revnat, hnat, hhost, htc]
  · simp [derive_identity_and_revnat, hnat, hwire, CB_REVNAT, hfb]

/-- C10 at the sample packet: from the host with `tc_index` 260 the identity
is 260; from the wire it is the fallback `WORLD_ID`. -/
theorem host_wire_identity_witness :
    derive_identity_and_revnat sampleConsts sampleConfigHost
        { samplePacket4 with tc_index := 260, mark := 9 } (some 0) =
      (260, some 0, { samplePacket4 with tc_index := 0, mark := 0 }) ∧
    derive_identity_and_revnat sampleConsts sampleConfig
        { samplePacket4 with tc_index := 260, mark := 9 } (some 0) =
      (2, some 0, { samplePacket4 with tc_index := 260, mark := 9 }) :=
  ⟨((host_wire_identity sampleConsts sampleConfigHost
      { samplePacket4 with tc_index := 260, mark := 9 } (some 0) rfl).1 rfl).1 (by decide),
   (host_wire_identity sampleConsts sampleConfig
      { samplePacket4 with tc_index := 260, mark := 9 } (some 0) rfl).2 rfl⟩

/-! ## Errors in the policy stage -/

/-- Errors and tolerated failures in `ipv4_policy`. -/
theorem ipv4_policy_errors {σ : Type} (K : Consts) (E : Env σ) (skb : SkBuff) (ct : σ)
    (ifindex : Int) (src_label : Nat) :
    ((ipv4_policy K E (World.start skb ct) ifindex src_label).2.calls.filterMap
        Event.redirect_call = [] ∧
      (ipv4_policy K E (World.start skb ct) ifindex src_label).2.calls.filterMap
        Event.drop_exit = [] ∧
      (ipv4_policy K E (World.start skb ct) ifindex src_label).2.calls.filterMap
        Event.error_notice = [] ∧
      (ipv4_policy K E (World.start skb ct) ifindex src_label).2.calls.filterMap
        Event.policy_notice = []) ∧
    (∀ x ∈ (ipv4_policy K E (World.start skb ct) ifindex src_label).2.calls.filterMap
        Event.rev_nat_result, K.IS_ERR x.2 = true →
      (ipv4_policy K E (World.start skb ct) ifindex src_label).1 = x.2 ∧
      (ipv4_policy K E (World.start skb ct) ifindex src_label).2.calls.filterMap
        Event.policy_verdict = [] ∧
      (ipv4_policy K E (World.start skb ct) ifindex src_label).2.calls.filterMap
        Event.ct_create_call = []) ∧
    (∀ c st, (K.CT_EGRESS, c, st) ∈
        (ipv4_policy K E (World.start skb ct) ifindex src_label).2.calls.filterMap
          Event.ct_lookup_result → c < 0 → c ≠ K.DROP_CT_CANT_CREATE →
      (ipv4_policy K E (World.start skb ct) ifindex src_label).1 = c ∧
      (ipv4_policy K E (World.start skb ct) ifindex src_label).2.calls.filterMap
        Event.policy_verdict = [] ∧
      (ipv4_policy K E (World.start skb ct) ifindex src_label).2.calls.filterMap
        Event.ct_create_call = []) ∧
    (∀ st, (K.CT_EGRESS, K.DROP_CT_CANT_CREATE, st) ∈
        (ipv4_policy K E (World.start skb ct) ifindex src_label).2.calls.filterMap
          Event.ct_lookup_result →
      K.DROP_CT_CANT_CREATE ≠ K.CT_NEW ∧ K.DROP_CT_CANT_CREATE ≠ K.CT_REPLY ∧
        K.DROP_CT_CANT_CREATE ≠ K.CT_RELATED →
      (∀ x ∈ (ipv4_policy K E (World.start skb ct) ifindex src_label).2.calls.filterMap
        Event.rev_nat_result, K.IS_ERR x.2 = false) →
      ∃ verdict, (ipv4_policy K E (World.start skb ct) ifindex src_label).2.calls.filterMap
          Event.policy_verdict = [verdict] ∧
        (ipv4_policy K E (World.start skb ct) ifindex src_label).2.calls.filterMap
          Event.ct_create_call = [] ∧
        (verdict = K.TC_ACT_OK →
          (ipv4_policy K E (World.start skb ct) ifindex src_label).1 = 0) ∧
        (verdict ≠ K.TC_ACT_OK →
          (ipv4_policy K E (World.start skb ct) ifindex src_label).1 = K.DROP_POLICY)) ∧
    (∀ x ∈ (ipv4_policy K E (World.start skb ct) ifindex src_label).2.calls.filterMap
        Event.ct_create_result,
      (ipv4_policy K E (World.start skb ct) ifindex src_label).1 = 0) := by
  generalize hr : ipv4_policy K E (World.start skb ct) ifindex src_label = r
  simp only [ipv4_policy, World.start, World.emit, Run.pure_bind] at hr
  repeat' first
    | (replace hr := call_bind_inv hr; obtain ⟨x, hr⟩ := hr; try dsimp only at hr)
    | (replace hr := ite_inv hr; rcases hr with ⟨h, hr⟩ | ⟨h, hr⟩)
  all_goals (simp only [Run.run_pure] at hr; subst hr)
  all_goals simp_all [Event.ct_lookup_result, Event.rev_nat_result, Event.policy_verdict,
    Event.ct_create_call, Event.redirect_call, Event.drop_exit, Event.ct_create_result,
    Event.error_notice, Event.policy_notice]
  all_goals tauto

/-- Errors and tolerated failures in `ipv6_policy`. -/
theorem ipv6_policy_errors {σ : Type} (K : Consts) (E : Env σ) (skb : SkBuff) (ct : σ)
    (ifindex : Int) (src_label : Nat) :
    ((ipv6_policy K E (World.start skb ct) ifindex src_label).2.calls.filterMap
        Event.redirect_call = [] ∧
      (ipv6_policy K E (World.start skb ct) ifindex src_label).2.calls.filterMap
        Event.drop_exit = [] ∧
      (ipv6_policy K E (World.start skb ct) ifindex src_label).2.calls.filterMap
        Event.error_notice = [] ∧
      (ipv6_policy K E (World.start skb ct) ifindex src_label).2.calls.filterMap
        Event.policy_notice = []) ∧
    (∀ x ∈ (ipv6_policy K E (World.start skb ct) ifindex src_label).2.calls.filterMap
        Event.rev_nat_result, K.IS_ERR x.2 = true →
      (ipv6_policy K E (World.start skb ct) ifindex src_label).1 = x.2 ∧
      (ipv6_policy K E (World.start skb ct) ifindex src_label).2.calls.filterMap
        Event.policy_verdict = [] ∧
      (ipv6_policy K E (World.start skb ct) ifindex src_label).2.calls.filterMap
        Event.ct_create_call = []) ∧
    (∀ c st, (K.CT_EGRESS, c, st) ∈
        (ipv6_policy K E (World.start skb ct) ifindex src_label).2.calls.filterMap
          Event.ct_lookup_result → c < 0 → c ≠ K.DROP_CT_CANT_CREATE →
      (ipv6_policy K E (World.start skb ct) ifindex src_label).1 = c ∧
      (ipv6_policy K E (World.start skb ct) ifindex src_label).2.calls.filterMap
        Event.policy_verdict = [] ∧
      (ipv6_policy K E (World.start skb ct) ifindex src_label).2.calls.filterMap
        Event.ct_create_call = []) ∧
    (∀ st, (K.CT_EGRESS, K.DROP_CT_CANT_CREATE, st) ∈
        (ipv6_policy K E (World.start skb ct) ifindex src_label).2.calls.filterMap
          Event.ct_lookup_result →
      K.DROP_CT_CANT_CREATE ≠ K.CT_NEW ∧ K.DROP_CT_CANT_CREATE ≠ K.CT_REPLY ∧
        K.DROP_CT_CANT_CREATE ≠ K.CT_RELATED →
      (∀ x ∈ (ipv6_policy K E (World.start skb ct) ifindex src_label).2.calls.filterMap
        Event.rev_nat_result, K.IS_ERR x.2 = false) →
      ∃ verdict, (ipv6_policy K E (World.start skb ct) ifindex src_label).2.calls.filterMap
          Event.policy_verdict = [verdict] ∧
        (ipv6_policy K E (World.start skb ct) ifindex src_label).2.calls.filterMap
          Event.ct_create_call = [] ∧
        (verdict = K.TC_ACT_OK →
          (ipv6_policy K E (World.start skb ct) ifindex src_label).1 = 0) ∧
        (verdict ≠ K.TC_ACT_OK →
          (ipv6_policy K E (World.start skb ct) ifindex src_label).1 = K.DROP_POLICY)) ∧
    (∀ x ∈ (ipv6_policy K E (World.start skb ct) ifindex src_label).2.calls.filterMap
        Event.ct_create_result,
      (ipv6_policy K E (World.start skb ct) ifindex src_label).1 = 0) := by
  generalize hr : ipv6_policy K E (World.start skb ct) ifindex src_label = r
  simp only [ipv6_policy, World.start, World.emit, Run.pure_bind] at hr
  repeat' first
    | (replace hr := call_bind_inv hr; obtain ⟨x, hr⟩ := hr; try dsimp only at hr)
    | (replace hr := ite_inv hr; rcases hr with ⟨h, hr⟩ | ⟨h, hr⟩)
  all_goals (simp only [Run.run_pure] at hr; subst hr)
  all_goals simp_all [Event.ct_lookup_result, Event.rev_nat_result, Event.policy_verdict,
    Event.ct_create_call, Event.redirect_call, Event.drop_exit, Event.ct_create_result,
    Event.error_notice, Event.policy_notice]
  all_goals tauto

/-- What `handle_policy` does with the result of the per-protocol policy
function. -/
theorem handle_policy_eq {σ : Type} (K : Consts) (C : Config) (E : Env σ) (w : World σ) :
    handle_policy K C E w =
      if K.IS_ERR (handle_policy_switch K E w).1 = true then
        if (handle_policy_switch K E w).1 = K.DROP_POLICY then
          (E.send_drop_notify (handle_policy_switch K E w).2.skb (w.skb.cb K.CB_SRC_LABEL)
              C.SECLABEL 0 (toInt32 (w.skb.cb K.CB_IFINDEX)) K.TC_ACT_SHOT,
            (handle_policy_switch K E w).2.emit
              (Event.send_drop_notify (w.skb.cb K.CB_SRC_LABEL) C.SECLABEL 0
                (toInt32 (w.skb.cb K.CB_IFINDEX)) K.TC_ACT_SHOT
                (E.send_drop_notify (handle_policy_switch K E w).2.skb (w.skb.cb K.CB_SRC_LABEL)
                  C.SECLABEL 0 (toInt32 (w.skb.cb K.CB_IFINDEX)) K.TC_ACT_SHOT)))
        else
          (E.send_drop_notify_error (handle_policy_switch K E w).2.skb
              (handle_policy_switch K E w).1 K.TC_ACT_SHOT,
            (handle_policy_switch K E w).2.emit
              (Event.send_drop_notify_error (handle_policy_switch K E w).1 K.TC_ACT_SHOT
                (E.send_drop_notify_error (handle_policy_switch K E w).2.skb
                  (handle_policy_switch K E w).1 K.TC_ACT_SHOT)))
      else if toInt32 (w.skb.cb K.CB_IFINDEX) = 0 then
        (K.TC_ACT_OK, (handle_policy_switch K E w).2.emit
          (Event.cilium_trace_capture Dbg.DBG_CAPTURE_DELIVERY (toInt32 (w.skb.cb K.CB_IFINDEX))))
      else
        (E.redirect (toInt32 (w.skb.cb K.CB_IFINDEX)) 0,
          ((handle_policy_switch K E w).2.emit
            (Event.cilium_trace_capture Dbg.DBG_CAPTURE_DELIVERY
              (toInt32 (w.skb.cb K.CB_IFINDEX)))).emit
            (Event.redirect (toInt32 (w.skb.cb K.CB_IFINDEX)) 0
              (E.redirect (toInt32 (w.skb.cb K.CB_IFINDEX)) 0))) := by
  simp only [handle_policy, handle_policy_switch, Run.call_bind, Run.pure_bind, World.emit]
  split_ifs <;> simp_all [Run.run_pure]

/-- The per-protocol policy function run by `handle_policy` calls neither
`redirect` nor a drop notification. -/
theorem handle_policy_switch_hooks {σ : Type} (K : Consts) (E : Env σ) (skb : SkBuff) (ct : σ) :
    (handle_policy_switch K E (World.start skb ct)).2.calls.filterMap Event.redirect_call = [] ∧
    (handle_policy_switch K E (World.start skb ct)).2.calls.filterMap Event.drop_exit = [] ∧
    (handle_policy_switch K E (World.start skb ct)).2.calls.filterMap Event.error_notice = [] ∧
    (handle_policy_switch K E (World.start skb ct)).2.calls.filterMap Event.policy_notice = [] := by
  simp only [handle_policy_switch]
  split_ifs
  · exact (ipv6_policy_errors K E skb ct _ _).1
  · exact (ipv4_policy_errors K E skb ct _ _).1
  · simp [World.start]

/-- C12: `handle_policy` runs the per-protocol policy function with the
identity `cb[CB_SRC_LABEL]` and the interface `cb[CB_IFINDEX]`.  When that
returns no error, the result is `TC_ACT_OK` (and nothing is redirected) if the
interface is 0 and the result of `redirect(ifindex, 0)` otherwise, and no drop
is notified.  When it returns an error, nothing is redirected, one drop
notification is made, with exit code `TC_ACT_SHOT`, and its result returned;
it is the policy notification (source identity, `SECLABEL`, interface) exactly
when the reason is `DROP_POLICY`, and the error notification with the reason
otherwise.  A packet that is neither IPv4 nor IPv6 has reason
`DROP_UNKNOWN_L3`. -/
theorem policy_final_disposition {σ : Type} (K : Consts) (C : Config) (E : Env σ)
    (skb : SkBuff) (ct : σ) :
    (K.IS_ERR (handle_policy_switch K E (World.start skb ct)).1 = false →
      (toInt32 (skb.cb K.CB_IFINDEX) = 0 →
        (handle_policy K C E (World.start skb ct)).1 = K.TC_ACT_OK ∧
        (handle_policy K C E (World.start skb ct)).2.calls.filterMap Event.redirect_call = []) ∧
      (toInt32 (skb.cb K.CB_IFINDEX) ≠ 0 →
        (handle_policy K C E (World.start skb ct)).1 =
          E.redirect (toInt32 (skb.cb K.CB_IFINDEX)) 0 ∧
        (handle_policy K C E (World.start skb ct)).2.calls.filterMap Event.redirect_call =
          [(toInt32 (skb.cb K.CB_IFINDEX), 0, E.redirect (toInt32 (skb.cb K.CB_IFINDEX)) 0)]) ∧
      (handle_policy K C E (World.start skb ct)).2.calls.filterMap Event.drop_exit = []) ∧
    (K.IS_ERR (handle_policy_switch K E (World.start skb ct)).1 = true →
      (handle_policy K C E (World.start skb ct)).2.calls.filterMap Event.redirect_call = [] ∧
      (∃ n, (handle_policy K C E (World.start skb ct)).2.calls.filterMap Event.drop_exit =
          [(K.TC_ACT_SHOT, n)] ∧
        (handle_policy K C E (World.start skb ct)).1 = n) ∧
      ((handle_policy_switch K E (World.start skb ct)).1 = K.DROP_POLICY →
        (handle_policy K C E (World.start skb ct)).2.calls.filterMap Event.policy_notice =
          [(skb.cb K.CB_SRC_LABEL, C.SECLABEL, toInt32 (skb.cb K.CB_IFINDEX))] ∧
        (handle_policy K C E (World.start skb ct)).2.calls.filterMap Event.error_notice = []) ∧
      ((handle_policy_switch K E (World.start skb ct)).1 ≠ K.DROP_POLICY →
        (handle_policy K C E (World.start skb ct)).2.calls.filterMap Event.policy_notice = [] ∧
        ∃ n, (handle_policy K C E (World.start skb ct)).2.calls.filterMap Event.error_notice =
          [((handle_policy_switch K E (World.start skb ct)).1, K.TC_ACT_SHOT, n)])) ∧
    (skb.protocol ≠ K.htons_ETH_P_IPV6 → skb.protocol ≠ K.htons_ETH_P_IP →
      (handle_policy_switch K E (World.start skb ct)).1 = K.DROP_UNKNOWN_L3) := by
  obtain ⟨h1, h2, h3, h4⟩ := handle_policy_switch_hooks K E skb ct
  have hs : (World.start skb ct).skb = skb := rfl
  refine ⟨?_, ?_, ?_⟩
  · intro herr
    rw [handle_policy_eq]
    simp only [herr, Bool.false_eq_true, if_false, hs]
    refine ⟨fun h0 => ?_, fun h0 => ?_, ?_⟩
    · simp [h0, World.emit, h1, Event.redirect_call]
    · simp [h0, World.emit, h1, Event.redirect_call]
    · split_ifs <;> simp [World.emit, h2, Event.drop_exit]
  · intro herr
    rw [handle_policy_eq]
    simp only [herr, if_true, hs]
    refine ⟨?_, ?_, fun hp => ?_, fun hp => ?_⟩
    · split_ifs <;> simp [World.emit, h1, Event.redirect_call]
    · split_ifs <;> simp [World.emit, h2, Event.drop_exit]
    · simp [hp, World.emit, h3, h4, Event.policy_notice, Event.error_notice]
    · simp [hp, World.emit, h3, h4, Event.policy_notice, Event.error_notice]
  · intro h6 h4
    simp [handle_policy_switch, World.start, h6, h4]

/-- C12 at the sample packet: the allowed identity 2 with interface 5 is
redirected there; the denied identity 9 is notified as a policy drop with
exit code `TC_ACT_SHOT`. -/
theorem policy_final_disposition_witness :
    ((handle_policy sampleConsts sampleConfig sampleEnv (World.start policyPacket4 [])).1 =
        sampleEnv.redirect (toInt32 (policyPacket4.cb sampleConsts.CB_IFINDEX)) 0 ∧
      (handle_policy sampleConsts sampleConfig sampleEnv
        (World.start policyPacket4 [])).2.calls.filterMap Event.redirect_call =
        [(toInt32 (policyPacket4.cb sampleConsts.CB_IFINDEX), 0,
          sampleEnv.redirect (toInt32 (policyPacket4.cb sampleConsts.CB_IFINDEX)) 0)]) ∧
    ((handle_policy sampleConsts sampleConfig sampleEnv
        (World.start deniedPacket4 [])).2.calls.filterMap Event.policy_notice =
        [(deniedPacket4.cb sampleConsts.CB_SRC_LABEL, sampleConfig.SECLABEL,
          toInt32 (deniedPacket4.cb sampleConsts.CB_IFINDEX))] ∧
      (handle_policy sampleConsts sampleConfig sampleEnv
        (World.start deniedPacket4 [])).2.calls.filterMap Event.error_notice = []) :=
  ⟨((policy_final_disposition sampleConsts sampleConfig sampleEnv policyPacket4 []).1
      (by with_unfolding_all decide)).2.1 (by with_unfolding_all decide),
   ((policy_final_disposition sampleConsts sampleConfig sampleEnv deniedPacket4 []).2.1
      (by with_unfolding_all decide)).2.2.1 (by with_unfolding_all decide)⟩

/-- A failed reverse translation in the policy function run by
`handle_policy`. -/
theorem handle_policy_switch_rev_nat {σ : Type} (K : Consts) (E : Env σ) (skb : SkBuff)
    (ct : σ) (y : Nat × Int)
    (hy : y ∈ (handle_policy_switch K E (World.start skb ct)).2.calls.filterMap
      Event.rev_nat_result)
    (herr : K.IS_ERR y.2 = true) :
    (handle_policy_switch K E (World.start skb ct)).1 = y.2 ∧
    (handle_policy_switch K E (World.start skb ct)).2.calls.filterMap Event.policy_verdict = [] ∧
    (handle_policy_switch K E (World.start skb ct)).2.calls.filterMap Event.ct_create_call = [] := by
  simp only [handle_policy_switch] at hy ⊢
  split_ifs at hy ⊢
  · exact (ipv6_policy_errors K E skb ct _ _).2.1 y hy herr
  · exact (ipv4_policy_errors K E skb ct _ _).2.1 y hy herr
  · simp [World.start] at hy

/-- C13: in `ipv4_policy` and `ipv6_policy`, when a reverse translation
(`lb4_rev_nat` / `lb6_rev_nat`) was applied and returned an error, the
function returns that error, and has neither queried `policy_can_access` nor
called `ct_create`.  In `handle_policy` such a failure leads to one drop
notification with exit code `TC_ACT_SHOT`, whose result is returned (so
`TC_ACT_SHOT` when the hook returns the exit code it is given), to no
redirect, no policy query and no `ct_create`. -/
theorem policy_rev_nat_failure {σ : Type} (K : Consts) (C : Config) (E : Env σ) (skb : SkBuff)
    (ct : σ) :
    (∀ (f : Family) (ifindex : Int) (src_label : Nat),
      ∀ x ∈ (policy_fn f K E (World.start skb ct) ifindex src_label).2.calls.filterMap
        Event.rev_nat_result, K.IS_ERR x.2 = true →
      (policy_fn f K E (World.start skb ct) ifindex src_label).1 = x.2 ∧
      (policy_fn f K E (World.start skb ct) ifindex src_label).2.calls.filterMap
        Event.policy_verdict = [] ∧
      (policy_fn f K E (World.start skb ct) ifindex src_label).2.calls.filterMap
        Event.ct_create_call = []) ∧
    (∀ y ∈ (handle_policy K C E (World.start skb ct)).2.calls.filterMap Event.rev_nat_result,
      K.IS_ERR y.2 = true →
      (handle_policy K C E (World.start skb ct)).2.calls.filterMap Event.redirect_call = [] ∧
      (handle_policy K C E (World.start skb ct)).2.calls.filterMap Event.policy_verdict = [] ∧
      (handle_policy K C E (World.start skb ct)).2.calls.filterMap Event.ct_create_call = [] ∧
      ∃ n, (handle_policy K C E (World.start skb ct)).2.calls.filterMap Event.drop_exit =
          [(K.TC_ACT_SHOT, n)] ∧
        (handle_policy K C E (World.start skb ct)).1 = n ∧
        (n = K.TC_ACT_SHOT → (handle_policy K C E (World.start skb ct)).1 = K.TC_ACT_SHOT)) := by
  refine ⟨?_, ?_⟩
  · intro f ifindex src_label x hx herr
    cases f
    · exact (ipv4_policy_errors K E skb ct ifindex src_label).2.1 x hx herr
    · exact (ipv6_policy_errors K E skb ct ifindex src_label).2.1 x hx herr
  · intro y hy herr
    obtain ⟨h1, h2, -, -⟩ := handle_policy_switch_hooks K E skb ct
    have hy' : y ∈ (handle_policy_switch K E (World.start skb ct)).2.calls.filterMap
        Event.rev_nat_result := by
      rw [handle_policy_eq] at hy
      split_ifs at hy <;>
        simpa [World.emit, Event.rev_nat_result] using hy
    obtain ⟨hb, hv, hc⟩ := handle_policy_switch_rev_nat K E skb ct y hy' herr
    have hberr : K.IS_ERR (handle_policy_switch K E (World.start skb ct)).1 = true := by
      rw [hb]; exact herr
    rw [handle_policy_eq]
    simp only [hberr, if_true]
    split_ifs <;>
      simp [World.emit, h1, h2, hv, hc, Event.redirect_call, Event.drop_exit,
        Event.policy_verdict, Event.ct_create_call]

/-- C13 at the sample packet, a tracked reply with reverse-NAT index 5, with
a reverse translation that fails with -141: `ipv4_policy` returns -141 and
`handle_policy` notifies a drop with exit code `TC_ACT_SHOT`. -/
theorem policy_rev_nat_failure_witness :
    ((policy_fn Family.ipv4 sampleConsts sampleEnvRevNatFails (World.start samplePacket4 replyStore)
        0 2).1 = -141 ∧
      (policy_fn Family.ipv4 sampleConsts sampleEnvRevNatFails (World.start samplePacket4 replyStore)
        0 2).2.calls.filterMap Event.policy_verdict = [] ∧
      (policy_fn Family.ipv4 sampleConsts sampleEnvRevNatFails (World.start samplePacket4 replyStore)
        0 2).2.calls.filterMap Event.ct_create_call = []) ∧
    ((handle_policy sampleConsts sampleConfig sampleEnvRevNatFails
        (World.start samplePacket4 replyStore)).2.calls.filterMap Event.redirect_call = [] ∧
      (handle_policy sampleConsts sampleConfig sampleEnvRevNatFails
        (World.start samplePacket4 replyStore)).2.calls.filterMap Event.policy_verdict = [] ∧
      (handle_policy sampleConsts sampleConfig sampleEnvRevNatFails
        (World.start samplePacket4 replyStore)).2.calls.filterMap Event.ct_create_call = [] ∧
      ∃ n, (handle_policy sampleConsts sampleConfig sampleEnvRevNatFails
          (World.start samplePacket4 replyStore)).2.calls.filterMap Event.drop_exit =
          [(sampleConsts.TC_ACT_SHOT, n)] ∧
        (handle_policy sampleConsts sampleConfig sampleEnvRevNatFails
          (World.start samplePacket4 replyStore)).1 = n ∧
        (n = sampleConsts.TC_ACT_SHOT →
          (handle_policy sampleConsts sampleConfig sampleEnvRevNatFails
            (World.start samplePacket4 replyStore)).1 = sampleConsts.TC_ACT_SHOT)) :=
  ⟨(policy_rev_nat_failure sampleConsts sampleConfig sampleEnvRevNatFails samplePacket4
      replyStore).1 Family.ipv4 0 2 (5, -141) (by with_unfolding_all decide)
      (by with_unfolding_all decide),
   (policy_rev_nat_failure sampleConsts sampleConfig sampleEnvRevNatFails samplePacket4
      replyStore).2 (5, -141) (by with_unfolding_all decide) (by with_unfolding_all decide)⟩

/-- The identity derivation leaves the headers and the bounds of the packet
as they are. -/
theorem derive_identity_and_revnat_frame (K : Consts) (C : Config) (skb : SkBuff)
    (revnat : Option Nat) :
    (derive_identity_and_revnat K C skb revnat).2.2.ip4 = skb.ip4 ∧
    (derive_identity_and_revnat K C skb revnat).2.2.ip6 = skb.ip6 ∧
    (derive_identity_and_revnat K C skb revnat).2.2.data = skb.data ∧
    (derive_identity_and_revnat K C skb revnat).2.2.data_end = skb.data_end ∧
    (derive_identity_and_revnat K C skb revnat).2.2.protocol = skb.protocol ∧
    (derive_identity_and_revnat K C skb revnat).2.2.ingress_ifindex = skb.ingress_ifindex := by
  unfold derive_identity_and_revnat
  split_ifs <;> simp

/-- C11: `derive_ip6_identity_and_revnat` first runs
`derive_identity_and_revnat` (without reverse-NAT index), whose packet it
returns in all cases.  With `FIXED_SRC_SECCTX` undefined and a source address
whose first two 32-bit words equal those of the node address, the identity is
`bpf_ntohl` of the first header word masked with `IPV6_FLOWLABEL_MASK`,
whatever the first derivation gave; with a source outside that /64, or with
`FIXED_SRC_SECCTX` defined, the identity is that of
`derive_identity_and_revnat`. -/
theorem ip6_identity_refinement (K : Consts) (C : Config) (skb : SkBuff) (node_ip : v6addr) :
    (derive_ip6_identity_and_revnat K C skb node_ip).2 =
      (derive_identity_and_revnat K C skb none).2.2 ∧
    (C.FIXED_SRC_SECCTX = none →
      (skb.ip6.saddr.p1 = node_ip.p1 ∧ skb.ip6.saddr.p2 = node_ip.p2 →
        (derive_ip6_identity_and_revnat K C skb node_ip).1 =
          K.bpf_ntohl (skb.ip6.word0 &&& K.IPV6_FLOWLABEL_MASK)) ∧
      (¬ (skb.ip6.saddr.p1 = node_ip.p1 ∧ skb.ip6.saddr.p2 = node_ip.p2) →
        (derive_ip6_identity_and_revnat K C skb node_ip).1 =
          (derive_identity_and_revnat K C skb none).1)) ∧
    (C.FIXED_SRC_SECCTX.isSome = true →
      (derive_ip6_identity_and_revnat K C skb node_ip).1 =
        (derive_identity_and_revnat K C skb none).1) := by
  have hip := (derive_identity_and_revnat_frame K C skb none).2.1
  refine ⟨?_, fun hf => ⟨fun hm => ?_, fun hm => ?_⟩, fun hf => ?_⟩
  · simp only [derive_ip6_identity_and_revnat]
    split_ifs <;> rfl
  · have hmatch : ipv6_match_prefix_64 skb.ip6.saddr node_ip = true := by
      simp [ipv6_match_prefix_64, hm.1, hm.2]
    simp [derive_ip6_identity_and_revnat, hf, hip, hmatch]
  · have hmatch : ipv6_match_prefix_64 skb.ip6.saddr node_ip = false := by
      simp only [ipv6_match_prefix_64, Bool.and_eq_false_iff, beq_eq_false_iff_ne]
      tauto
    simp [derive_ip6_identity_and_revnat, hf, hip, hmatch]
  · cases hc : C.FIXED_SRC_SECCTX with
    | none => simp [hc] at hf
    | some v => simp [derive_ip6_identity_and_revnat, hc]

/-- C11 at the mark-free sample: a packet from the node's own /64 with flow
label 0x12345 has identity 0x12345; the sample packet from another prefix has
the fallback identity. -/
theorem ip6_identity_refinement_witness :
    (derive_ip6_identity_and_revnat sampleConsts sampleConfig
        { samplePacket6 with ip6 := { samplePacket6.ip6 with
            word0 := 0x60012345, saddr := { p1 := 0xbeef0000, p2 := 0, p3 := 7, p4 := 9 } } }
        sampleConfig.ROUTER_IP).1 = 0x12345 ∧
    (derive_ip6_identity_and_revnat sampleConsts sampleConfig samplePacket6
        sampleConfig.ROUTER_IP).1 = sampleConsts.WORLD_ID :=
  ⟨((ip6_identity_refinement sampleConsts sampleConfig
      { samplePacket6 with ip6 := { samplePacket6.ip6 with
          word0 := 0x60012345, saddr := { p1 := 0xbeef0000, p2 := 0, p3 := 7, p4 := 9 } } }
      sampleConfig.ROUTER_IP).2.1 rfl).1 ⟨rfl, rfl⟩,
   ((ip6_identity_refinement sampleConsts sampleConfig samplePacket6
      sampleConfig.ROUTER_IP).2.1 rfl).2 (by decide)⟩

/-! ## The forward path of the load balancer -/

set_option maxHeartbeats 4000000 in
/-- The forward path of `svc_lookup4`. -/
theorem svc_lookup4_forward {σ : Type} (K : Consts) (C : Config) (E : Env σ) (skb : SkBuff)
    (ct : σ) (secctx : Nat) (to_stack : Bool) :
    ((svc_lookup4 K C E (World.start skb ct) secctx to_stack).2.2.calls.filterMap
        Event.tail_call = [] ∧
      (svc_lookup4 K C E (World.start skb ct) secctx to_stack).2.2.ct = ct) ∧
    ((∃ e ∈ (svc_lookup4 K C E (World.start skb ct) secctx to_stack).2.2.calls,
        e.lb_miss = true) →
      (svc_lookup4 K C E (World.start skb ct) secctx to_stack).1 = K.TC_ACT_OK ∧
      (svc_lookup4 K C E (World.start skb ct) secctx to_stack).2.1 = to_stack ∧
      (∀ e ∈ (svc_lookup4 K C E (World.start skb ct) secctx to_stack).2.2.calls,
        e.lb_rewrite_step = false) ∧
      (svc_lookup4 K C E (World.start skb ct) secctx to_stack).2.2.skb = skb) ∧
    (∀ b ∈ (svc_lookup4 K C E (World.start skb ct) secctx to_stack).2.2.calls.filterMap
        Event.backend4,
      (svc_lookup4 K C E (World.start skb ct) secctx to_stack).2.2.calls.filterMap
        Event.backend4 = [b] ∧
      ∃ ret, (svc_lookup4 K C E (World.start skb ct) secctx to_stack).2.2.calls.filterMap
          Event.xlate4 = [(b.target, b, ret)] ∧
        (K.IS_ERR ret = true →
          (svc_lookup4 K C E (World.start skb ct) secctx to_stack).1 = ret ∧
          (svc_lookup4 K C E (World.start skb ct) secctx to_stack).2.1 = to_stack ∧
          (svc_lookup4 K C E (World.start skb ct) secctx to_stack).2.2.calls.filterMap
            Event.type_change = [] ∧
          (svc_lookup4 K C E (World.start skb ct) secctx to_stack).2.2.calls.filterMap
            Event.metadata = []) ∧
        (K.IS_ERR ret = false →
          (svc_lookup4 K C E (World.start skb ct) secctx to_stack).2.1 = true ∧
          ∃ ret4, (svc_lookup4 K C E (World.start skb ct) secctx to_stack).2.2.calls.filterMap
              Event.type_change = [(0, ret4)] ∧
            (ret4 < 0 →
              (svc_lookup4 K C E (World.start skb ct) secctx to_stack).1 = K.DROP_WRITE_ERROR ∧
              (svc_lookup4 K C E (World.start skb ct) secctx to_stack).2.2.calls.filterMap
                Event.metadata = []) ∧
            (¬ ret4 < 0 →
              (svc_lookup4 K C E (World.start skb ct) secctx to_stack).1 = K.TC_ACT_OK ∧
              (svc_lookup4 K C E (World.start skb ct) secctx to_stack).2.2.calls.filterMap
                Event.metadata = [(secctx, b.rev_nat_index)] ∧
              ∃ s, (svc_lookup4 K C E (World.start skb ct) secctx to_stack).2.2.skb =
                encode_nat_metadata s secctx b.rev_nat_index))) ∧
    (∀ m ∈ (svc_lookup4 K C E (World.start skb ct) secctx to_stack).2.2.calls.filterMap
        Event.metadata,
      (svc_lookup4 K C E (World.start skb ct) secctx to_stack).1 = K.TC_ACT_OK ∧
      (svc_lookup4 K C E (World.start skb ct) secctx to_stack).2.1 = true) := by
  generalize hr : svc_lookup4 K C E (World.start skb ct) secctx to_stack = r
  simp only [svc_lookup4, World.start, World.emit, Run.pure_bind] at hr
  repeat' first
    | (replace hr := call_bind_inv hr; obtain ⟨x, hr⟩ := hr; try dsimp only at hr)
    | (replace hr := ite_inv hr; rcases hr with ⟨h, hr⟩ | ⟨h, hr⟩)
    | split at hr
  all_goals (simp only [Run.run_pure] at hr; subst hr)
  all_goals simp_all [Event.tail_call, Event.lb_miss, Event.lb_rewrite_step, Event.backend4,
    Event.xlate4, Event.type_change, Event.metadata]
  all_goals exact ⟨_, rfl⟩


set_option maxHeartbeats 4000000 in
/-- The forward path of `svc_lookup6`. -/
theorem svc_lookup6_forward {σ : Type} (K : Consts) (C : Config) (E : Env σ) (skb : SkBuff)
    (ct : σ) (secctx : Nat) (to_stack : Bool) :
    ((svc_lookup6 K C E (World.start skb ct) secctx to_stack).2.2.calls.filterMap
        Event.tail_call = [] ∧
      (svc_lookup6 K C E (World.start skb ct) secctx to_stack).2.2.ct = ct) ∧
    ((∃ e ∈ (svc_lookup6 K C E (World.start skb ct) secctx to_stack).2.2.calls,
        e.lb_miss = true) →
      (svc_lookup6 K C E (World.start skb ct) secctx to_stack).1 = K.TC_ACT_OK ∧
      (svc_lookup6 K C E (World.start skb ct) secctx to_stack).2.1 = to_stack ∧
      (∀ e ∈ (svc_lookup6 K C E (World.start skb ct) secctx to_stack).2.2.calls,
        e.lb_rewrite_step = false) ∧
      (svc_lookup6 K C E (World.start skb ct) secctx to_stack).2.2.skb = skb) ∧
    (∀ b ∈ (svc_lookup6 K C E (World.start skb ct) secctx to_stack).2.2.calls.filterMap
        Event.backend6,
      (svc_lookup6 K C E (World.start skb ct) secctx to_stack).2.2.calls.filterMap
        Event.backend6 = [b] ∧
      ∃ ret, (svc_lookup6 K C E (World.start skb ct) secctx to_stack).2.2.calls.filterMap
          Event.xlate6 = [({ b.target with p4 := b.target.p4 ||| b.rev_nat_index }, b, ret)] ∧
        (K.IS_ERR ret = true →
          (svc_lookup6 K C E (World.start skb ct) secctx to_stack).1 = ret ∧
          (svc_lookup6 K C E (World.start skb ct) secctx to_stack).2.1 = to_stack ∧
          (svc_lookup6 K C E (World.start skb ct) secctx to_stack).2.2.calls.filterMap
            Event.type_change = [] ∧
          (svc_lookup6 K C E (World.start skb ct) secctx to_stack).2.2.calls.filterMap
            Event.metadata = []) ∧
        (K.IS_ERR ret = false →
          (svc_lookup6 K C E (World.start skb ct) secctx to_stack).2.1 = true ∧
          ∃ ret4, (svc_lookup6 K C E (World.start skb ct) secctx to_stack).2.2.calls.filterMap
              Event.type_change = [(0, ret4)] ∧
            (ret4 < 0 →
              (svc_lookup6 K C E (World.start skb ct) secctx to_stack).1 = K.DROP_WRITE_ERROR ∧
              (svc_lookup6 K C E (World.start skb ct) secctx to_stack).2.2.calls.filterMap
                Event.metadata = []) ∧
            (¬ ret4 < 0 →
              (svc_lookup6 K C E (World.start skb ct) secctx to_stack).1 = K.TC_ACT_OK ∧
              (svc_lookup6 K C E (World.start skb ct) secctx to_stack).2.2.calls.filterMap
                Event.metadata = [(secctx, b.rev_nat_index)] ∧
              ∃ s, (svc_lookup6 K C E (World.start skb ct) secctx to_stack).2.2.skb =
                encode_nat_metadata s secctx b.rev_nat_index))) ∧
    (∀ m ∈ (svc_lookup6 K C E (World.start skb ct) secctx to_stack).2.2.calls.filterMap
        Event.metadata,
      (svc_lookup6 K C E (World.start skb ct) secctx to_stack).1 = K.TC_ACT_OK ∧
      (svc_lookup6 K C E (World.start skb ct) secctx to_stack).2.1 = true) := by
  generalize hr : svc_lookup6 K C E (World.start skb ct) secctx to_stack = r
  simp only [svc_lookup6, World.start, World.emit, Run.pure_bind] at hr
  repeat' first
    | (replace hr := call_bind_inv hr; obtain ⟨x, hr⟩ := hr; try dsimp only at hr)
    | (replace hr := ite_inv hr; rcases hr with ⟨h, hr⟩ | ⟨h, hr⟩)
    | split at hr
  all_goals (simp only [Run.run_pure] at hr; subst hr)
  all_goals simp_all [Event.tail_call, Event.lb_miss, Event.lb_rewrite_step, Event.backend6,
    Event.xlate6, Event.type_change, Event.metadata]
  all_goals exact ⟨_, rfl⟩

/-- The hand-off logic shared by `handle_lb_ip4` and `handle_lb_ip6`: what
the handler does with the result `(ret, to_stack, w1)` of the service
lookup. -/
theorem lb_handoff {σ : Type} (K : Consts) (E : Env σ) (index : Nat) (ret : Int)
    (ts : Bool) (w1 : World σ) (x : Exit × World σ)
    (S1 : w1.calls.filterMap Event.tail_call = [])
    (S2 : (∃ e ∈ w1.calls, e.lb_miss = true) →
      ret = K.TC_ACT_OK ∧ ts = false ∧ ∀ e ∈ w1.calls, e.lb_rewrite_step = false)
    (S4 : ∀ m ∈ w1.calls.filterMap Event.metadata, ret = K.TC_ACT_OK ∧ ts = true)
    (hx : x =
      if K.IS_ERR ret = true then (Exit.returned ret, w1)
      else if ts = true then (Exit.returned K.TC_ACT_OK, w1)
      else if E.ep_tail_call w1.ct w1.skb index = true then
        (Exit.tail_called, w1.emit (Event.ep_tail_call index true))
      else (Exit.returned K.DROP_MISSED_TAIL_CALL, w1.emit (Event.ep_tail_call index false))) :
    (K.IS_ERR K.TC_ACT_OK = false →
      ((∃ e ∈ x.2.calls, e.lb_miss = true) →
        (∀ e ∈ x.2.calls, e.lb_rewrite_step = false) ∧
        ∃ taken, x.2.calls.filterMap Event.tail_call = [(index, taken)] ∧
          (taken = true → x.1 = Exit.tail_called) ∧
          (taken = false → x.1 = Exit.returned K.DROP_MISSED_TAIL_CALL)) ∧
      ((∃ m, m ∈ x.2.calls.filterMap Event.metadata) →
        x.1 = Exit.returned K.TC_ACT_OK ∧ x.2.calls.filterMap Event.tail_call = [])) ∧
    (∀ i, (i, false) ∈ x.2.calls.filterMap Event.tail_call →
      i = index ∧ x.1 = Exit.returned K.DROP_MISSED_TAIL_CALL) := by
  subst hx
  have hmemt : ∀ (t : Bool) (e : Event), e ∈ (w1.emit (Event.ep_tail_call index t)).calls →
      e ∈ w1.calls ∨ e = Event.ep_tail_call index t := by
    intro t e he
    simpa [World.emit] using he
  have htc : ∀ t : Bool, (w1.emit (Event.ep_tail_call index t)).calls.filterMap Event.tail_call =
      [(index, t)] := by
    intro t
    simp [World.emit, List.filterMap_append, S1, Event.tail_call]
  have hmd : ∀ t : Bool, (w1.emit (Event.ep_tail_call index t)).calls.filterMap Event.metadata =
      w1.calls.filterMap Event.metadata := by
    intro t
    simp [World.emit, List.filterMap_append, Event.metadata]
  have hmiss : ∀ t : Bool,
      (∃ e ∈ (w1.emit (Event.ep_tail_call index t)).calls, e.lb_miss = true) →
      ∃ e ∈ w1.calls, e.lb_miss = true := by
    rintro t ⟨e, he, hm⟩
    rcases hmemt t e he with he | rfl
    · exact ⟨e, he, hm⟩
    · simp [Event.lb_miss] at hm
  have hrw : ∀ t : Bool, (∀ e ∈ w1.calls, e.lb_rewrite_step = false) →
      ∀ e ∈ (w1.emit (Event.ep_tail_call index t)).calls, e.lb_rewrite_step = false := by
    intro t h e he
    rcases hmemt t e he with he | rfl
    · exact h e he
    · rfl
  by_cases herr : K.IS_ERR ret = true
  · simp only [if_pos herr]
    refine ⟨fun hok => ⟨fun hm => ?_, fun ⟨m, hm⟩ => ?_⟩, fun i hi => ?_⟩
    · have h := (S2 hm).1
      rw [h, hok] at herr
      cases herr
    · have h := (S4 m hm).1
      rw [h, hok] at herr
      cases herr
    · simp [S1] at hi
  · simp only [if_neg herr]
    by_cases hts : ts = true
    · simp only [if_pos hts]
      refine ⟨fun hok => ⟨fun hm => ?_, fun _ => ⟨by simp, S1⟩⟩, fun i hi => ?_⟩
      · have h := (S2 hm).2.1
        rw [h] at hts
        cases hts
      · simp [S1] at hi
    · simp only [if_neg hts]
      by_cases htk : E.ep_tail_call w1.ct w1.skb index = true
      · simp only [if_pos htk]
        refine ⟨fun hok => ⟨fun hm => ⟨hrw true (S2 (hmiss true hm)).2.2, true, htc true,
          by simp, by simp⟩, fun ⟨m, hm⟩ => ?_⟩, fun i hi => ?_⟩
        · rw [hmd] at hm
          exact absurd (S4 m hm).2 hts
        · simp [htc] at hi
      · simp only [if_neg htk]
        refine ⟨fun hok => ⟨fun hm => ⟨hrw false (S2 (hmiss false hm)).2.2, false, htc false,
          by simp, by simp⟩, fun ⟨m, hm⟩ => ?_⟩, fun i hi => ?_⟩
        · rw [hmd] at hm
          exact absurd (S4 m hm).2 hts
        · simp [htc] at hi
          simp [hi]

/-- What `handle_lb_ip4` does with the result of `svc_lookup4`. -/
theorem handle_lb_ip4_paths {σ : Type} (K : Consts) (C : Config) (E : Env σ) (skb : SkBuff)
    (ct : σ) :
    (K.IS_ERR K.TC_ACT_OK = false →
      ((∃ e ∈ (handle_lb_ip4 K C E (World.start skb ct)).2.calls, e.lb_miss = true) →
        (∀ e ∈ (handle_lb_ip4 K C E (World.start skb ct)).2.calls, e.lb_rewrite_step = false) ∧
        ∃ taken, (handle_lb_ip4 K C E (World.start skb ct)).2.calls.filterMap Event.tail_call =
            [(K.CILIUM_CALL_IPV4, taken)] ∧
          (taken = true → (handle_lb_ip4 K C E (World.start skb ct)).1 = Exit.tail_called) ∧
          (taken = false → (handle_lb_ip4 K C E (World.start skb ct)).1 =
            Exit.returned K.DROP_MISSED_TAIL_CALL)) ∧
      ((∃ m, m ∈ (handle_lb_ip4 K C E (World.start skb ct)).2.calls.filterMap Event.metadata) →
        (handle_lb_ip4 K C E (World.start skb ct)).1 = Exit.returned K.TC_ACT_OK ∧
        (handle_lb_ip4 K C E (World.start skb ct)).2.calls.filterMap Event.tail_call = [])) ∧
    (∀ i, (i, false) ∈
        (handle_lb_ip4 K C E (World.start skb ct)).2.calls.filterMap Event.tail_call →
      i = K.CILIUM_CALL_IPV4 ∧
      (handle_lb_ip4 K C E (World.start skb ct)).1 = Exit.returned K.DROP_MISSED_TAIL_CALL) := by
  by_cases hs : skb.data + K.sizeof_iphdr + K.ETH_HLEN > skb.data_end
  · have h0 : handle_lb_ip4 K C E (World.start skb ct) =
        (Exit.returned K.DROP_INVALID, World.start skb ct) := by
      have hs' : (World.start skb ct).skb.data + K.sizeof_iphdr + K.ETH_HLEN >
          (World.start skb ct).skb.data_end := hs
      simp only [handle_lb_ip4, Id.run, pure, if_pos hs']
    rw [h0]
    simp [World.start]
  · obtain ⟨⟨S1, -⟩, S2, -, S4⟩ := svc_lookup4_forward K C E
      (derive_identity_and_revnat K C skb none).2.2 ct
      (derive_identity_and_revnat K C skb none).1 false
    refine lb_handoff K E K.CILIUM_CALL_IPV4 _ _ _ _ S1
      (fun h => ⟨(S2 h).1, (S2 h).2.1, (S2 h).2.2.1⟩) S4 ?_
    have hs' : ¬ (World.start skb ct).skb.data + K.sizeof_iphdr + K.ETH_HLEN >
        (World.start skb ct).skb.data_end := hs
    simp only [handle_lb_ip4, Run.call_bind, Run.pure_bind, World.emit, if_neg hs']
    split_ifs <;> simp_all [Run.run_pure, World.start]


/-- What `handle_lb_ip6` does with the result of `svc_lookup6`. -/
theorem handle_lb_ip6_paths {σ : Type} (K : Consts) (C : Config) (E : Env σ) (skb : SkBuff)
    (ct : σ) :
    (K.IS_ERR K.TC_ACT_OK = false →
      ((∃ e ∈ (handle_lb_ip6 K C E (World.start skb ct)).2.calls, e.lb_miss = true) →
        (∀ e ∈ (handle_lb_ip6 K C E (World.start skb ct)).2.calls, e.lb_rewrite_step = false) ∧
        ∃ taken, (handle_lb_ip6 K C E (World.start skb ct)).2.calls.filterMap Event.tail_call =
            [(K.CILIUM_CALL_IPV6, taken)] ∧
          (taken = true → (handle_lb_ip6 K C E (World.start skb ct)).1 = Exit.tail_called) ∧
          (taken = false → (handle_lb_ip6 K C E (World.start skb ct)).1 =
            Exit.returned K.DROP_MISSED_TAIL_CALL)) ∧
      ((∃ m, m ∈ (handle_lb_ip6 K C E (World.start skb ct)).2.calls.filterMap Event.metadata) →
        (handle_lb_ip6 K C E (World.start skb ct)).1 = Exit.returned K.TC_ACT_OK ∧
        (handle_lb_ip6 K C E (World.start skb ct)).2.calls.filterMap Event.tail_call = [])) ∧
    (∀ i, (i, false) ∈
        (handle_lb_ip6 K C E (World.start skb ct)).2.calls.filterMap Event.tail_call →
      i = K.CILIUM_CALL_IPV6 ∧
      (handle_lb_ip6 K C E (World.start skb ct)).1 = Exit.returned K.DROP_MISSED_TAIL_CALL) := by
  by_cases hs : skb.data + K.ETH_HLEN + K.sizeof_ipv6hdr > skb.data_end
  · have h0 : handle_lb_ip6 K C E (World.start skb ct) =
        (Exit.returned K.DROP_INVALID, World.start skb ct) := by
      have hs' : (World.start skb ct).skb.data + K.ETH_HLEN + K.sizeof_ipv6hdr >
          (World.start skb ct).skb.data_end := hs
      simp only [handle_lb_ip6, Id.run, pure, if_pos hs']
    rw [h0]
    simp [World.start]
  · obtain ⟨⟨S1, -⟩, S2, -, S4⟩ := svc_lookup6_forward K C E
      (derive_ip6_identity_and_revnat K C skb C.ROUTER_IP).2 ct
      (derive_ip6_identity_and_revnat K C skb C.ROUTER_IP).1 false
    refine lb_handoff K E K.CILIUM_CALL_IPV6 _ _ _ _ S1
      (fun h => ⟨(S2 h).1, (S2 h).2.1, (S2 h).2.2.1⟩) S4 ?_
    have hs' : ¬ (World.start skb ct).skb.data + K.ETH_HLEN + K.sizeof_ipv6hdr >
        (World.start skb ct).skb.data_end := hs
    simp only [handle_lb_ip6, Run.call_bind, Run.pure_bind, World.emit, if_neg hs']
    split_ifs <;> simp_all [Run.run_pure, World.start]

/-! ## The entry point and the main stage -/

/-- The paths of `from_netdev`. -/
theorem from_netdev_paths {σ : Type} (K : Consts) (C : Config) (E : Env σ) (skb : SkBuff)
    (ct : σ) :
    ((from_netdev K C E (World.start skb ct)).2.skb = E.bpf_clear_cb skb ∧
      (from_netdev K C E (World.start skb ct)).2.ct = ct) ∧
    ((E.bpf_clear_cb skb).protocol ≠ K.htons_ETH_P_IPV6 →
      (E.bpf_clear_cb skb).protocol ≠ K.htons_ETH_P_IP →
      (from_netdev K C E (World.start skb ct)).1 = Exit.returned K.TC_ACT_OK ∧
      (from_netdev K C E (World.start skb ct)).2.calls.filterMap Event.tail_call = [] ∧
      (from_netdev K C E (World.start skb ct)).2.calls.filterMap Event.drop_exit = []) ∧
    ((E.bpf_clear_cb skb).protocol = K.htons_ETH_P_IPV6 ∨
        (E.bpf_clear_cb skb).protocol = K.htons_ETH_P_IP →
      (∀ x ∈ (from_netdev K C E (World.start skb ct)).2.calls.filterMap Event.tail_call,
        x.2 = false) →
      (from_netdev K C E (World.start skb ct)).2.calls.filterMap Event.error_notice =
        [(K.DROP_MISSED_TAIL_CALL, K.TC_ACT_OK,
          E.send_drop_notify_error (E.bpf_clear_cb skb) K.DROP_MISSED_TAIL_CALL K.TC_ACT_OK)] ∧
      (from_netdev K C E (World.start skb ct)).2.calls.filterMap Event.policy_notice = [] ∧
      (from_netdev K C E (World.start skb ct)).1 =
        Exit.returned
          (E.send_drop_notify_error (E.bpf_clear_cb skb) K.DROP_MISSED_TAIL_CALL K.TC_ACT_OK)) := by
  generalize hr : from_netdev K C E (World.start skb ct) = r
  simp only [from_netdev, World.start, World.emit, Run.pure_bind] at hr
  repeat' first
    | (replace hr := call_bind_eq hr; obtain ⟨x, hx, hr⟩ := hr; try dsimp only at hr)
    | (replace hr := ite_inv hr; rcases hr with ⟨h, hr⟩ | ⟨h, hr⟩)
    | split at hr
  all_goals (simp only [Run.run_pure] at hr; subst hr)
  all_goals simp_all [Event.tail_call, Event.drop_exit, Event.error_notice, Event.policy_notice]

set_option maxHeartbeats 2000000 in
/-- The path of `handle_ipv4` for a destination outside the cluster range. -/
theorem handle_ipv4_outside {σ : Type} (K : Consts) (C : Config) (E : Env σ) (skb : SkBuff)
    (ct : σ)
    (hvalid : ¬ skb.data + K.sizeof_iphdr + K.ETH_HLEN > skb.data_end)
    (hout : skb.ip4.daddr &&& C.IPV4_CLUSTER_MASK ≠ C.IPV4_CLUSTER_RANGE) :
    (handle_ipv4 K C E (World.start skb ct)).1 = K.TC_ACT_OK ∧
    (∃ c st, (handle_ipv4 K C E (World.start skb ct)).2.calls.filterMap Event.ct_lookup_result =
        [(K.CT_EGRESS, c, st)] ∧
      (c = K.CT_REPLY ∧ st.rev_nat_index ≠ 0 →
        ∃ ret, (handle_ipv4 K C E (World.start skb ct)).2.calls.filterMap Event.rev_nat_result =
          [(st.rev_nat_index, ret)]) ∧
      (¬ (c = K.CT_REPLY ∧ st.rev_nat_index ≠ 0) →
        (handle_ipv4 K C E (World.start skb ct)).2.calls.filterMap Event.rev_nat_result = [])) ∧
    (handle_ipv4 K C E (World.start skb ct)).2.calls.filterMap Event.endpoint_lookup = [] ∧
    (handle_ipv4 K C E (World.start skb ct)).2.calls.filterMap Event.local_delivery = [] ∧
    (handle_ipv4 K C E (World.start skb ct)).2.calls.filterMap Event.encap = [] := by
  have hf := derive_identity_and_revnat_frame K C skb (some 0)
  generalize hr : handle_ipv4 K C E (World.start skb ct) = r
  simp only [handle_ipv4, World.start, World.emit, Run.pure_bind] at hr
  repeat' first
    | (replace hr := call_bind_inv hr; obtain ⟨x, hr⟩ := hr; try dsimp only at hr)
    | (replace hr := ite_inv hr; rcases hr with ⟨h, hr⟩ | ⟨h, hr⟩)
    | split at hr
  all_goals (simp only [Run.run_pure] at hr; subst hr)
  all_goals simp_all [Event.ct_lookup_result, Event.rev_nat_result, Event.endpoint_lookup,
    Event.local_delivery, Event.encap]
  all_goals (refine ⟨_, _, ⟨rfl, rfl⟩, ?_⟩; simp_all)

set_option maxHeartbeats 2000000 in
/-- The ICMPv6 hand-off of `handle_ipv6`. -/
theorem handle_ipv6_icmp {σ : Type} (K : Consts) (C : Config) (E : Env σ) (skb : SkBuff)
    (ct : σ)
    (hns : C.HANDLE_NS = true)
    (hvalid : ¬ skb.data + K.ETH_HLEN + K.sizeof_ipv6hdr > skb.data_end)
    (hicmp : (E.ipv6_hdrlen skb K.ETH_HLEN skb.ip6.nexthdr).2 = K.IPPROTO_ICMPV6) :
    (handle_ipv6 K C E (World.start skb ct)).2.calls.filterMap Event.icmp6_result =
      [(E.icmp6_handle skb K.ETH_HLEN skb.ip6).1] ∧
    (K.IS_ERR (E.icmp6_handle skb K.ETH_HLEN skb.ip6).1 = true →
      handle_ipv6 K C E (World.start skb ct) =
        ((E.icmp6_handle skb K.ETH_HLEN skb.ip6).1,
          { skb := (E.icmp6_handle skb K.ETH_HLEN skb.ip6).2, ct := ct,
            calls := [Event.icmp6_handle (E.icmp6_handle skb K.ETH_HLEN skb.ip6).1] })) ∧
    (K.IS_ERR (E.icmp6_handle skb K.ETH_HLEN skb.ip6).1 = false →
      ∃ e rest, (handle_ipv6 K C E (World.start skb ct)).2.calls =
        Event.icmp6_handle (E.icmp6_handle skb K.ETH_HLEN skb.ip6).1 :: e :: rest) := by
  generalize hr : handle_ipv6 K C E (World.start skb ct) = r
  simp only [handle_ipv6, World.start, World.emit, Run.pure_bind] at hr
  repeat' first
    | (replace hr := call_bind_eq hr; obtain ⟨x, hx, hr⟩ := hr; try dsimp only at hr)
    | (replace hr := ite_inv hr; rcases hr with ⟨h, hr⟩ | ⟨h, hr⟩)
    | split at hr
  all_goals (simp only [Run.run_pure] at hr; subst hr)
  all_goals simp_all [Event.icmp6_result]

/-! ## The entry point -/

/-- C14: when the packet is neither IPv4 nor IPv6, under every configuration,
`from_netdev` returns `TC_ACT_OK`, makes no tail call and no drop
notification, and returns the packet as `bpf_clear_cb` left it: with a
`bpf_clear_cb` that writes the `cb` array only, the bounds, the headers, the
protocol, `mark`, `tc_index` and the interface of the packet are those it
came with, and the tracker store is untouched. -/
theorem unknown_l3_to_stack {σ : Type} (K : Consts) (C : Config) (E : Env σ) (skb : SkBuff)
    (ct : σ)
    (hclear : E.bpf_clear_cb skb = { skb with cb := (E.bpf_clear_cb skb).cb })
    (h6 : skb.protocol ≠ K.htons_ETH_P_IPV6) (h4 : skb.protocol ≠ K.htons_ETH_P_IP) :
    (from_netdev K C E (World.start skb ct)).1 = Exit.returned K.TC_ACT_OK ∧
    (from_netdev K C E (World.start skb ct)).2.calls.filterMap Event.tail_call = [] ∧
    (from_netdev K C E (World.start skb ct)).2.calls.filterMap Event.drop_exit = [] ∧
    (from_netdev K C E (World.start skb ct)).2.skb =
      { skb with cb := (E.bpf_clear_cb skb).cb } ∧
    (from_netdev K C E (World.start skb ct)).2.skb.mark = skb.mark ∧
    (from_netdev K C E (World.start skb ct)).2.skb.tc_index = skb.tc_index ∧
    (from_netdev K C E (World.start skb ct)).2.skb.data = skb.data ∧
    (from_netdev K C E (World.start skb ct)).2.skb.data_end = skb.data_end ∧
    (from_netdev K C E (World.start skb ct)).2.skb.ip4 = skb.ip4 ∧
    (from_netdev K C E (World.start skb ct)).2.skb.ip6 = skb.ip6 ∧
    (from_netdev K C E (World.start skb ct)).2.ct = ct := by
  have hp : (E.bpf_clear_cb skb).protocol = skb.protocol := by rw [hclear]
  obtain ⟨⟨hskb, hct⟩, hunk, -⟩ := from_netdev_paths K C E skb ct
  obtain ⟨hret, htail, hdrop⟩ := hunk (by rw [hp]; exact h6) (by rw [hp]; exact h4)
  have hskb' : (from_netdev K C E (World.start skb ct)).2.skb =
      { skb with cb := (E.bpf_clear_cb skb).cb } := by rw [hskb]; exact hclear
  refine ⟨hret, htail, hdrop, hskb', ?_, ?_, ?_, ?_, ?_, ?_, hct⟩ <;> rw [hskb']

/-- C14 at an ARP frame with mark 7 and `tc_index` 3, in the from-host
build. -/
theorem unknown_l3_to_stack_witness :
    (from_netdev sampleConsts sampleConfigHost sampleEnv (World.start arpPacket [])).1 =
      Exit.returned sampleConsts.TC_ACT_OK ∧
    (from_netdev sampleConsts sampleConfigHost sampleEnv
      (World.start arpPacket [])).2.calls.filterMap Event.tail_call = [] ∧
    (from_netdev sampleConsts sampleConfigHost sampleEnv
      (World.start arpPacket [])).2.calls.filterMap Event.drop_exit = [] ∧
    (from_netdev sampleConsts sampleConfigHost sampleEnv (World.start arpPacket [])).2.skb.mark =
      7 ∧
    (from_netdev sampleConsts sampleConfigHost sampleEnv
      (World.start arpPacket [])).2.skb.tc_index = 3 :=
  ⟨(unknown_l3_to_stack sampleConsts sampleConfigHost sampleEnv arpPacket [] rfl (by decide)
      (by decide)).1,
   (unknown_l3_to_stack sampleConsts sampleConfigHost sampleEnv arpPacket [] rfl (by decide)
      (by decide)).2.1,
   (unknown_l3_to_stack sampleConsts sampleConfigHost sampleEnv arpPacket [] rfl (by decide)
      (by decide)).2.2.1,
   (unknown_l3_to_stack sampleConsts sampleConfigHost sampleEnv arpPacket [] rfl (by decide)
      (by decide)).2.2.2.2.1,
   (unknown_l3_to_stack sampleConsts sampleConfigHost sampleEnv arpPacket [] rfl (by decide)
      (by decide)).2.2.2.2.2.1⟩

/-- An error returned by `handle_lb_ip4` is reported by `tail_handle_lb_ip4`
with the exit code `TC_ACT_OK`. -/
theorem tail_handle_lb_ip4_error {σ : Type} (K : Consts) (C : Config) (E : Env σ)
    (w : World σ) (ret : Int)
    (hret : (handle_lb_ip4 K C E w).1 = Exit.returned ret) (herr : K.IS_ERR ret = true) :
    tail_handle_lb_ip4 K C E w =
      (Exit.returned (E.send_drop_notify_error (handle_lb_ip4 K C E w).2.skb ret K.TC_ACT_OK),
        (handle_lb_ip4 K C E w).2.emit (Event.send_drop_notify_error ret K.TC_ACT_OK
          (E.send_drop_notify_error (handle_lb_ip4 K C E w).2.skb ret K.TC_ACT_OK))) := by
  rcases hb : handle_lb_ip4 K C E w with ⟨x, w1⟩
  rw [hb] at hret
  simp only at hret
  subst hret
  simp [tail_handle_lb_ip4, Run.call_bind, Run.run_pure, hb, herr]

/-- An error returned by `handle_lb_ip6` is reported by `tail_handle_lb_ip6`
with the exit code `TC_ACT_OK`. -/
theorem tail_handle_lb_ip6_error {σ : Type} (K : Consts) (C : Config) (E : Env σ)
    (w : World σ) (ret : Int)
    (hret : (handle_lb_ip6 K C E w).1 = Exit.returned ret) (herr : K.IS_ERR ret = true) :
    tail_handle_lb_ip6 K C E w =
      (Exit.returned (E.send_drop_notify_error (handle_lb_ip6 K C E w).2.skb ret K.TC_ACT_OK),
        (handle_lb_ip6 K C E w).2.emit (Event.send_drop_notify_error ret K.TC_ACT_OK
          (E.send_drop_notify_error (handle_lb_ip6 K C E w).2.skb ret K.TC_ACT_OK))) := by
  rcases hb : handle_lb_ip6 K C E w with ⟨x, w1⟩
  rw [hb] at hret
  simp only at hret
  subst hret
  simp [tail_handle_lb_ip6, Run.call_bind, Run.run_pure, hb, herr]

/-- C15: for an IPv4 or IPv6 packet (the protocol field as read after
`bpf_clear_cb`), when no tail call of `from_netdev` is taken, be it that the
call fell through or that no stage is configured for the protocol,
`from_netdev` reports `DROP_MISSED_TAIL_CALL` through
`send_drop_notify_error` with the exit code `TC_ACT_OK` and returns what the
hook returns, which is `TC_ACT_OK` for a hook that returns its exit code.
When the tail call of `handle_lb_ip4` / `handle_lb_ip6` is not taken, it was
the call to the main stage of the family, the handler returns
`DROP_MISSED_TAIL_CALL`, and (that being an error) the tail entry point
reports it with the exit code `TC_ACT_OK` and returns what the hook
returns. -/
theorem missed_stage_fail_open {σ : Type} (K : Consts) (C : Config) (E : Env σ) (skb : SkBuff)
    (ct : σ) :
    ((E.bpf_clear_cb skb).protocol = K.htons_ETH_P_IPV6 ∨
        (E.bpf_clear_cb skb).protocol = K.htons_ETH_P_IP →
      (∀ x ∈ (from_netdev K C E (World.start skb ct)).2.calls.filterMap Event.tail_call,
        x.2 = false) →
      (from_netdev K C E (World.start skb ct)).2.calls.filterMap Event.error_notice =
        [(K.DROP_MISSED_TAIL_CALL, K.TC_ACT_OK,
          E.send_drop_notify_error (E.bpf_clear_cb skb) K.DROP_MISSED_TAIL_CALL K.TC_ACT_OK)] ∧
      (from_netdev K C E (World.start skb ct)).2.calls.filterMap Event.policy_notice = [] ∧
      (from_netdev K C E (World.start skb ct)).1 =
        Exit.returned
          (E.send_drop_notify_error (E.bpf_clear_cb skb) K.DROP_MISSED_TAIL_CALL K.TC_ACT_OK) ∧
      ((∀ s r x, E.send_drop_notify_error s r x = x) →
        (from_netdev K C E (World.start skb ct)).1 = Exit.returned K.TC_ACT_OK)) ∧
    (∀ (f : Family) (i : Nat), (i, false) ∈
        (handle_lb_fn f K C E (World.start skb ct)).2.calls.filterMap Event.tail_call →
      i = main_stage_index K f ∧
      (handle_lb_fn f K C E (World.start skb ct)).1 = Exit.returned K.DROP_MISSED_TAIL_CALL ∧
      (K.IS_ERR K.DROP_MISSED_TAIL_CALL = true →
        stage_entry (Stage.lb f) K C E (World.start skb ct) =
          (Exit.returned (E.send_drop_notify_error
              (handle_lb_fn f K C E (World.start skb ct)).2.skb K.DROP_MISSED_TAIL_CALL
              K.TC_ACT_OK),
            (handle_lb_fn f K C E (World.start skb ct)).2.emit
              (Event.send_drop_notify_error K.DROP_MISSED_TAIL_CALL K.TC_ACT_OK
                (E.send_drop_notify_error (handle_lb_fn f K C E (World.start skb ct)).2.skb
                  K.DROP_MISSED_TAIL_CALL K.TC_ACT_OK))))) := by
  refine ⟨fun hip hmiss => ?_, fun f i hi => ?_⟩
  · obtain ⟨h1, h2, h3⟩ := (from_netdev_paths K C E skb ct).2.2 hip hmiss
    refine ⟨h1, h2, h3, fun hhook => ?_⟩
    rw [h3, hhook]
  · cases f
    · obtain ⟨hidx, hret⟩ := (handle_lb_ip4_paths K C E skb ct).2 i hi
      exact ⟨hidx, hret, fun herr => tail_handle_lb_ip4_error K C E _ _ hret herr⟩
    · obtain ⟨hidx, hret⟩ := (handle_lb_ip6_paths K C E skb ct).2 i hi
      exact ⟨hidx, hret, fun herr => tail_handle_lb_ip6_error K C E _ _ hret herr⟩

/-- C15 with a stage table in which no tail call succeeds: `from_netdev` on
the sample IPv4 packet reports the missed tail call and returns `TC_ACT_OK`;
`handle_lb_ip4` returns `DROP_MISSED_TAIL_CALL`. -/
theorem missed_stage_fail_open_witness :
    ((from_netdev sampleConsts sampleConfig sampleEnvNoTailCall
        (World.start samplePacket4 [])).2.calls.filterMap Event.error_notice =
        [(sampleConsts.DROP_MISSED_TAIL_CALL, sampleConsts.TC_ACT_OK,
          sampleEnvNoTailCall.send_drop_notify_error (sampleEnvNoTailCall.bpf_clear_cb samplePacket4)
            sampleConsts.DROP_MISSED_TAIL_CALL sampleConsts.TC_ACT_OK)] ∧
      (from_netdev sampleConsts sampleConfig sampleEnvNoTailCall
        (World.start samplePacket4 [])).1 = Exit.returned sampleConsts.TC_ACT_OK) ∧
    (handle_lb_fn Family.ipv4 sampleConsts sampleConfig sampleEnvNoTailCall
      (World.start samplePacket4 [])).1 = Exit.returned sampleConsts.DROP_MISSED_TAIL_CALL :=
  ⟨⟨((missed_stage_fail_open sampleConsts sampleConfig sampleEnvNoTailCall samplePacket4 []).1
        (Or.inr rfl) (by with_unfolding_all decide)).1,
    ((missed_stage_fail_open sampleConsts sampleConfig sampleEnvNoTailCall samplePacket4 []).1
        (Or.inr rfl) (by with_unfolding_all decide)).2.2.2 (fun _ _ _ => rfl)⟩,
   ((missed_stage_fail_open sampleConsts sampleConfig sampleEnvNoTailCall samplePacket4 []).2
      Family.ipv4 7 (by with_unfolding_all decide)).2.1⟩

/-! ## Results of the service lookup -/

set_option maxHeartbeats 4000000 in
/-- When both lookups succeed, `svc_lookup4` uses the backend found. -/
theorem svc_lookup4_backend {σ : Type} (K : Consts) (C : Config) (E : Env σ) (skb : SkBuff)
    (ct : σ) (secctx : Nat) (to_stack : Bool) (b : lb4_service)
    (hb : lb4_lookups_succeed K C E skb ct b) :
    b ∈ (svc_lookup4 K C E (World.start skb ct) secctx to_stack).2.2.calls.filterMap
      Event.backend4 := by
  obtain ⟨hrev, hport, svc, hsvc, hbk⟩ := hb
  generalize hr : svc_lookup4 K C E (World.start skb ct) secctx to_stack = r
  simp only [svc_lookup4, World.start, World.emit, Run.pure_bind] at hr
  repeat' first
    | (replace hr := call_bind_eq hr; obtain ⟨x, hx, hr⟩ := hr; try dsimp only at hr)
    | (replace hr := ite_inv hr; rcases hr with ⟨h, hr⟩ | ⟨h, hr⟩)
    | split at hr
  all_goals (simp only [Run.run_pure] at hr; subst hr)
  all_goals subst_vars
  all_goals (cases hH : C.FROM_HOST <;> cases hN : C.FROM_NAT <;>
    simp_all [Event.backend4, svc_lookup4_ct, svc_lookup4_tuple, svc_lookup4_port,
      svc_lookup4_key])

set_option maxHeartbeats 4000000 in
/-- When both lookups succeed, `svc_lookup6` uses the backend found. -/
theorem svc_lookup6_backend {σ : Type} (K : Consts) (C : Config) (E : Env σ) (skb : SkBuff)
    (ct : σ) (secctx : Nat) (to_stack : Bool) (b : lb6_service)
    (hb : lb6_lookups_succeed K C E skb ct b) :
    b ∈ (svc_lookup6 K C E (World.start skb ct) secctx to_stack).2.2.calls.filterMap
      Event.backend6 := by
  obtain ⟨hrev, hport, svc, hsvc, hbk⟩ := hb
  generalize hr : svc_lookup6 K C E (World.start skb ct) secctx to_stack = r
  simp only [svc_lookup6, World.start, World.emit, Run.pure_bind] at hr
  repeat' first
    | (replace hr := call_bind_eq hr; obtain ⟨x, hx, hr⟩ := hr; try dsimp only at hr)
    | (replace hr := ite_inv hr; rcases hr with ⟨h, hr⟩ | ⟨h, hr⟩)
    | split at hr
  all_goals (simp only [Run.run_pure] at hr; subst hr)
  all_goals subst_vars
  all_goals (cases hH : C.FROM_HOST <;> cases hN : C.FROM_NAT <;>
    simp_all [Event.backend6, svc_lookup6_ct, svc_lookup6_tuple, svc_lookup6_port,
      svc_lookup6_key])

/-- The hand-off of `handle_lb_ip4` and `handle_lb_ip6` when the service
lookup failed or asked for the stack: the handler returns at once, in the
world the lookup left. -/
theorem lb_stack_handoff {σ : Type} (K : Consts) (E : Env σ) (index : Nat) (ret : Int)
    (ts : Bool) (w1 : World σ) (x : Exit × World σ)
    (hx : x =
      if K.IS_ERR ret = true then (Exit.returned ret, w1)
      else if ts = true then (Exit.returned K.TC_ACT_OK, w1)
      else if E.ep_tail_call w1.ct w1.skb index = true then
        (Exit.tail_called, w1.emit (Event.ep_tail_call index true))
      else (Exit.returned K.DROP_MISSED_TAIL_CALL, w1.emit (Event.ep_tail_call index false)))
    (hts : K.IS_ERR ret = true ∨ ts = true) :
    x.2 = w1 ∧ x.1 = Exit.returned (if K.IS_ERR ret = true then ret else K.TC_ACT_OK) := by
  subst hx
  by_cases herr : K.IS_ERR ret = true
  · simp [herr]
  · have h : ts = true := hts.resolve_left herr
    simp [herr, h]

/-- On a packet whose IPv4 header is in bounds, `handle_lb_ip4` derives the
identity, runs `svc_lookup4` with it and hands off on its result. -/
theorem handle_lb_ip4_eq {σ : Type} (K : Consts) (C : Config) (E : Env σ) (skb : SkBuff)
    (ct : σ) (hvalid : ¬ skb.data + K.sizeof_iphdr + K.ETH_HLEN > skb.data_end) :
    handle_lb_ip4 K C E (World.start skb ct) =
      if K.IS_ERR (svc_lookup4 K C E (World.start (derive_identity_and_revnat K C skb none).2.2 ct)
          (derive_identity_and_revnat K C skb none).1 false).1 = true then
        (Exit.returned (svc_lookup4 K C E
            (World.start (derive_identity_and_revnat K C skb none).2.2 ct)
            (derive_identity_and_revnat K C skb none).1 false).1,
          (svc_lookup4 K C E (World.start (derive_identity_and_revnat K C skb none).2.2 ct)
            (derive_identity_and_revnat K C skb none).1 false).2.2)
      else if (svc_lookup4 K C E (World.start (derive_identity_and_revnat K C skb none).2.2 ct)
          (derive_identity_and_revnat K C skb none).1 false).2.1 = true then
        (Exit.returned K.TC_ACT_OK,
          (svc_lookup4 K C E (World.start (derive_identity_and_revnat K C skb none).2.2 ct)
            (derive_identity_and_revnat K C skb none).1 false).2.2)
      else if E.ep_tail_call
          (svc_lookup4 K C E (World.start (derive_identity_and_revnat K C skb none).2.2 ct)
            (derive_identity_and_revnat K C skb none).1 false).2.2.ct
          (svc_lookup4 K C E (World.start (derive_identity_and_revnat K C skb none).2.2 ct)
            (derive_identity_and_revnat K C skb none).1 false).2.2.skb
          K.CILIUM_CALL_IPV4 = true then
        (Exit.tail_called,
          (svc_lookup4 K C E (World.start (derive_identity_and_revnat K C skb none).2.2 ct)
            (derive_identity_and_revnat K C skb none).1 false).2.2.emit
            (Event.ep_tail_call K.CILIUM_CALL_IPV4 true))
      else
        (Exit.returned K.DROP_MISSED_TAIL_CALL,
          (svc_lookup4 K C E (World.start (derive_identity_and_revnat K C skb none).2.2 ct)
            (derive_identity_and_revnat K C skb none).1 false).2.2.emit
            (Event.ep_tail_call K.CILIUM_CALL_IPV4 false)) := by
  have hs' : ¬ (World.start skb ct).skb.data + K.sizeof_iphdr + K.ETH_HLEN >
      (World.start skb ct).skb.data_end := hvalid
  simp only [handle_lb_ip4, Run.call_bind, Run.pure_bind, World.emit, if_neg hs']
  split_ifs <;> simp_all [Run.run_pure, World.start]

/-- The success path of `svc_lookup4` as `handle_lb_ip4` runs it. -/
theorem handle_lb_ip4_success {σ : Type} (K : Consts) (C : Config) (E : Env σ) (skb : SkBuff)
    (ct : σ) (b : lb4_service)
    (hvalid : ¬ skb.data + K.sizeof_iphdr + K.ETH_HLEN > skb.data_end)
    (hb : lb4_lookups_succeed K C E (derive_identity_and_revnat K C skb none).2.2 ct b) :
    (handle_lb_ip4 K C E (World.start skb ct)).2.calls.filterMap Event.backend4 = [b] ∧
    (handle_lb_ip4 K C E (World.start skb ct)).2.calls.filterMap Event.tail_call = [] ∧
    ∃ ret, (handle_lb_ip4 K C E (World.start skb ct)).2.calls.filterMap Event.xlate4 =
        [(b.target, b, ret)] ∧
      (K.IS_ERR ret = true →
        (handle_lb_ip4 K C E (World.start skb ct)).1 = Exit.returned ret ∧
        (handle_lb_ip4 K C E (World.start skb ct)).2.calls.filterMap Event.type_change = [] ∧
        (handle_lb_ip4 K C E (World.start skb ct)).2.calls.filterMap Event.metadata = []) ∧
      (K.IS_ERR ret = false →
        ∃ ret4, (handle_lb_ip4 K C E (World.start skb ct)).2.calls.filterMap
            Event.type_change = [(0, ret4)] ∧
          (ret4 < 0 →
            (handle_lb_ip4 K C E (World.start skb ct)).1 =
              Exit.returned (if K.IS_ERR K.DROP_WRITE_ERROR = true then K.DROP_WRITE_ERROR
                else K.TC_ACT_OK) ∧
            (handle_lb_ip4 K C E (World.start skb ct)).2.calls.filterMap Event.metadata = []) ∧
          (¬ ret4 < 0 →
            (handle_lb_ip4 K C E (World.start skb ct)).1 =
              Exit.returned K.TC_ACT_OK ∧
            (handle_lb_ip4 K C E (World.start skb ct)).2.calls.filterMap Event.metadata =
              [((derive_identity_and_revnat K C skb none).1, b.rev_nat_index)] ∧
            ∃ s, (handle_lb_ip4 K C E (World.start skb ct)).2.skb =
              encode_nat_metadata s (derive_identity_and_revnat K C skb none).1
                b.rev_nat_index)) := by
  have heq := handle_lb_ip4_eq K C E skb ct hvalid
  obtain ⟨⟨S1, -⟩, -, S3, -⟩ := svc_lookup4_forward K C E
    (derive_identity_and_revnat K C skb none).2.2 ct
    (derive_identity_and_revnat K C skb none).1 false
  obtain ⟨hB, ret, hX, hE, hN⟩ := S3 b (svc_lookup4_backend K C E
    (derive_identity_and_revnat K C skb none).2.2 ct
    (derive_identity_and_revnat K C skb none).1 false b hb)
  generalize svc_lookup4 K C E (World.start (derive_identity_and_revnat K C skb none).2.2 ct)
    (derive_identity_and_revnat K C skb none).1 false = r at heq S1 hB hX hE hN
  have hts : K.IS_ERR r.1 = true ∨ r.2.1 = true := by
    by_cases he : K.IS_ERR ret = true
    · left
      rw [(hE he).1]
      exact he
    · right
      exact (hN (by simpa using he)).1
  obtain ⟨h2, h1⟩ := lb_stack_handoff K E K.CILIUM_CALL_IPV4 r.1 r.2.1 r.2.2 _ heq hts
  rw [h2, h1]
  refine ⟨hB, S1, ret, hX, fun he => ?_, fun hn => ?_⟩
  · obtain ⟨e1, -, e3, e4⟩ := hE he
    refine ⟨?_, e3, e4⟩
    rw [e1, if_pos he]
  · obtain ⟨-, ret4, hT, hneg, hpos⟩ := hN hn
    refine ⟨ret4, hT, fun h => ?_, fun h => ?_⟩
    · obtain ⟨e1, e2⟩ := hneg h
      refine ⟨?_, e2⟩
      rw [e1]
    · obtain ⟨e1, e2, e3⟩ := hpos h
      refine ⟨?_, e2, e3⟩
      rw [e1, ite_self]

/-- On a packet whose IPv6 header is in bounds, `handle_lb_ip6` derives the
identity, runs `svc_lookup6` with it and hands off on its result. -/
theorem handle_lb_ip6_eq {σ : Type} (K : Consts) (C : Config) (E : Env σ) (skb : SkBuff)
    (ct : σ) (hvalid : ¬ skb.data + K.ETH_HLEN + K.sizeof_ipv6hdr > skb.data_end) :
    handle_lb_ip6 K C E (World.start skb ct) =
      if K.IS_ERR (svc_lookup6 K C E (World.start (derive_ip6_identity_and_revnat K C skb C.ROUTER_IP).2 ct)
          (derive_ip6_identity_and_revnat K C skb C.ROUTER_IP).1 false).1 = true then
        (Exit.returned (svc_lookup6 K C E
            (World.start (derive_ip6_identity_and_revnat K C skb C.ROUTER_IP).2 ct)
            (derive_ip6_identity_and_revnat K C skb C.ROUTER_IP).1 false).1,
          (svc_lookup6 K C E (World.start (derive_ip6_identity_and_revnat K C skb C.ROUTER_IP).2 ct)
            (derive_ip6_identity_and_revnat K C skb C.ROUTER_IP).1 false).2.2)
      else if (svc_lookup6 K C E (World.start (derive_ip6_identity_and_revnat K C skb C.ROUTER_IP).2 ct)
          (derive_ip6_identity_and_revnat K C skb C.ROUTER_IP).1 false).2.1 = true then
        (Exit.returned K.TC_ACT_OK,
          (svc_lookup6 K C E (World.start (derive_ip6_identity_and_revnat K C skb C.ROUTER_IP).2 ct)
            (derive_ip6_identity_and_revnat K C skb C.ROUTER_IP).1 false).2.2)
      else if E.ep_tail_call
          (svc_lookup6 K C E (World.start (derive_ip6_identity_and_revnat K C skb C.ROUTER_IP).2 ct)
            (derive_ip6_identity_and_revnat K C skb C.ROUTER_IP).1 false).2.2.ct
          (svc_lookup6 K C E (World.start (derive_ip6_identity_and_revnat K C skb C.ROUTER_IP).2 ct)
            (derive_ip6_identity_and_revnat K C skb C.ROUTER_IP).1 false).2.2.skb
          K.CILIUM_CALL_IPV6 = true then
        (Exit.tail_called,
          (svc_lookup6 K C E (World.start (derive_ip6_identity_and_revnat K C skb C.ROUTER_IP).2 ct)
            (derive_ip6_identity_and_revnat K C skb C.ROUTER_IP).1 false).2.2.emit
            (Event.ep_tail_call K.CILIUM_CALL_IPV6 true))
      else
        (Exit.returned K.DROP_MISSED_TAIL_CALL,
          (svc_lookup6 K C E (World.start (derive_ip6_identity_and_revnat K C skb C.ROUTER_IP).2 ct)
            (derive_ip6_identity_and_revnat K C skb C.ROUTER_IP).1 false).2.2.emit
            (Event.ep_tail_call K.CILIUM_CALL_IPV6 false)) := by
  have hs' : ¬ (World.start skb ct).skb.data + K.ETH_HLEN + K.sizeof_ipv6hdr >
      (World.start skb ct).skb.data_end := hvalid
  simp only [handle_lb_ip6, Run.call_bind, Run.pure_bind, World.emit, if_neg hs']
  split_ifs <;> simp_all [Run.run_pure, World.start]

/-- The success path of `svc_lookup6` as `handle_lb_ip6` runs it. -/
theorem handle_lb_ip6_success {σ : Type} (K : Consts) (C : Config) (E : Env σ) (skb : SkBuff)
    (ct : σ) (b : lb6_service)
    (hvalid : ¬ skb.data + K.ETH_HLEN + K.sizeof_ipv6hdr > skb.data_end)
    (hb : lb6_lookups_succeed K C E (derive_ip6_identity_and_revnat K C skb C.ROUTER_IP).2 ct b) :
    (handle_lb_ip6 K C E (World.start skb ct)).2.calls.filterMap Event.backend6 = [b] ∧
    (handle_lb_ip6 K C E (World.start skb ct)).2.calls.filterMap Event.tail_call = [] ∧
    ∃ ret, (handle_lb_ip6 K C E (World.start skb ct)).2.calls.filterMap Event.xlate6 =
        [({ b.target with p4 := b.target.p4 ||| b.rev_nat_index }, b, ret)] ∧
      (K.IS_ERR ret = true →
        (handle_lb_ip6 K C E (World.start skb ct)).1 = Exit.returned ret ∧
        (handle_lb_ip6 K C E (World.start skb ct)).2.calls.filterMap Event.type_change = [] ∧
        (handle_lb_ip6 K C E (World.start skb ct)).2.calls.filterMap Event.metadata = []) ∧
      (K.IS_ERR ret = false →
        ∃ ret4, (handle_lb_ip6 K C E (World.start skb ct)).2.calls.filterMap
            Event.type_change = [(0, ret4)] ∧
          (ret4 < 0 →
            (handle_lb_ip6 K C E (World.start skb ct)).1 =
              Exit.returned (if K.IS_ERR K.DROP_WRITE_ERROR = true then K.DROP_WRITE_ERROR
                else K.TC_ACT_OK) ∧
            (handle_lb_ip6 K C E (World.start skb ct)).2.calls.filterMap Event.metadata = []) ∧
          (¬ ret4 < 0 →
            (handle_lb_ip6 K C E (World.start skb ct)).1 =
              Exit.returned K.TC_ACT_OK ∧
            (handle_lb_ip6 K C E (World.start skb ct)).2.calls.filterMap Event.metadata =
              [((derive_ip6_identity_and_revnat K C skb C.ROUTER_IP).1, b.rev_nat_index)] ∧
            ∃ s, (handle_lb_ip6 K C E (World.start skb ct)).2.skb =
              encode_nat_metadata s (derive_ip6_identity_and_revnat K C skb C.ROUTER_IP).1
                b.rev_nat_index)) := by
  have heq := handle_lb_ip6_eq K C E skb ct hvalid
  obtain ⟨⟨S1, -⟩, -, S3, -⟩ := svc_lookup6_forward K C E
    (derive_ip6_identity_and_revnat K C skb C.ROUTER_IP).2 ct
    (derive_ip6_identity_and_revnat K C skb C.ROUTER_IP).1 false
  obtain ⟨hB, ret, hX, hE, hN⟩ := S3 b (svc_lookup6_backend K C E
    (derive_ip6_identity_and_revnat K C skb C.ROUTER_IP).2 ct
    (derive_ip6_identity_and_revnat K C skb C.ROUTER_IP).1 false b hb)
  generalize svc_lookup6 K C E (World.start (derive_ip6_identity_and_revnat K C skb C.ROUTER_IP).2 ct)
    (derive_ip6_identity_and_revnat K C skb C.ROUTER_IP).1 false = r at heq S1 hB hX hE hN
  have hts : K.IS_ERR r.1 = true ∨ r.2.1 = true := by
    by_cases he : K.IS_ERR ret = true
    · left
      rw [(hE he).1]
      exact he
    · right
      exact (hN (by simpa using he)).1
  obtain ⟨h2, h1⟩ := lb_stack_handoff K E K.CILIUM_CALL_IPV6 r.1 r.2.1 r.2.2 _ heq hts
  rw [h2, h1]
  refine ⟨hB, S1, ret, hX, fun he => ?_, fun hn => ?_⟩
  · obtain ⟨e1, -, e3, e4⟩ := hE he
    refine ⟨?_, e3, e4⟩
    rw [e1, if_pos he]
  · obtain ⟨-, ret4, hT, hneg, hpos⟩ := hN hn
    refine ⟨ret4, hT, fun h => ?_, fun h => ?_⟩
    · obtain ⟨e1, e2⟩ := hneg h
      refine ⟨?_, e2⟩
      rw [e1]
    · obtain ⟨e1, e2, e3⟩ := hpos h
      refine ⟨?_, e2, e3⟩
      rw [e1, ite_self]

/-- C20: the success path of the load balancer.  First and second part: when
a packet reaches the service lookup and the backend lookup of `svc_lookup4` /
`svc_lookup6` and both find an entry, the backend being `b`
(`lb4_lookups_succeed`, `lb6_lookups_succeed`), then `b` is the only backend
used and the destination rewrite is called once, with `b` and the new
destination `b.target` (IPv4) or `b.target` with `b.rev_nat_index` OR-ed into
its last word (IPv6).  If the rewrite returns an error, that error is
returned, `to_stack` is as it was passed and neither the packet type nor the
metadata is touched.  Otherwise `to_stack` is set and
`skb_change_type(skb, 0)` is called once: a negative result gives
`DROP_WRITE_ERROR` without metadata encoding, any other result gives
`TC_ACT_OK` after `encode_nat_metadata` was called with the identity passed in
and `b.rev_nat_index`, whose packet is the one returned.  Third and fourth
part: `handle_lb_ip4` / `handle_lb_ip6`, on a packet whose header is in
bounds and which, after the identity derivation, reaches both lookups with
success, makes no tail call to the main stage; the identity encoded with
`b.rev_nat_index` is the derived one, and the handler then returns
`TC_ACT_OK`; a failed rewrite is returned as it is. -/
theorem lb_success_path {σ : Type} (K : Consts) (C : Config) (E : Env σ) (skb : SkBuff)
    (ct : σ) (secctx : Nat) (to_stack : Bool) :
    (∀ b : lb4_service, lb4_lookups_succeed K C E skb ct b →
      (svc_lookup4 K C E (World.start skb ct) secctx to_stack).2.2.calls.filterMap
        Event.backend4 = [b] ∧
      ∃ ret, (svc_lookup4 K C E (World.start skb ct) secctx to_stack).2.2.calls.filterMap
          Event.xlate4 = [(b.target, b, ret)] ∧
        (K.IS_ERR ret = true →
          (svc_lookup4 K C E (World.start skb ct) secctx to_stack).1 = ret ∧
          (svc_lookup4 K C E (World.start skb ct) secctx to_stack).2.1 = to_stack ∧
          (svc_lookup4 K C E (World.start skb ct) secctx to_stack).2.2.calls.filterMap
            Event.type_change = [] ∧
          (svc_lookup4 K C E (World.start skb ct) secctx to_stack).2.2.calls.filterMap
            Event.metadata = []) ∧
        (K.IS_ERR ret = false →
          (svc_lookup4 K C E (World.start skb ct) secctx to_stack).2.1 = true ∧
          ∃ ret4, (svc_lookup4 K C E (World.start skb ct) secctx to_stack).2.2.calls.filterMap
              Event.type_change = [(0, ret4)] ∧
            (ret4 < 0 →
              (svc_lookup4 K C E (World.start skb ct) secctx to_stack).1 = K.DROP_WRITE_ERROR ∧
              (svc_lookup4 K C E (World.start skb ct) secctx to_stack).2.2.calls.filterMap
                Event.metadata = []) ∧
            (¬ ret4 < 0 →
              (svc_lookup4 K C E (World.start skb ct) secctx to_stack).1 = K.TC_ACT_OK ∧
              (svc_lookup4 K C E (World.start skb ct) secctx to_stack).2.2.calls.filterMap
                Event.metadata = [(secctx, b.rev_nat_index)] ∧
              ∃ s, (svc_lookup4 K C E (World.start skb ct) secctx to_stack).2.2.skb =
                encode_nat_metadata s secctx b.rev_nat_index))) ∧
    (∀ b : lb6_service, lb6_lookups_succeed K C E skb ct b →
      (svc_lookup6 K C E (World.start skb ct) secctx to_stack).2.2.calls.filterMap
        Event.backend6 = [b] ∧
      ∃ ret, (svc_lookup6 K C E (World.start skb ct) secctx to_stack).2.2.calls.filterMap
          Event.xlate6 = [({ b.target with p4 := b.target.p4 ||| b.rev_nat_index }, b, ret)] ∧
        (K.IS_ERR ret = true →
          (svc_lookup6 K C E (World.start skb ct) secctx to_stack).1 = ret ∧
          (svc_lookup6 K C E (World.start skb ct) secctx to_stack).2.1 = to_stack ∧
          (svc_lookup6 K C E (World.start skb ct) secctx to_stack).2.2.calls.filterMap
            Event.type_change = [] ∧
          (svc_lookup6 K C E (World.start skb ct) secctx to_stack).2.2.calls.filterMap
            Event.metadata = []) ∧
        (K.IS_ERR ret = false →
          (svc_lookup6 K C E (World.start skb ct) secctx to_stack).2.1 = true ∧
          ∃ ret4, (svc_lookup6 K C E (World.start skb ct) secctx to_stack).2.2.calls.filterMap
              Event.type_change = [(0, ret4)] ∧
            (ret4 < 0 →
              (svc_lookup6 K C E (World.start skb ct) secctx to_stack).1 = K.DROP_WRITE_ERROR ∧
              (svc_lookup6 K C E (World.start skb ct) secctx to_stack).2.2.calls.filterMap
                Event.metadata = []) ∧
            (¬ ret4 < 0 →
              (svc_lookup6 K C E (World.start skb ct) secctx to_stack).1 = K.TC_ACT_OK ∧
              (svc_lookup6 K C E (World.start skb ct) secctx to_stack).2.2.calls.filterMap
                Event.metadata = [(secctx, b.rev_nat_index)] ∧
              ∃ s, (svc_lookup6 K C E (World.start skb ct) secctx to_stack).2.2.skb =
                encode_nat_metadata s secctx b.rev_nat_index))) ∧
    (∀ b : lb4_service, ¬ skb.data + K.sizeof_iphdr + K.ETH_HLEN > skb.data_end →
      lb4_lookups_succeed K C E (derive_identity_and_revnat K C skb none).2.2 ct b →
      (handle_lb_ip4 K C E (World.start skb ct)).2.calls.filterMap Event.backend4 = [b] ∧
      (handle_lb_ip4 K C E (World.start skb ct)).2.calls.filterMap Event.tail_call = [] ∧
      ∃ ret, (handle_lb_ip4 K C E (World.start skb ct)).2.calls.filterMap Event.xlate4 =
          [(b.target, b, ret)] ∧
        (K.IS_ERR ret = true →
          (handle_lb_ip4 K C E (World.start skb ct)).1 = Exit.returned ret ∧
          (handle_lb_ip4 K C E (World.start skb ct)).2.calls.filterMap Event.type_change = [] ∧
          (handle_lb_ip4 K C E (World.start skb ct)).2.calls.filterMap Event.metadata = []) ∧
        (K.IS_ERR ret = false →
          ∃ ret4, (handle_lb_ip4 K C E (World.start skb ct)).2.calls.filterMap
              Event.type_change = [(0, ret4)] ∧
            (ret4 < 0 →
              (handle_lb_ip4 K C E (World.start skb ct)).1 =
                Exit.returned (if K.IS_ERR K.DROP_WRITE_ERROR = true then K.DROP_WRITE_ERROR
                  else K.TC_ACT_OK) ∧
              (handle_lb_ip4 K C E (World.start skb ct)).2.calls.filterMap Event.metadata =
                []) ∧
            (¬ ret4 < 0 →
              (handle_lb_ip4 K C E (World.start skb ct)).1 = Exit.returned K.TC_ACT_OK ∧
              (handle_lb_ip4 K C E (World.start skb ct)).2.calls.filterMap Event.metadata =
                [((derive_identity_and_revnat K C skb none).1, b.rev_nat_index)] ∧
              ∃ s, (handle_lb_ip4 K C E (World.start skb ct)).2.skb =
                encode_nat_metadata s (derive_identity_and_revnat K C skb none).1
                  b.rev_nat_index))) ∧
    (∀ b : lb6_service, ¬ skb.data + K.ETH_HLEN + K.sizeof_ipv6hdr > skb.data_end →
      lb6_lookups_succeed K C E (derive_ip6_identity_and_revnat K C skb C.ROUTER_IP).2 ct b →
      (handle_lb_ip6 K C E (World.start skb ct)).2.calls.filterMap Event.backend6 = [b] ∧
      (handle_lb_ip6 K C E (World.start skb ct)).2.calls.filterMap Event.tail_call = [] ∧
      ∃ ret, (handle_lb_ip6 K C E (World.start skb ct)).2.calls.filterMap Event.xlate6 =
          [({ b.target with p4 := b.target.p4 ||| b.rev_nat_index }, b, ret)] ∧
        (K.IS_ERR ret = true →
          (handle_lb_ip6 K C E (World.start skb ct)).1 = Exit.returned ret ∧
          (handle_lb_ip6 K C E (World.start skb ct)).2.calls.filterMap Event.type_change = [] ∧
          (handle_lb_ip6 K C E (World.start skb ct)).2.calls.filterMap Event.metadata = []) ∧
        (K.IS_ERR ret = false →
          ∃ ret4, (handle_lb_ip6 K C E (World.start skb ct)).2.calls.filterMap
              Event.type_change = [(0, ret4)] ∧
            (ret4 < 0 →
              (handle_lb_ip6 K C E (World.start skb ct)).1 =
                Exit.returned (if K.IS_ERR K.DROP_WRITE_ERROR = true then K.DROP_WRITE_ERROR
                  else K.TC_ACT_OK) ∧
              (handle_lb_ip6 K C E (World.start skb ct)).2.calls.filterMap Event.metadata =
                []) ∧
            (¬ ret4 < 0 →
              (handle_lb_ip6 K C E (World.start skb ct)).1 = Exit.returned K.TC_ACT_OK ∧
              (handle_lb_ip6 K C E (World.start skb ct)).2.calls.filterMap Event.metadata =
                [((derive_ip6_identity_and_revnat K C skb C.ROUTER_IP).1, b.rev_nat_index)] ∧
              ∃ s, (handle_lb_ip6 K C E (World.start skb ct)).2.skb =
                encode_nat_metadata s (derive_ip6_identity_and_revnat K C skb C.ROUTER_IP).1
                  b.rev_nat_index))) :=
  ⟨fun b hb => (svc_lookup4_forward K C E skb ct secctx to_stack).2.2.1 b
      (svc_lookup4_backend K C E skb ct secctx to_stack b hb),
   fun b hb => (svc_lookup6_forward K C E skb ct secctx to_stack).2.2.1 b
      (svc_lookup6_backend K C E skb ct secctx to_stack b hb),
   fun b hvalid hb => handle_lb_ip4_success K C E skb ct b hvalid hb,
   fun b hvalid hb => handle_lb_ip6_success K C E skb ct b hvalid hb⟩

/-- C20 at the sample packets with the sample service table: both lookups
succeed; for IPv4 the backend 10.15.5.7 with reverse-NAT index 3 is the
rewrite target, for IPv6 the backend `..:40` with index 3 is rewritten to
`..:43`; `handle_lb_ip4` and `handle_lb_ip6` make no tail call, and
`handle_lb_ip4` returns `TC_ACT_OK`, and `handle_lb_ip6` encodes the derived
identity (the world identity 2) with index 3. -/
theorem lb_success_path_witness :
    (lb4_lookups_succeed sampleConsts sampleConfig sampleEnvService samplePacket4 []
        { target := 0x0A0F0507, port := 8080, rev_nat_index := 3 } ∧
      ∃ ret, (svc_lookup4 sampleConsts sampleConfig sampleEnvService
          (World.start samplePacket4 []) 2 false).2.2.calls.filterMap Event.xlate4 =
        [(0x0A0F0507, { target := 0x0A0F0507, port := 8080, rev_nat_index := 3 }, ret)]) ∧
    (lb6_lookups_succeed sampleConsts sampleConfig sampleEnvService samplePacket6 []
        { target := { p1 := 0xbeef0000, p2 := 0, p3 := 0x0a000001, p4 := 0x40 },
          port := 8080, rev_nat_index := 3 } ∧
      ∃ ret, (svc_lookup6 sampleConsts sampleConfig sampleEnvService
          (World.start samplePacket6 []) 2 false).2.2.calls.filterMap Event.xlate6 =
        [({ p1 := 0xbeef0000, p2 := 0, p3 := 0x0a000001, p4 := 0x43 },
          { target := { p1 := 0xbeef0000, p2 := 0, p3 := 0x0a000001, p4 := 0x40 },
            port := 8080, rev_nat_index := 3 }, ret)]) ∧
    (handle_lb_ip4 sampleConsts sampleConfig sampleEnvService
        (World.start samplePacket4 [])).2.calls.filterMap Event.tail_call = [] ∧
    (handle_lb_ip6 sampleConsts sampleConfig sampleEnvService
        (World.start samplePacket6 [])).2.calls.filterMap Event.tail_call = [] ∧
    (handle_lb_ip4 sampleConsts sampleConfig sampleEnvService
        (World.start samplePacket4 [])).1 = Exit.returned sampleConsts.TC_ACT_OK ∧
    (handle_lb_ip6 sampleConsts sampleConfig sampleEnvService
        (World.start samplePacket6 [])).2.calls.filterMap Event.metadata = [(2, 3)] :=
  ⟨⟨⟨fun _ => by with_unfolding_all decide, fun _ => by with_unfolding_all decide,
      { count := 2 }, rfl, rfl⟩,
     ((lb_success_path sampleConsts sampleConfig sampleEnvService samplePacket4 [] 2 false).1
        { target := 0x0A0F0507, port := 8080, rev_nat_index := 3 }
        ⟨fun _ => by with_unfolding_all decide, fun _ => by with_unfolding_all decide,
          { count := 2 }, rfl, rfl⟩).2.imp (fun _ h => h.1)⟩,
   ⟨⟨fun _ => by with_unfolding_all decide, fun _ => by with_unfolding_all decide,
      { count := 2 }, rfl, rfl⟩,
     ((lb_success_path sampleConsts sampleConfig sampleEnvService samplePacket6 [] 2 false).2.1
        { target := { p1 := 0xbeef0000, p2 := 0, p3 := 0x0a000001, p4 := 0x40 },
          port := 8080, rev_nat_index := 3 }
        ⟨fun _ => by with_unfolding_all decide, fun _ => by with_unfolding_all decide,
          { count := 2 }, rfl, rfl⟩).2.imp (fun _ h => h.1)⟩,
   ((lb_success_path sampleConsts sampleConfig sampleEnvService samplePacket4 [] 2 false).2.2.1
      { target := 0x0A0F0507, port := 8080, rev_nat_index := 3 } (by decide)
      ⟨fun _ => by with_unfolding_all decide, fun _ => by with_unfolding_all decide,
        { count := 2 }, rfl, rfl⟩).2.1,
   ((lb_success_path sampleConsts sampleConfig sampleEnvService samplePacket6 [] 2 false).2.2.2
      { target := { p1 := 0xbeef0000, p2 := 0, p3 := 0x0a000001, p4 := 0x40 },
        port := 8080, rev_nat_index := 3 } (by decide)
      ⟨fun _ => by with_unfolding_all decide, fun _ => by with_unfolding_all decide,
        { count := 2 }, rfl, rfl⟩).2.1,
   by with_unfolding_all decide, by with_unfolding_all decide⟩

/-! ## The main stage outside the local range, and ICMPv6 -/

/-- C17: in `handle_ipv4`, for a packet with a complete header whose
destination is outside the cluster range, the result is `TC_ACT_OK` whatever
the tracker lookup and the reverse translation return; the egress tracker
lookup is made once, `lb4_rev_nat` is called (once, with the index of the
state) exactly when the lookup returned `CT_REPLY` with a non-zero
`rev_nat_index`, and no endpoint lookup, local delivery or encapsulation is
made. -/
theorem outside_range_best_effort {σ : Type} (K : Consts) (C : Config) (E : Env σ)
    (skb : SkBuff) (ct : σ)
    (hvalid : ¬ skb.data + K.sizeof_iphdr + K.ETH_HLEN > skb.data_end)
    (hout : skb.ip4.daddr &&& C.IPV4_CLUSTER_MASK ≠ C.IPV4_CLUSTER_RANGE) :
    (handle_ipv4 K C E (World.start skb ct)).1 = K.TC_ACT_OK ∧
    (∃ c st, (handle_ipv4 K C E (World.start skb ct)).2.calls.filterMap Event.ct_lookup_result =
        [(K.CT_EGRESS, c, st)] ∧
      (c = K.CT_REPLY ∧ st.rev_nat_index ≠ 0 →
        ∃ ret, (handle_ipv4 K C E (World.start skb ct)).2.calls.filterMap Event.rev_nat_result =
          [(st.rev_nat_index, ret)]) ∧
      (¬ (c = K.CT_REPLY ∧ st.rev_nat_index ≠ 0) →
        (handle_ipv4 K C E (World.start skb ct)).2.calls.filterMap Event.rev_nat_result = [])) ∧
    (handle_ipv4 K C E (World.start skb ct)).2.calls.filterMap Event.endpoint_lookup = [] ∧
    (handle_ipv4 K C E (World.start skb ct)).2.calls.filterMap Event.local_delivery = [] ∧
    (handle_ipv4 K C E (World.start skb ct)).2.calls.filterMap Event.encap = [] :=
  handle_ipv4_outside K C E skb ct hvalid hout

/-- C17 at a packet to 8.8.8.8 that is a tracked reply with reverse-NAT index
5, with a reverse translation that fails: the result is still `TC_ACT_OK`. -/
theorem outside_range_best_effort_witness :
    (handle_ipv4 sampleConsts sampleConfig sampleEnvRevNatFails
      (World.start outsidePacket4 outsideReplyStore)).1 = sampleConsts.TC_ACT_OK ∧
    (handle_ipv4 sampleConsts sampleConfig sampleEnvRevNatFails
      (World.start outsidePacket4 outsideReplyStore)).2.calls.filterMap Event.rev_nat_result =
        [(5, -141)] ∧
    (handle_ipv4 sampleConsts sampleConfig sampleEnvRevNatFails
      (World.start outsidePacket4 outsideReplyStore)).2.calls.filterMap Event.endpoint_lookup =
        [] :=
  ⟨(outside_range_best_effort sampleConsts sampleConfig sampleEnvRevNatFails outsidePacket4
      outsideReplyStore (by decide) (by decide)).1,
   by with_unfolding_all decide,
   (outside_range_best_effort sampleConsts sampleConfig sampleEnvRevNatFails outsidePacket4
      outsideReplyStore (by decide) (by decide)).2.2.1⟩

set_option maxHeartbeats 4000000 in
/-- After a responder result that is not an error, `handle_ipv6` goes on as
`handle_ipv6_delivery`. -/
theorem handle_ipv6_continues {σ : Type} (K : Consts) (C : Config) (E : Env σ) (skb : SkBuff)
    (ct : σ)
    (hns : C.HANDLE_NS = true)
    (hvalid : ¬ skb.data + K.ETH_HLEN + K.sizeof_ipv6hdr > skb.data_end)
    (hicmp : (E.ipv6_hdrlen skb K.ETH_HLEN skb.ip6.nexthdr).2 = K.IPPROTO_ICMPV6)
    (hok : K.IS_ERR (E.icmp6_handle skb K.ETH_HLEN skb.ip6).1 = false) :
    handle_ipv6 K C E (World.start skb ct) =
      handle_ipv6_delivery K C E
        { skb := (E.icmp6_handle skb K.ETH_HLEN skb.ip6).2, ct := ct,
          calls := [Event.icmp6_handle (E.icmp6_handle skb K.ETH_HLEN skb.ip6).1] }
        (K.ETH_HLEN + (E.ipv6_hdrlen skb K.ETH_HLEN skb.ip6.nexthdr).1)
        K.IPPROTO_ICMPV6 := by
  generalize hr : handle_ipv6 K C E (World.start skb ct) = r
  generalize hq : handle_ipv6_delivery K C E
        { skb := (E.icmp6_handle skb K.ETH_HLEN skb.ip6).2, ct := ct,
          calls := [Event.icmp6_handle (E.icmp6_handle skb K.ETH_HLEN skb.ip6).1] }
        (K.ETH_HLEN + (E.ipv6_hdrlen skb K.ETH_HLEN skb.ip6.nexthdr).1)
        K.IPPROTO_ICMPV6 = q
  simp only [handle_ipv6, World.start, World.emit, Run.pure_bind] at hr
  simp only [handle_ipv6_delivery, World.emit, Run.pure_bind] at hq
  repeat' first
    | (replace hr := call_bind_eq hr; obtain ⟨x, hx, hr⟩ := hr; try dsimp only at hr)
    | (replace hr := ite_inv hr; rcases hr with ⟨h, hr⟩ | ⟨h, hr⟩)
    | split at hr
  all_goals (simp only [Run.run_pure] at hr; subst hr)
  all_goals (try (exfalso; simp_all; done))
  all_goals repeat' first
    | (replace hq := call_bind_eq hq; obtain ⟨y, hy, hq⟩ := hq; try dsimp only at hq)
    | (replace hq := ite_inv hq; rcases hq with ⟨h, hq⟩ | ⟨h, hq⟩)
    | split at hq
  all_goals (simp only [Run.run_pure] at hq; subst hq)
  all_goals simp_all
  all_goals omega

/-- C18 as stated fails: on an ICMPv6 packet the responder returns 7
(`TC_ACT_REDIRECT`), which is not `ACTION_UNKNOWN_ICMP6_NS`, yet
`handle_ipv6` does not return 7: it goes on to the delivery part and returns
`TC_ACT_OK`. -/
theorem icmp6_result_not_propagated_counterexample :
    (sampleEnvIcmpAnswers.ipv6_hdrlen icmpPacket6 sampleConsts.ETH_HLEN
      icmpPacket6.ip6.nexthdr).2 = sampleConsts.IPPROTO_ICMPV6 ∧
    sampleConfig.HANDLE_NS = true ∧
    (handle_ipv6 sampleConsts sampleConfig sampleEnvIcmpAnswers
      (World.start icmpPacket6 [])).2.calls =
        [Event.icmp6_handle 7, Event.cilium_trace_capture Dbg.DBG_CAPTURE_DELIVERY 0] ∧
    (7 : Int) ≠ ACTION_UNKNOWN_ICMP6_NS sampleConsts ∧
    (handle_ipv6 sampleConsts sampleConfig sampleEnvIcmpAnswers
      (World.start icmpPacket6 [])).1 = sampleConsts.TC_ACT_OK ∧
    (handle_ipv6 sampleConsts sampleConfig sampleEnvIcmpAnswers
      (World.start icmpPacket6 [])).1 ≠ 7 := by
  refine ⟨?_, ?_, ?_, ?_, ?_, ?_⟩ <;> with_unfolding_all decide

/-- C18 (as amended): with `HANDLE_NS`, for a packet with a complete IPv6
header whose next-header (after `ipv6_hdrlen`) is `IPPROTO_ICMPV6`,
`handle_ipv6` calls `icmp6_handle` once, on the packet it received.  When the
result is an error (`IS_ERR`), `handle_ipv6` returns it at once, with the
packet the responder left and no other call.  For every other result,
`ACTION_UNKNOWN_ICMP6_NS` (`TC_ACT_OK`) included when it is not an error,
`handle_ipv6` goes on with the rest of the function, `handle_ipv6_delivery`,
on the packet the responder left: the identity derivation, then local
delivery, encapsulation or the stack, whose result it returns. -/
theorem icmp6_error_propagated {σ : Type} (K : Consts) (C : Config) (E : Env σ)
    (skb : SkBuff) (ct : σ)
    (hns : C.HANDLE_NS = true)
    (hvalid : ¬ skb.data + K.ETH_HLEN + K.sizeof_ipv6hdr > skb.data_end)
    (hicmp : (E.ipv6_hdrlen skb K.ETH_HLEN skb.ip6.nexthdr).2 = K.IPPROTO_ICMPV6) :
    (handle_ipv6 K C E (World.start skb ct)).2.calls.filterMap Event.icmp6_result =
      [(E.icmp6_handle skb K.ETH_HLEN skb.ip6).1] ∧
    (K.IS_ERR (E.icmp6_handle skb K.ETH_HLEN skb.ip6).1 = true →
      handle_ipv6 K C E (World.start skb ct) =
        ((E.icmp6_handle skb K.ETH_HLEN skb.ip6).1,
          { skb := (E.icmp6_handle skb K.ETH_HLEN skb.ip6).2, ct := ct,
            calls := [Event.icmp6_handle (E.icmp6_handle skb K.ETH_HLEN skb.ip6).1] })) ∧
    (K.IS_ERR (E.icmp6_handle skb K.ETH_HLEN skb.ip6).1 = false →
      handle_ipv6 K C E (World.start skb ct) =
        handle_ipv6_delivery K C E
          { skb := (E.icmp6_handle skb K.ETH_HLEN skb.ip6).2, ct := ct,
            calls := [Event.icmp6_handle (E.icmp6_handle skb K.ETH_HLEN skb.ip6).1] }
          (K.ETH_HLEN + (E.ipv6_hdrlen skb K.ETH_HLEN skb.ip6.nexthdr).1)
          K.IPPROTO_ICMPV6 ∧
      ∃ e rest, (handle_ipv6 K C E (World.start skb ct)).2.calls =
        Event.icmp6_handle (E.icmp6_handle skb K.ETH_HLEN skb.ip6).1 :: e :: rest) ∧
    (K.IS_ERR (ACTION_UNKNOWN_ICMP6_NS K) = false →
      (E.icmp6_handle skb K.ETH_HLEN skb.ip6).1 = ACTION_UNKNOWN_ICMP6_NS K →
      handle_ipv6 K C E (World.start skb ct) =
        handle_ipv6_delivery K C E
          { skb := (E.icmp6_handle skb K.ETH_HLEN skb.ip6).2, ct := ct,
            calls := [Event.icmp6_handle (ACTION_UNKNOWN_ICMP6_NS K)] }
          (K.ETH_HLEN + (E.ipv6_hdrlen skb K.ETH_HLEN skb.ip6.nexthdr).1)
          K.IPPROTO_ICMPV6) := by
  obtain ⟨h1, h2, h3⟩ := handle_ipv6_icmp K C E skb ct hns hvalid hicmp
  refine ⟨h1, h2, fun hok => ⟨handle_ipv6_continues K C E skb ct hns hvalid hicmp hok, h3 hok⟩,
    fun hok heq => ?_⟩
  rw [← heq]
  exact handle_ipv6_continues K C E skb ct hns hvalid hicmp (by rw [heq]; exact hok)

/-- C18 (as amended) at two ICMPv6 packets.  With a responder that fails with
`DROP_INVALID`, `handle_ipv6` returns `DROP_INVALID` after that one call.
With a responder that returns 7 on a packet to an address under the router
prefix, `handle_ipv6` goes on: it looks up the local endpoint, finds none and
returns what `encap_and_redirect` returns. -/
theorem icmp6_error_propagated_witness :
    (handle_ipv6 sampleConsts sampleConfig sampleEnvIcmpFails (World.start icmpPacket6 []) =
      ((sampleEnvIcmpFails.icmp6_handle icmpPacket6 sampleConsts.ETH_HLEN icmpPacket6.ip6).1,
        { skb := (sampleEnvIcmpFails.icmp6_handle icmpPacket6 sampleConsts.ETH_HLEN
            icmpPacket6.ip6).2,
          ct := [],
          calls := [Event.icmp6_handle
            (sampleEnvIcmpFails.icmp6_handle icmpPacket6 sampleConsts.ETH_HLEN
              icmpPacket6.ip6).1] }) ∧
      (sampleEnvIcmpFails.icmp6_handle icmpPacket6 sampleConsts.ETH_HLEN icmpPacket6.ip6).1 =
        sampleConsts.DROP_INVALID) ∧
    (handle_ipv6 sampleConsts sampleConfig sampleEnvIcmpAnswers
        (World.start icmpLocalPacket6 []) =
      handle_ipv6_delivery sampleConsts sampleConfig sampleEnvIcmpAnswers
        { skb := (sampleEnvIcmpAnswers.icmp6_handle icmpLocalPacket6 sampleConsts.ETH_HLEN
            icmpLocalPacket6.ip6).2,
          ct := [],
          calls := [Event.icmp6_handle
            (sampleEnvIcmpAnswers.icmp6_handle icmpLocalPacket6 sampleConsts.ETH_HLEN
              icmpLocalPacket6.ip6).1] }
        (sampleConsts.ETH_HLEN + (sampleEnvIcmpAnswers.ipv6_hdrlen icmpLocalPacket6
          sampleConsts.ETH_HLEN icmpLocalPacket6.ip6.nexthdr).1)
        sampleConsts.IPPROTO_ICMPV6 ∧
      (handle_ipv6 sampleConsts sampleConfig sampleEnvIcmpAnswers
        (World.start icmpLocalPacket6 [])).2.calls.filterMap Event.icmp6_result = [7] ∧
      (handle_ipv6 sampleConsts sampleConfig sampleEnvIcmpAnswers
        (World.start icmpLocalPacket6 [])).2.calls.filterMap Event.endpoint_lookup = [none] ∧
      (handle_ipv6 sampleConsts sampleConfig sampleEnvIcmpAnswers
        (World.start icmpLocalPacket6 [])).2.calls.length = 4) :=
  ⟨⟨(icmp6_error_propagated sampleConsts sampleConfig sampleEnvIcmpFails icmpPacket6 [] rfl
        (by decide) rfl).2.1 (by decide),
      rfl⟩,
   ((icmp6_error_propagated sampleConsts sampleConfig sampleEnvIcmpAnswers icmpLocalPacket6 []
        rfl (by decide) rfl).2.2.1 (by decide)).1,
   by with_unfolding_all decide, by with_unfolding_all decide, by with_unfolding_all decide⟩

/-! ## The identity handed to delivery and encapsulation -/

set_option maxHeartbeats 2000000 in
/-- The identity that `handle_ipv4` hands to the delivery and to the
encapsulation. -/
theorem handle_ipv4_secctx {σ : Type} (K : Consts) (C : Config) (E : Env σ) (skb : SkBuff)
    (ct : σ) :
    (∀ x ∈ (handle_ipv4 K C E (World.start skb ct)).2.calls.filterMap Event.encap,
      ((derive_identity_and_revnat K C skb (some 0)).2.1.getD 0 = 0 →
        x.2.1 = (derive_identity_and_revnat K C skb (some 0)).1) ∧
      ((derive_identity_and_revnat K C skb (some 0)).2.1.getD 0 ≠ 0 →
        x.2.1 = ((derive_identity_and_revnat K C skb (some 0)).2.1.getD 0 &&& K.MD_ID_MASK) |||
          K.MD_F_REVNAT)) ∧
    (∀ x ∈ (handle_ipv4 K C E (World.start skb ct)).2.calls.filterMap Event.local_delivery,
      x.1 = (derive_identity_and_revnat K C skb (some 0)).1) := by
  generalize hr : handle_ipv4 K C E (World.start skb ct) = r
  simp only [handle_ipv4, World.start, World.emit, Run.pure_bind] at hr
  repeat' first
    | (replace hr := call_bind_inv hr; obtain ⟨x, hr⟩ := hr; try dsimp only at hr)
    | (replace hr := ite_inv hr; rcases hr with ⟨h, hr⟩ | ⟨h, hr⟩)
    | split at hr
  all_goals (simp only [Run.run_pure] at hr; subst hr)
  all_goals simp_all [Event.encap, Event.local_delivery]

set_option maxHeartbeats 2000000 in
/-- The identity that `handle_ipv6` hands to the delivery and to the
encapsulation. -/
theorem handle_ipv6_secctx {σ : Type} (K : Consts) (C : Config) (E : Env σ) (skb : SkBuff)
    (ct : σ) :
    (∀ x ∈ (handle_ipv6 K C E (World.start skb ct)).2.calls.filterMap Event.encap,
      x.2.1 = (derive_ip6_identity_and_revnat K C (icmp6_stage_packet K C E skb) C.ROUTER_IP).1) ∧
    (∀ x ∈ (handle_ipv6 K C E (World.start skb ct)).2.calls.filterMap Event.local_delivery,
      x.1 = (derive_ip6_identity_and_revnat K C (icmp6_stage_packet K C E skb) C.ROUTER_IP).1) := by
  generalize hr : handle_ipv6 K C E (World.start skb ct) = r
  simp only [handle_ipv6, World.start, World.emit, Run.pure_bind] at hr
  repeat' first
    | (replace hr := call_bind_eq hr; obtain ⟨x, hx, hr⟩ := hr; try dsimp only at hr)
    | (replace hr := ite_inv hr; rcases hr with ⟨h, hr⟩ | ⟨h, hr⟩)
    | split at hr
  all_goals (simp only [Run.run_pure] at hr; subst hr)
  all_goals simp_all [Event.encap, Event.local_delivery, icmp6_stage_packet]

/-! ## The two policy functions compared -/

/-- The reverse translation and the result of `ipv4_policy`, against the
result in the words of the specification. -/
theorem ipv4_policy_refines {σ : Type} (K : Consts) (E : Env σ) (skb : SkBuff) (ct : σ)
    (ifindex : Int) (src_label : Nat)
    (hvalid : ¬ skb.data + K.sizeof_iphdr + K.ETH_HLEN > skb.data_end) :
    ((ipv4_policy K E (World.start skb ct) ifindex src_label).2.calls.filterMap
      Event.ct_lookup_result).length = 1 ∧
    ∀ c st, (K.CT_EGRESS, c, st) ∈
        (ipv4_policy K E (World.start skb ct) ifindex src_label).2.calls.filterMap
          Event.ct_lookup_result →
      (¬ (c < 0 ∧ c ≠ K.DROP_CT_CANT_CREATE) → c = K.CT_REPLY ∧ st.rev_nat_index ≠ 0 →
        ∃ ret, (ipv4_policy K E (World.start skb ct) ifindex src_label).2.calls.filterMap
          Event.rev_nat_result = [(st.rev_nat_index, ret)]) ∧
      (¬ (¬ (c < 0 ∧ c ≠ K.DROP_CT_CANT_CREATE) ∧ c = K.CT_REPLY ∧ st.rev_nat_index ≠ 0) →
        (ipv4_policy K E (World.start skb ct) ifindex src_label).2.calls.filterMap
          Event.rev_nat_result = []) ∧
      ∀ d, (ipv4_policy K E (World.start skb ct) ifindex src_label).1 =
        policy_result_spec K c
          (((ipv4_policy K E (World.start skb ct) ifindex src_label).2.calls.filterMap
            Event.rev_nat_result).head?.map Prod.snd)
          (((ipv4_policy K E (World.start skb ct) ifindex src_label).2.calls.filterMap
            Event.policy_verdict).head?.getD d) := by
  generalize hr : ipv4_policy K E (World.start skb ct) ifindex src_label = r
  simp only [ipv4_policy, World.start, World.emit, Run.pure_bind] at hr
  repeat' first
    | (replace hr := call_bind_inv hr; obtain ⟨x, hr⟩ := hr; try dsimp only at hr)
    | (replace hr := ite_inv hr; rcases hr with ⟨h, hr⟩ | ⟨h, hr⟩)
  all_goals (simp only [Run.run_pure] at hr; subst hr)
  all_goals simp_all [Event.ct_lookup_result, Event.rev_nat_result, Event.policy_verdict,
    policy_result_spec, verdict_result_spec]
  all_goals (try constructor)
  all_goals first
    | assumption
    | (split_ifs <;> first | rfl | (exfalso; tauto))


/-- The reverse translation and the result of `ipv6_policy`, against the
result in the words of the specification. -/
theorem ipv6_policy_refines {σ : Type} (K : Consts) (E : Env σ) (skb : SkBuff) (ct : σ)
    (ifindex : Int) (src_label : Nat)
    (hvalid : ¬ skb.data + K.sizeof_ipv6hdr + K.ETH_HLEN > skb.data_end) :
    ((ipv6_policy K E (World.start skb ct) ifindex src_label).2.calls.filterMap
      Event.ct_lookup_result).length = 1 ∧
    ∀ c st, (K.CT_EGRESS, c, st) ∈
        (ipv6_policy K E (World.start skb ct) ifindex src_label).2.calls.filterMap
          Event.ct_lookup_result →
      (¬ (c < 0 ∧ c ≠ K.DROP_CT_CANT_CREATE) → st.rev_nat_index ≠ 0 →
        ∃ ret, (ipv6_policy K E (World.start skb ct) ifindex src_label).2.calls.filterMap
          Event.rev_nat_result = [(st.rev_nat_index, ret)]) ∧
      (¬ (¬ (c < 0 ∧ c ≠ K.DROP_CT_CANT_CREATE) ∧ st.rev_nat_index ≠ 0) →
        (ipv6_policy K E (World.start skb ct) ifindex src_label).2.calls.filterMap
          Event.rev_nat_result = []) ∧
      ∀ d, (ipv6_policy K E (World.start skb ct) ifindex src_label).1 =
        policy_result_spec K c
          (((ipv6_policy K E (World.start skb ct) ifindex src_label).2.calls.filterMap
            Event.rev_nat_result).head?.map Prod.snd)
          (((ipv6_policy K E (World.start skb ct) ifindex src_label).2.calls.filterMap
            Event.policy_verdict).head?.getD d) := by
  generalize hr : ipv6_policy K E (World.start skb ct) ifindex src_label = r
  simp only [ipv6_policy, World.start, World.emit, Run.pure_bind] at hr
  repeat' first
    | (replace hr := call_bind_inv hr; obtain ⟨x, hr⟩ := hr; try dsimp only at hr)
    | (replace hr := ite_inv hr; rcases hr with ⟨h, hr⟩ | ⟨h, hr⟩)
  all_goals (simp only [Run.run_pure] at hr; subst hr)
  all_goals simp_all [Event.ct_lookup_result, Event.rev_nat_result, Event.policy_verdict,
    policy_result_spec, verdict_result_spec]
  all_goals (try constructor)
  all_goals first
    | assumption
    | (split_ifs <;> first | rfl | (exfalso; tauto))

/-- C21: in `handle_ipv4`, the value passed to `encap_and_redirect` is the
identity given by `derive_identity_and_revnat` when the reverse-NAT index it
stored is 0 and `(revnat & MD_ID_MASK) | MD_F_REVNAT` when the index is not
0; so for a destination in the local range without local endpoint and with
`ENCAP_IFINDEX` defined, the one encapsulation call carries the key of the
destination and that value.  The value passed to `ipv4_local_delivery` is
always the derived identity.  In `handle_ipv6` both `encap_and_redirect` and
`ipv6_local_delivery` are passed the identity given by
`derive_ip6_identity_and_revnat`. -/
theorem encap_identity {σ : Type} (K : Consts) (C : Config) (E : Env σ) (skb : SkBuff)
    (ct : σ) :
    (∀ x ∈ (handle_ipv4 K C E (World.start skb ct)).2.calls.filterMap Event.encap,
      ((derive_identity_and_revnat K C skb (some 0)).2.1.getD 0 = 0 →
        x.2.1 = (derive_identity_and_revnat K C skb (some 0)).1) ∧
      ((derive_identity_and_revnat K C skb (some 0)).2.1.getD 0 ≠ 0 →
        x.2.1 = ((derive_identity_and_revnat K C skb (some 0)).2.1.getD 0 &&& K.MD_ID_MASK) |||
          K.MD_F_REVNAT)) ∧
    (∀ key ∈ (handle_ipv4 K C E (World.start skb ct)).2.calls.filterMap
        (Event.endpoint_miss_key K C), C.ENCAP_IFINDEX.isSome = true →
      ∃ ret, (handle_ipv4 K C E (World.start skb ct)).2.calls.filterMap Event.encap =
        [(key,
          if (derive_identity_and_revnat K C skb (some 0)).2.1.getD 0 = 0 then
            (derive_identity_and_revnat K C skb (some 0)).1
          else ((derive_identity_and_revnat K C skb (some 0)).2.1.getD 0 &&& K.MD_ID_MASK) |||
            K.MD_F_REVNAT,
          ret)]) ∧
    (∀ x ∈ (handle_ipv4 K C E (World.start skb ct)).2.calls.filterMap Event.local_delivery,
      x.1 = (derive_identity_and_revnat K C skb (some 0)).1) ∧
    (∀ x ∈ (handle_ipv6 K C E (World.start skb ct)).2.calls.filterMap Event.encap,
      x.2.1 = (derive_ip6_identity_and_revnat K C (icmp6_stage_packet K C E skb) C.ROUTER_IP).1) ∧
    (∀ x ∈ (handle_ipv6 K C E (World.start skb ct)).2.calls.filterMap Event.local_delivery,
      x.1 = (derive_ip6_identity_and_revnat K C (icmp6_stage_packet K C E skb) C.ROUTER_IP).1) := by
  obtain ⟨h4e, h4d⟩ := handle_ipv4_secctx K C E skb ct
  obtain ⟨h6e, h6d⟩ := handle_ipv6_secctx K C E skb ct
  refine ⟨h4e, fun key hkey henc => ?_, h4d, h6e, h6d⟩
  obtain ⟨secctx, ret, hlist, -⟩ := ((handle_ipv4_endpoint K C E skb ct).2 key hkey).1 henc
  have hmem : (key, secctx, ret) ∈
      (handle_ipv4 K C E (World.start skb ct)).2.calls.filterMap Event.encap := by
    rw [hlist]
    exact List.mem_singleton_self _
  obtain ⟨hz, hnz⟩ := h4e _ hmem
  refine ⟨ret, ?_⟩
  rw [hlist]
  by_cases h0 : (derive_identity_and_revnat K C skb (some 0)).2.1.getD 0 = 0
  · rw [if_pos h0, ← hz h0]
  · rw [if_neg h0, ← hnz h0]

/-- C21 at the sample IPv4 packet without local endpoint: with reverse-NAT
index 5 in `cb[0]` the encapsulation is passed `(5 & 0xFFFF) | 0x10000`, with
index 0 it is passed the identity 2; with a local endpoint the delivery is
passed the identity 2. -/
theorem encap_identity_witness :
    (∃ ret, (handle_ipv4 sampleConsts sampleConfig sampleEnv
          (World.start revnatPacket4 [])).2.calls.filterMap Event.encap =
        [({ ip4 := 0x0A0F0200, ip6 := {}, family := 1 }, 0x10005, ret)]) ∧
    (∃ ret, (handle_ipv4 sampleConsts sampleConfig sampleEnv
          (World.start samplePacket4 [])).2.calls.filterMap Event.encap =
        [({ ip4 := 0x0A0F0200, ip6 := {}, family := 1 }, 2, ret)]) ∧
    (∀ x ∈ (handle_ipv4 sampleConsts sampleConfig sampleEnvLocalEndpoint
        (World.start revnatPacket4 [])).2.calls.filterMap Event.local_delivery, x.1 = 2) :=
  ⟨(encap_identity sampleConsts sampleConfig sampleEnv revnatPacket4 []).2.1
      { ip4 := 0x0A0F0200, ip6 := {}, family := 1 }
      (by with_unfolding_all exact List.mem_cons_self _ _) rfl,
   (encap_identity sampleConsts sampleConfig sampleEnv samplePacket4 []).2.1
      { ip4 := 0x0A0F0200, ip6 := {}, family := 1 }
      (by with_unfolding_all exact List.mem_cons_self _ _) rfl,
   (encap_identity sampleConsts sampleConfig sampleEnvLocalEndpoint revnatPacket4 []).2.2.1⟩

/-- C22: for a packet with a complete header, each policy function makes one
tracker lookup, in the egress direction.  With its classification `c` and
state `st`: `ipv4_policy` calls `lb4_rev_nat` (once, with the index of the
state) exactly when `c` is non-fatal and is `CT_REPLY` and
`st.rev_nat_index` is not 0; `ipv6_policy` calls `lb6_rev_nat` exactly when
`c` is non-fatal and `st.rev_nat_index` is not 0, whatever the
classification.  Both return the same function `policy_result_spec` of the
classification, the outcome of the reverse translation (if any) and the
verdict (if queried; when it is not, the result does not depend on it). -/
theorem policy_rev_nat_conditions {σ : Type} (K : Consts) (E : Env σ) (skb : SkBuff) (ct : σ)
    (ifindex : Int) (src_label : Nat) :
    (¬ skb.data + K.sizeof_iphdr + K.ETH_HLEN > skb.data_end →
      ((ipv4_policy K E (World.start skb ct) ifindex src_label).2.calls.filterMap
        Event.ct_lookup_result).length = 1 ∧
      ∀ c st, (K.CT_EGRESS, c, st) ∈
          (ipv4_policy K E (World.start skb ct) ifindex src_label).2.calls.filterMap
            Event.ct_lookup_result →
        (¬ (c < 0 ∧ c ≠ K.DROP_CT_CANT_CREATE) → c = K.CT_REPLY ∧ st.rev_nat_index ≠ 0 →
          ∃ ret, (ipv4_policy K E (World.start skb ct) ifindex src_label).2.calls.filterMap
            Event.rev_nat_result = [(st.rev_nat_index, ret)]) ∧
        (¬ (¬ (c < 0 ∧ c ≠ K.DROP_CT_CANT_CREATE) ∧ c = K.CT_REPLY ∧ st.rev_nat_index ≠ 0) →
          (ipv4_policy K E (World.start skb ct) ifindex src_label).2.calls.filterMap
            Event.rev_nat_result = []) ∧
        ∀ d, (ipv4_policy K E (World.start skb ct) ifindex src_label).1 =
          policy_result_spec K c
            (((ipv4_policy K E (World.start skb ct) ifindex src_label).2.calls.filterMap
              Event.rev_nat_result).head?.map Prod.snd)
            (((ipv4_policy K E (World.start skb ct) ifindex src_label).2.calls.filterMap
              Event.policy_verdict).head?.getD d)) ∧
    (¬ skb.data + K.sizeof_ipv6hdr + K.ETH_HLEN > skb.data_end →
      ((ipv6_policy K E (World.start skb ct) ifindex src_label).2.calls.filterMap
        Event.ct_lookup_result).length = 1 ∧
      ∀ c st, (K.CT_EGRESS, c, st) ∈
          (ipv6_policy K E (World.start skb ct) ifindex src_label).2.calls.filterMap
            Event.ct_lookup_result →
        (¬ (c < 0 ∧ c ≠ K.DROP_CT_CANT_CREATE) → st.rev_nat_index ≠ 0 →
          ∃ ret, (ipv6_policy K E (World.start skb ct) ifindex src_label).2.calls.filterMap
            Event.rev_nat_result = [(st.rev_nat_index, ret)]) ∧
        (¬ (¬ (c < 0 ∧ c ≠ K.DROP_CT_CANT_CREATE) ∧ st.rev_nat_index ≠ 0) →
          (ipv6_policy K E (World.start skb ct) ifindex src_label).2.calls.filterMap
            Event.rev_nat_result = []) ∧
        ∀ d, (ipv6_policy K E (World.start skb ct) ifindex src_label).1 =
          policy_result_spec K c
            (((ipv6_policy K E (World.start skb ct) ifindex src_label).2.calls.filterMap
              Event.rev_nat_result).head?.map Prod.snd)
            (((ipv6_policy K E (World.start skb ct) ifindex src_label).2.calls.filterMap
              Event.policy_verdict).head?.getD d)) :=
  ⟨ipv4_policy_refines K E skb ct ifindex src_label,
   ipv6_policy_refines K E skb ct ifindex src_label⟩

/-- C22 on an established connection whose state carries reverse-NAT index
5: `ipv4_policy` makes no reverse translation, `ipv6_policy` makes one with
index 5. -/
theorem policy_rev_nat_conditions_witness :
    (policy_fn Family.ipv4 sampleConsts sampleEnv (World.start samplePacket4 establishedStore4)
      0 2).2.calls.filterMap Event.rev_nat_result = [] ∧
    (∃ ret, (policy_fn Family.ipv6 sampleConsts sampleEnv
        (World.start samplePacket6 establishedStore6) 0 2).2.calls.filterMap
        Event.rev_nat_result = [(5, ret)]) :=
  ⟨(((policy_rev_nat_conditions sampleConsts sampleEnv samplePacket4 establishedStore4 0 2).1
      (by decide)).2 1 { rev_nat_index := 5 } (by with_unfolding_all decide)).2.1
      (by decide),
   (((policy_rev_nat_conditions sampleConsts sampleEnv samplePacket6 establishedStore6 0 2).2
      (by decide)).2 1 { rev_nat_index := 5 } (by with_unfolding_all decide)).1
      (by decide) (by decide)⟩

/-! ## Destinations in the local range without a local endpoint -/

/-- The identity derivation for IPv6 leaves the headers and the bounds of the
packet as they are. -/
theorem derive_ip6_identity_and_revnat_frame (K : Consts) (C : Config) (skb : SkBuff)
    (node_ip : v6addr) :
    (derive_ip6_identity_and_revnat K C skb node_ip).2.ip6 = skb.ip6 ∧
    (derive_ip6_identity_and_revnat K C skb node_ip).2.data = skb.data ∧
    (derive_ip6_identity_and_revnat K C skb node_ip).2.data_end = skb.data_end := by
  have h1 : (derive_identity_and_revnat K C skb none).2.2.ip6 = skb.ip6 ∧
      (derive_identity_and_revnat K C skb none).2.2.data = skb.data ∧
      (derive_identity_and_revnat K C skb none).2.2.data_end = skb.data_end := by
    unfold derive_identity_and_revnat
    split_ifs <;> simp
  unfold derive_ip6_identity_and_revnat
  dsimp only
  split_ifs <;> exact h1

set_option maxHeartbeats 4000000 in
/-- The path of `handle_ipv4` for a destination in the cluster range that has
no local endpoint. -/
theorem handle_ipv4_miss {σ : Type} (K : Consts) (C : Config) (E : Env σ) (skb : SkBuff)
    (ct : σ)
    (hvalid : ¬ skb.data + K.sizeof_iphdr + K.ETH_HLEN > skb.data_end)
    (hrange : skb.ip4.daddr &&& C.IPV4_CLUSTER_MASK = C.IPV4_CLUSTER_RANGE)
    (hproxy : C.FROM_HOST = true →
      K.IS_ERR (reverse_proxy_call4 K C E skb).1 = false ∧
      ¬ (reverse_proxy_call4 K C E skb).2.1.data + K.sizeof_iphdr + K.ETH_HLEN >
        (reverse_proxy_call4 K C E skb).2.1.data_end)
    (hmiss : E.lookup_ip4_endpoint (endpoint_stage_packet4 K C E skb).ip4 = none) :
    (handle_ipv4 K C E (World.start skb ct)).2.calls.filterMap Event.endpoint_lookup = [none] ∧
    (handle_ipv4 K C E (World.start skb ct)).2.calls.filterMap Event.local_delivery = [] ∧
    (C.ENCAP_IFINDEX.isSome = true →
      ∃ secctx, (handle_ipv4 K C E (World.start skb ct)).2.calls.filterMap Event.encap =
          [({ ip4 := (endpoint_stage_packet4 K C E skb).ip4.daddr &&& C.IPV4_MASK, ip6 := {},
              family := K.ENDPOINT_KEY_IPV4 }, secctx,
            E.encap_and_redirect (endpoint_stage_packet4 K C E skb)
              { ip4 := (endpoint_stage_packet4 K C E skb).ip4.daddr &&& C.IPV4_MASK, ip6 := {},
                family := K.ENDPOINT_KEY_IPV4 } secctx)] ∧
        (handle_ipv4 K C E (World.start skb ct)).1 =
          E.encap_and_redirect (endpoint_stage_packet4 K C E skb)
            { ip4 := (endpoint_stage_packet4 K C E skb).ip4.daddr &&& C.IPV4_MASK, ip6 := {},
              family := K.ENDPOINT_KEY_IPV4 } secctx) ∧
    (C.ENCAP_IFINDEX = none →
      (handle_ipv4 K C E (World.start skb ct)).2.calls.filterMap Event.encap = [] ∧
      (handle_ipv4 K C E (World.start skb ct)).2.calls.filterMap Event.redirect_call = [] ∧
      (handle_ipv4 K C E (World.start skb ct)).1 = K.TC_ACT_OK) := by
  have hf := derive_identity_and_revnat_frame K C skb (some 0)
  generalize hr : handle_ipv4 K C E (World.start skb ct) = r
  simp only [handle_ipv4, World.start, World.emit, Run.pure_bind] at hr
  repeat' first
    | (replace hr := call_bind_eq hr; obtain ⟨x, hx, hr⟩ := hr; try dsimp only at hr)
    | (replace hr := ite_inv hr; rcases hr with ⟨h, hr⟩ | ⟨h, hr⟩)
    | split at hr
  all_goals (simp only [Run.run_pure] at hr; subst hr)
  all_goals subst_vars
  all_goals simp_all [Event.endpoint_lookup, Event.local_delivery, Event.encap,
    Event.redirect_call, reverse_proxy_call4, endpoint_stage_packet4]
  all_goals (first | (exact absurd hproxy.2 (not_le.mpr h)) | (intro hn; simp [hn] at *))

set_option maxHeartbeats 4000000 in
/-- The path of `handle_ipv6` for a destination under the router prefix that
has no local endpoint. -/
theorem handle_ipv6_miss {σ : Type} (K : Consts) (C : Config) (E : Env σ) (skb : SkBuff)
    (ct : σ)
    (hvalid : ¬ skb.data + K.ETH_HLEN + K.sizeof_ipv6hdr > skb.data_end)
    (hicmp : C.HANDLE_NS = true →
      (E.ipv6_hdrlen skb K.ETH_HLEN skb.ip6.nexthdr).2 = K.IPPROTO_ICMPV6 →
      K.IS_ERR (E.icmp6_handle skb K.ETH_HLEN skb.ip6).1 = false)
    (hrange : ipv6_match_prefix_96 (icmp6_stage_packet K C E skb).ip6.daddr C.ROUTER_IP = true)
    (hproxy : C.FROM_HOST = true →
      K.IS_ERR (reverse_proxy_call6 K C E skb).1 = false ∧
      ¬ (reverse_proxy_call6 K C E skb).2.data + K.sizeof_ipv6hdr + K.ETH_HLEN >
        (reverse_proxy_call6 K C E skb).2.data_end)
    (hmiss : E.lookup_ip6_endpoint (endpoint_stage_packet6 K C E skb).ip6 = none) :
    (handle_ipv6 K C E (World.start skb ct)).2.calls.filterMap Event.endpoint_lookup = [none] ∧
    (handle_ipv6 K C E (World.start skb ct)).2.calls.filterMap Event.local_delivery = [] ∧
    (C.ENCAP_IFINDEX.isSome = true →
      ∃ secctx, (handle_ipv6 K C E (World.start skb ct)).2.calls.filterMap Event.encap =
          [({ ip4 := 0,
              ip6 := { p1 := (endpoint_stage_packet6 K C E skb).ip6.daddr.p1,
                       p2 := (endpoint_stage_packet6 K C E skb).ip6.daddr.p2,
                       p3 := (endpoint_stage_packet6 K C E skb).ip6.daddr.p3, p4 := 0 },
              family := K.ENDPOINT_KEY_IPV6 }, secctx,
            E.encap_and_redirect (endpoint_stage_packet6 K C E skb)
              { ip4 := 0,
                ip6 := { p1 := (endpoint_stage_packet6 K C E skb).ip6.daddr.p1,
                         p2 := (endpoint_stage_packet6 K C E skb).ip6.daddr.p2,
                         p3 := (endpoint_stage_packet6 K C E skb).ip6.daddr.p3, p4 := 0 },
                family := K.ENDPOINT_KEY_IPV6 } secctx)] ∧
        (handle_ipv6 K C E (World.start skb ct)).1 =
          E.encap_and_redirect (endpoint_stage_packet6 K C E skb)
            { ip4 := 0,
              ip6 := { p1 := (endpoint_stage_packet6 K C E skb).ip6.daddr.p1,
                       p2 := (endpoint_stage_packet6 K C E skb).ip6.daddr.p2,
                       p3 := (endpoint_stage_packet6 K C E skb).ip6.daddr.p3, p4 := 0 },
              family := K.ENDPOINT_KEY_IPV6 } secctx) ∧
    (C.ENCAP_IFINDEX = none →
      (handle_ipv6 K C E (World.start skb ct)).2.calls.filterMap Event.encap = [] ∧
      (handle_ipv6 K C E (World.start skb ct)).2.calls.filterMap Event.redirect_call = [] ∧
      (handle_ipv6 K C E (World.start skb ct)).1 = K.TC_ACT_OK) := by
  have hf := fun s => derive_ip6_identity_and_revnat_frame K C s C.ROUTER_IP
  generalize hr : handle_ipv6 K C E (World.start skb ct) = r
  simp only [handle_ipv6, World.start, World.emit, Run.pure_bind] at hr
  repeat' first
    | (replace hr := call_bind_eq hr; obtain ⟨x, hx, hr⟩ := hr; try dsimp only at hr)
    | (replace hr := ite_inv hr; rcases hr with ⟨h, hr⟩ | ⟨h, hr⟩)
    | split at hr
  all_goals (simp only [Run.run_pure] at hr; subst hr)
  all_goals subst_vars
  all_goals simp_all [Event.endpoint_lookup, Event.local_delivery, Event.encap,
    Event.redirect_call, reverse_proxy_call6, endpoint_stage_packet6, icmp6_stage_packet]
  all_goals (first | (exact absurd hproxy.2 (not_le.mpr h)) | (intro hn; simp [hn] at *))

/-- C8: a destination inside the local range that has no local endpoint.
First part, `handle_ipv4`: for a packet whose IPv4 header is in bounds and
whose destination is in the cluster range (from the host: when
`reverse_proxy` does not fail and leaves the header in bounds), when
`lookup_ip4_endpoint` finds nothing for the packet, the endpoint lookup is
made once and no local delivery is made; with `ENCAP_IFINDEX` defined the
handler calls `encap_and_redirect` once, with the key of family IPv4 and
`daddr & IPV4_MASK`, and returns its result; with `ENCAP_IFINDEX` undefined it
calls neither `encap_and_redirect` nor `redirect` and returns `TC_ACT_OK`.
Second part, `handle_ipv6`: the same for a packet whose IPv6 header is in
bounds and whose destination is under the router prefix (when the ICMPv6
responder, if it is called, does not fail), the key being of family IPv6 with
the destination address whose last 32-bit word is set to 0. -/
theorem missing_endpoint_encap {σ : Type} (K : Consts) (C : Config) (E : Env σ)
    (skb : SkBuff) (ct : σ) :
    (¬ skb.data + K.sizeof_iphdr + K.ETH_HLEN > skb.data_end →
      skb.ip4.daddr &&& C.IPV4_CLUSTER_MASK = C.IPV4_CLUSTER_RANGE →
      (C.FROM_HOST = true →
        K.IS_ERR (reverse_proxy_call4 K C E skb).1 = false ∧
        ¬ (reverse_proxy_call4 K C E skb).2.1.data + K.sizeof_iphdr + K.ETH_HLEN >
          (reverse_proxy_call4 K C E skb).2.1.data_end) →
      E.lookup_ip4_endpoint (endpoint_stage_packet4 K C E skb).ip4 = none →
      (handle_ipv4 K C E (World.start skb ct)).2.calls.filterMap Event.endpoint_lookup =
        [none] ∧
      (handle_ipv4 K C E (World.start skb ct)).2.calls.filterMap Event.local_delivery = [] ∧
      (C.ENCAP_IFINDEX.isSome = true →
        ∃ secctx, (handle_ipv4 K C E (World.start skb ct)).2.calls.filterMap Event.encap =
            [({ ip4 := (endpoint_stage_packet4 K C E skb).ip4.daddr &&& C.IPV4_MASK, ip6 := {},
                family := K.ENDPOINT_KEY_IPV4 }, secctx,
              E.encap_and_redirect (endpoint_stage_packet4 K C E skb)
                { ip4 := (endpoint_stage_packet4 K C E skb).ip4.daddr &&& C.IPV4_MASK,
                  ip6 := {}, family := K.ENDPOINT_KEY_IPV4 } secctx)] ∧
          (handle_ipv4 K C E (World.start skb ct)).1 =
            E.encap_and_redirect (endpoint_stage_packet4 K C E skb)
              { ip4 := (endpoint_stage_packet4 K C E skb).ip4.daddr &&& C.IPV4_MASK,
                ip6 := {}, family := K.ENDPOINT_KEY_IPV4 } secctx) ∧
      (C.ENCAP_IFINDEX = none →
        (handle_ipv4 K C E (World.start skb ct)).2.calls.filterMap Event.encap = [] ∧
        (handle_ipv4 K C E (World.start skb ct)).2.calls.filterMap Event.redirect_call = [] ∧
        (handle_ipv4 K C E (World.start skb ct)).1 = K.TC_ACT_OK)) ∧
    (¬ skb.data + K.ETH_HLEN + K.sizeof_ipv6hdr > skb.data_end →
      (C.HANDLE_NS = true →
        (E.ipv6_hdrlen skb K.ETH_HLEN skb.ip6.nexthdr).2 = K.IPPROTO_ICMPV6 →
        K.IS_ERR (E.icmp6_handle skb K.ETH_HLEN skb.ip6).1 = false) →
      ipv6_match_prefix_96 (icmp6_stage_packet K C E skb).ip6.daddr C.ROUTER_IP = true →
      (C.FROM_HOST = true →
        K.IS_ERR (reverse_proxy_call6 K C E skb).1 = false ∧
        ¬ (reverse_proxy_call6 K C E skb).2.data + K.sizeof_ipv6hdr + K.ETH_HLEN >
          (reverse_proxy_call6 K C E skb).2.data_end) →
      E.lookup_ip6_endpoint (endpoint_stage_packet6 K C E skb).ip6 = none →
      (handle_ipv6 K C E (World.start skb ct)).2.calls.filterMap Event.endpoint_lookup =
        [none] ∧
      (handle_ipv6 K C E (World.start skb ct)).2.calls.filterMap Event.local_delivery = [] ∧
      (C.ENCAP_IFINDEX.isSome = true →
        ∃ secctx, (handle_ipv6 K C E (World.start skb ct)).2.calls.filterMap Event.encap =
            [({ ip4 := 0,
                ip6 := { p1 := (endpoint_stage_packet6 K C E skb).ip6.daddr.p1,
                         p2 := (endpoint_stage_packet6 K C E skb).ip6.daddr.p2,
                         p3 := (endpoint_stage_packet6 K C E skb).ip6.daddr.p3, p4 := 0 },
                family := K.ENDPOINT_KEY_IPV6 }, secctx,
              E.encap_and_redirect (endpoint_stage_packet6 K C E skb)
                { ip4 := 0,
                  ip6 := { p1 := (endpoint_stage_packet6 K C E skb).ip6.daddr.p1,
                           p2 := (endpoint_stage_packet6 K C E skb).ip6.daddr.p2,
                           p3 := (endpoint_stage_packet6 K C E skb).ip6.daddr.p3, p4 := 0 },
                  family := K.ENDPOINT_KEY_IPV6 } secctx)] ∧
          (handle_ipv6 K C E (World.start skb ct)).1 =
            E.encap_and_redirect (endpoint_stage_packet6 K C E skb)
              { ip4 := 0,
                ip6 := { p1 := (endpoint_stage_packet6 K C E skb).ip6.daddr.p1,
                         p2 := (endpoint_stage_packet6 K C E skb).ip6.daddr.p2,
                         p3 := (endpoint_stage_packet6 K C E skb).ip6.daddr.p3, p4 := 0 },
                family := K.ENDPOINT_KEY_IPV6 } secctx) ∧
      (C.ENCAP_IFINDEX = none →
        (handle_ipv6 K C E (World.start skb ct)).2.calls.filterMap Event.encap = [] ∧
        (handle_ipv6 K C E (World.start skb ct)).2.calls.filterMap Event.redirect_call = [] ∧
        (handle_ipv6 K C E (World.start skb ct)).1 = K.TC_ACT_OK)) :=
  ⟨handle_ipv4_miss K C E skb ct, handle_ipv6_miss K C E skb ct⟩

/-- C8 at the sample packets with no local endpoint.  IPv4, to 10.15.2.3:
with encapsulation the key is 10.15.2.0 and the result that of
`encap_and_redirect` (7); without it nothing is redirected and the result is
`TC_ACT_OK`.  IPv6: the key is the destination with its last word cleared. -/
theorem missing_endpoint_encap_witness :
    ((handle_ipv4 sampleConsts sampleConfig sampleEnv
        (World.start samplePacket4 [])).2.calls.filterMap Event.endpoint_lookup = [none] ∧
      (handle_ipv4 sampleConsts sampleConfig sampleEnv
        (World.start samplePacket4 [])).2.calls.filterMap Event.encap =
        [({ ip4 := 0x0A0F0200, ip6 := {}, family := 1 }, 2, 7)] ∧
      (handle_ipv4 sampleConsts sampleConfig sampleEnv (World.start samplePacket4 [])).1 = 7) ∧
    ((handle_ipv4 sampleConsts sampleConfigNoEncap sampleEnv
        (World.start samplePacket4 [])).2.calls.filterMap Event.encap = [] ∧
      (handle_ipv4 sampleConsts sampleConfigNoEncap sampleEnv
        (World.start samplePacket4 [])).2.calls.filterMap Event.redirect_call = [] ∧
      (handle_ipv4 sampleConsts sampleConfigNoEncap sampleEnv
        (World.start samplePacket4 [])).1 = sampleConsts.TC_ACT_OK) ∧
    ((handle_ipv6 sampleConsts sampleConfig sampleEnv
        (World.start samplePacket6 [])).2.calls.filterMap Event.endpoint_lookup = [none] ∧
      (handle_ipv6 sampleConsts sampleConfig sampleEnv
        (World.start samplePacket6 [])).2.calls.filterMap Event.encap =
        [({ ip4 := 0, ip6 := { p1 := 0xbeef0000, p2 := 0, p3 := 0x0a000001, p4 := 0 },
            family := 2 }, 2, 7)]) ∧
    ((handle_ipv6 sampleConsts sampleConfigNoEncap sampleEnv
        (World.start samplePacket6 [])).2.calls.filterMap Event.encap = [] ∧
      (handle_ipv6 sampleConsts sampleConfigNoEncap sampleEnv
        (World.start samplePacket6 [])).2.calls.filterMap Event.redirect_call = [] ∧
      (handle_ipv6 sampleConsts sampleConfigNoEncap sampleEnv
        (World.start samplePacket6 [])).1 = sampleConsts.TC_ACT_OK) :=
  ⟨⟨((missing_endpoint_encap sampleConsts sampleConfig sampleEnv samplePacket4 []).1
        (by decide) (by decide) (fun h => absurd h (by decide)) rfl).1,
      by with_unfolding_all rfl, by with_unfolding_all rfl⟩,
   (((missing_endpoint_encap sampleConsts sampleConfigNoEncap sampleEnv samplePacket4 []).1
        (by decide) (by decide) (fun h => absurd h (by decide)) rfl).2.2.2 rfl),
   ⟨((missing_endpoint_encap sampleConsts sampleConfig sampleEnv samplePacket6 []).2
        (by decide) (fun _ h => absurd h (by decide)) (by decide)
        (fun h => absurd h (by decide)) rfl).1,
      by with_unfolding_all rfl⟩,
   (((missing_endpoint_encap sampleConsts sampleConfigNoEncap sampleEnv samplePacket6 []).2
        (by decide) (fun _ h => absurd h (by decide)) (by decide)
        (fun h => absurd h (by decide)) rfl).2.2.2 rfl)⟩

end Netdev
